import Mathlib

/-!
# Verification of the txtx runbook grammar (crates/tree-sitter-txtx/src/parser.c)

This file embeds the generated tree-sitter tables of the txtx DSL grammar —
the lexing automaton `ts_lex`, the LR parse tables, the parse actions, and the
field maps — as executable Lean definitions, transcribed entry-for-entry from
`parser.c`.  On top of the tables we run a driver implementing the table
interpretation (shift, reduce, goto, extras, accept) together with the
panic-mode error recovery; the driver semantics are modelled from the design
document, since the table interpreter itself is not part of the transcribed
source file.  The theorems at the end settle the behavioural claims about the
grammar: keyword dispatch, reference segmentation, attribute fields, comment
lexing, reserved words, operator precedence, number lexing, rejection of unary
minus and parenthesised grouping, round-trip fidelity, and empty-input parses.

Symbol numbering follows the enum in `parser.c`:
tokens 0..39 (0 = end, 1 = addon, 2 = signer, 3 = action, 4 = output,
5 = variable, 6 = input, 7 = EQ, 8 = import, 9 = LBRACE, 10 = RBRACE,
11 = DQUOTE, 12/14/16 = string content, 13 = SQUOTE, 15 = triple DQUOTE,
17/18/19 = hex/fraction/integer number content, 20 = true, 21 = false,
22 = null, 23 = LBRACK, 24 = COMMA, 25 = RBRACK, 26 = COLON, 27 = DOT,
28 = LPAREN, 29 = RPAREN, 30 = STAR, 31 = SLASH, 32 = PLUS, 33 = DASH,
34 = identifier, 35 = POUND, 36/39 = comment content, 37 = SLASH SLASH,
38 = SLASH STAR); non-terminals 40..67 (40 = runbook, 41 = _statement,
42 = addon_block, 43 = signer_block, 44 = action_block, 45 = output_block,
46 = variable_declaration, 47 = input_declaration, 48 = import_statement,
49 = block, 50 = attribute, 51 = _expression, 52 = string, 53 = number,
54 = boolean, 55 = array, 56 = object, 57 = object_field, 58 = reference,
59 = index_access, 60 = function_call, 61 = binary_expression, 62 = comment,
63..67 = aux repeat symbols).  Field numbering: 1 = arguments, 2 = config,
3 = key, 4 = name, 5 = network, 6 = path, 7 = type, 8 = value.
-/

namespace Txtx

/-- Outcome of one step of the lexing automaton. -/
inductive LAct where
  | adv (s : Nat)
  | skp (s : Nat)
  | stuck
deriving DecidableEq, Repr

/-- A parse action from `ts_parse_actions`. -/
inductive PAct where
  | shift (s : Nat)
  | shiftRep (s : Nat)
  | reduce (sym cnt pid : Nat)
  | acceptInput
  | recover
deriving DecidableEq, Repr

/-- A transition guard of the lexing automaton: the end-of-input test, a
disjunction of inclusive byte ranges, or a conjunction of byte exclusions
(the latter never matches at end of input, where the lookahead byte is 0,
because every exclusion list contains 0). -/
inductive LCond where
  | eofc
  | anyIn (rs : List (Nat × Nat))
  | noneOf (cs : List Nat)
deriving DecidableEq, Repr

/-- One guarded transition of a lexing automaton state. -/
structure LArm where
  cond : LCond
  isSkip : Bool
  target : Nat
deriving DecidableEq, Repr

/-- One state of the lexing automaton. -/
structure LState where
  accept : Option Nat
  arms : List LArm
deriving DecidableEq, Repr

/-- Whether a guard matches the given end-of-input flag and lookahead byte. -/
def condHolds : LCond → Bool → Nat → Bool
  | .eofc, e, _ => e
  | .anyIn rs, _, c => rs.any (fun r => Nat.ble r.1 c && Nat.ble c r.2)
  | .noneOf cs, _, c => cs.all (fun x => !(c == x))
-- Generated transcription of the tables in crates/tree-sitter-txtx/src/parser.c.

/-- Lex state 0 of `ts_lex`. -/
def lexSt0 : LState :=
  ⟨none,
  [ ⟨.eofc, false, 47⟩,
    ⟨.anyIn [(34, 34)], false, 66⟩,
    ⟨.anyIn [(35, 35)], false, 141⟩,
    ⟨.anyIn [(39, 39)], false, 70⟩,
    ⟨.anyIn [(40, 40)], false, 91⟩,
    ⟨.anyIn [(41, 41)], false, 92⟩,
    ⟨.anyIn [(42, 42)], false, 93⟩,
    ⟨.anyIn [(43, 43)], false, 95⟩,
    ⟨.anyIn [(44, 44)], false, 87⟩,
    ⟨.anyIn [(45, 45)], false, 96⟩,
    ⟨.anyIn [(46, 46)], false, 90⟩,
    ⟨.anyIn [(47, 47)], false, 94⟩,
    ⟨.anyIn [(48, 48)], false, 81⟩,
    ⟨.anyIn [(58, 58)], false, 89⟩,
    ⟨.anyIn [(61, 61)], false, 60⟩,
    ⟨.anyIn [(91, 91)], false, 86⟩,
    ⟨.anyIn [(93, 93)], false, 88⟩,
    ⟨.anyIn [(97, 97)], false, 101⟩,
    ⟨.anyIn [(102, 102)], false, 97⟩,
    ⟨.anyIn [(105, 105)], false, 115⟩,
    ⟨.anyIn [(110, 110)], false, 137⟩,
    ⟨.anyIn [(111, 111)], false, 136⟩,
    ⟨.anyIn [(115, 115)], false, 108⟩,
    ⟨.anyIn [(116, 116)], false, 126⟩,
    ⟨.anyIn [(118, 118)], false, 99⟩,
    ⟨.anyIn [(123, 123)], false, 63⟩,
    ⟨.anyIn [(125, 125)], false, 64⟩,
    ⟨.anyIn [(9, 9), (10, 10), (13, 13), (32, 32)], true, 0⟩,
    ⟨.anyIn [(49, 57)], false, 82⟩,
    ⟨.anyIn [(65, 90), (95, 95), (98, 122)], false, 140⟩ ]⟩

/-- Lex state 1 of `ts_lex`. -/
def lexSt1 : LState :=
  ⟨none,
  [ ⟨.anyIn [(34, 34)], false, 66⟩,
    ⟨.anyIn [(35, 35)], false, 141⟩,
    ⟨.anyIn [(39, 39)], false, 70⟩,
    ⟨.anyIn [(40, 40)], false, 91⟩,
    ⟨.anyIn [(42, 42)], false, 93⟩,
    ⟨.anyIn [(43, 43)], false, 95⟩,
    ⟨.anyIn [(44, 44)], false, 87⟩,
    ⟨.anyIn [(45, 45)], false, 96⟩,
    ⟨.anyIn [(46, 46)], false, 90⟩,
    ⟨.anyIn [(47, 47)], false, 94⟩,
    ⟨.anyIn [(91, 91)], false, 86⟩,
    ⟨.anyIn [(125, 125)], false, 64⟩,
    ⟨.anyIn [(9, 9), (10, 10), (13, 13), (32, 32)], true, 1⟩,
    ⟨.anyIn [(65, 90), (95, 95), (97, 122)], false, 140⟩ ]⟩

/-- Lex state 2 of `ts_lex`. -/
def lexSt2 : LState :=
  ⟨none,
  [ ⟨.anyIn [(34, 34)], false, 66⟩,
    ⟨.anyIn [(35, 35)], false, 141⟩,
    ⟨.anyIn [(39, 39)], false, 70⟩,
    ⟨.anyIn [(41, 41)], false, 92⟩,
    ⟨.anyIn [(44, 44)], false, 87⟩,
    ⟨.anyIn [(47, 47)], false, 8⟩,
    ⟨.anyIn [(48, 48)], false, 81⟩,
    ⟨.anyIn [(91, 91)], false, 86⟩,
    ⟨.anyIn [(93, 93)], false, 88⟩,
    ⟨.anyIn [(102, 102)], false, 97⟩,
    ⟨.anyIn [(110, 110)], false, 137⟩,
    ⟨.anyIn [(116, 116)], false, 126⟩,
    ⟨.anyIn [(123, 123)], false, 63⟩,
    ⟨.anyIn [(9, 9), (10, 10), (13, 13), (32, 32)], true, 2⟩,
    ⟨.anyIn [(49, 57)], false, 82⟩,
    ⟨.anyIn [(65, 90), (95, 95), (97, 122)], false, 140⟩ ]⟩

/-- Lex state 3 of `ts_lex`. -/
def lexSt3 : LState :=
  ⟨none,
  [ ⟨.anyIn [(34, 34)], false, 74⟩ ]⟩

/-- Lex state 4 of `ts_lex`. -/
def lexSt4 : LState :=
  ⟨none,
  [ ⟨.anyIn [(34, 34)], false, 5⟩,
    ⟨.anyIn [(35, 35)], false, 141⟩,
    ⟨.anyIn [(47, 47)], false, 77⟩,
    ⟨.anyIn [(9, 9), (10, 10), (13, 13), (32, 32)], false, 76⟩,
    ⟨.noneOf [0], false, 75⟩ ]⟩

/-- Lex state 5 of `ts_lex`. -/
def lexSt5 : LState :=
  ⟨none,
  [ ⟨.anyIn [(34, 34)], false, 78⟩,
    ⟨.noneOf [0], false, 75⟩ ]⟩

/-- Lex state 6 of `ts_lex`. -/
def lexSt6 : LState :=
  ⟨none,
  [ ⟨.anyIn [(34, 34)], false, 65⟩,
    ⟨.anyIn [(35, 35)], false, 141⟩,
    ⟨.anyIn [(47, 47)], false, 8⟩,
    ⟨.anyIn [(9, 9), (10, 10), (13, 13), (32, 32)], true, 6⟩ ]⟩

/-- Lex state 7 of `ts_lex`. -/
def lexSt7 : LState :=
  ⟨none,
  [ ⟨.anyIn [(35, 35)], false, 142⟩,
    ⟨.anyIn [(42, 42)], false, 159⟩,
    ⟨.anyIn [(47, 47)], false, 10⟩,
    ⟨.anyIn [(9, 9), (10, 10), (13, 13), (32, 32)], false, 7⟩,
    ⟨.noneOf [0], false, 9⟩ ]⟩

/-- Lex state 8 of `ts_lex`. -/
def lexSt8 : LState :=
  ⟨none,
  [ ⟨.anyIn [(42, 42)], false, 154⟩,
    ⟨.anyIn [(47, 47)], false, 149⟩ ]⟩

/-- Lex state 9 of `ts_lex`. -/
def lexSt9 : LState :=
  ⟨none,
  [ ⟨.anyIn [(42, 42)], false, 159⟩,
    ⟨.noneOf [0], false, 9⟩ ]⟩

/-- Lex state 10 of `ts_lex`. -/
def lexSt10 : LState :=
  ⟨none,
  [ ⟨.anyIn [(42, 42)], false, 155⟩,
    ⟨.anyIn [(47, 47)], false, 150⟩,
    ⟨.noneOf [0], false, 9⟩ ]⟩

/-- Lex state 11 of `ts_lex`. -/
def lexSt11 : LState :=
  ⟨none,
  [ ⟨.anyIn [(97, 97)], false, 34⟩ ]⟩

/-- Lex state 12 of `ts_lex`. -/
def lexSt12 : LState :=
  ⟨none,
  [ ⟨.anyIn [(97, 97)], false, 13⟩ ]⟩

/-- Lex state 13 of `ts_lex`. -/
def lexSt13 : LState :=
  ⟨none,
  [ ⟨.anyIn [(98, 98)], false, 22⟩ ]⟩

/-- Lex state 14 of `ts_lex`. -/
def lexSt14 : LState :=
  ⟨none,
  [ ⟨.anyIn [(99, 99)], false, 39⟩,
    ⟨.anyIn [(100, 100)], false, 15⟩ ]⟩

/-- Lex state 15 of `ts_lex`. -/
def lexSt15 : LState :=
  ⟨none,
  [ ⟨.anyIn [(100, 100)], false, 28⟩ ]⟩

/-- Lex state 16 of `ts_lex`. -/
def lexSt16 : LState :=
  ⟨none,
  [ ⟨.anyIn [(101, 101)], false, 56⟩ ]⟩

/-- Lex state 17 of `ts_lex`. -/
def lexSt17 : LState :=
  ⟨none,
  [ ⟨.anyIn [(101, 101)], false, 33⟩ ]⟩

/-- Lex state 18 of `ts_lex`. -/
def lexSt18 : LState :=
  ⟨none,
  [ ⟨.anyIn [(103, 103)], false, 24⟩ ]⟩

/-- Lex state 19 of `ts_lex`. -/
def lexSt19 : LState :=
  ⟨none,
  [ ⟨.anyIn [(105, 105)], false, 18⟩ ]⟩

/-- Lex state 20 of `ts_lex`. -/
def lexSt20 : LState :=
  ⟨none,
  [ ⟨.anyIn [(105, 105)], false, 12⟩ ]⟩

/-- Lex state 21 of `ts_lex`. -/
def lexSt21 : LState :=
  ⟨none,
  [ ⟨.anyIn [(105, 105)], false, 29⟩ ]⟩

/-- Lex state 22 of `ts_lex`. -/
def lexSt22 : LState :=
  ⟨none,
  [ ⟨.anyIn [(108, 108)], false, 16⟩ ]⟩

/-- Lex state 23 of `ts_lex`. -/
def lexSt23 : LState :=
  ⟨none,
  [ ⟨.anyIn [(109, 109)], false, 30⟩,
    ⟨.anyIn [(110, 110)], false, 31⟩ ]⟩

/-- Lex state 24 of `ts_lex`. -/
def lexSt24 : LState :=
  ⟨none,
  [ ⟨.anyIn [(110, 110)], false, 17⟩ ]⟩

/-- Lex state 25 of `ts_lex`. -/
def lexSt25 : LState :=
  ⟨none,
  [ ⟨.anyIn [(110, 110)], false, 48⟩ ]⟩

/-- Lex state 26 of `ts_lex`. -/
def lexSt26 : LState :=
  ⟨none,
  [ ⟨.anyIn [(110, 110)], false, 52⟩ ]⟩

/-- Lex state 27 of `ts_lex`. -/
def lexSt27 : LState :=
  ⟨none,
  [ ⟨.anyIn [(111, 111)], false, 35⟩ ]⟩

/-- Lex state 28 of `ts_lex`. -/
def lexSt28 : LState :=
  ⟨none,
  [ ⟨.anyIn [(111, 111)], false, 25⟩ ]⟩

/-- Lex state 29 of `ts_lex`. -/
def lexSt29 : LState :=
  ⟨none,
  [ ⟨.anyIn [(111, 111)], false, 26⟩ ]⟩

/-- Lex state 30 of `ts_lex`. -/
def lexSt30 : LState :=
  ⟨none,
  [ ⟨.anyIn [(112, 112)], false, 27⟩ ]⟩

/-- Lex state 31 of `ts_lex`. -/
def lexSt31 : LState :=
  ⟨none,
  [ ⟨.anyIn [(112, 112)], false, 42⟩ ]⟩

/-- Lex state 32 of `ts_lex`. -/
def lexSt32 : LState :=
  ⟨none,
  [ ⟨.anyIn [(112, 112)], false, 43⟩ ]⟩

/-- Lex state 33 of `ts_lex`. -/
def lexSt33 : LState :=
  ⟨none,
  [ ⟨.anyIn [(114, 114)], false, 50⟩ ]⟩

/-- Lex state 34 of `ts_lex`. -/
def lexSt34 : LState :=
  ⟨none,
  [ ⟨.anyIn [(114, 114)], false, 20⟩ ]⟩

/-- Lex state 35 of `ts_lex`. -/
def lexSt35 : LState :=
  ⟨none,
  [ ⟨.anyIn [(114, 114)], false, 37⟩ ]⟩

/-- Lex state 36 of `ts_lex`. -/
def lexSt36 : LState :=
  ⟨none,
  [ ⟨.anyIn [(116, 116)], false, 58⟩ ]⟩

/-- Lex state 37 of `ts_lex`. -/
def lexSt37 : LState :=
  ⟨none,
  [ ⟨.anyIn [(116, 116)], false, 61⟩ ]⟩

/-- Lex state 38 of `ts_lex`. -/
def lexSt38 : LState :=
  ⟨none,
  [ ⟨.anyIn [(116, 116)], false, 54⟩ ]⟩

/-- Lex state 39 of `ts_lex`. -/
def lexSt39 : LState :=
  ⟨none,
  [ ⟨.anyIn [(116, 116)], false, 21⟩ ]⟩

/-- Lex state 40 of `ts_lex`. -/
def lexSt40 : LState :=
  ⟨none,
  [ ⟨.anyIn [(116, 116)], false, 32⟩ ]⟩

/-- Lex state 41 of `ts_lex`. -/
def lexSt41 : LState :=
  ⟨none,
  [ ⟨.anyIn [(117, 117)], false, 40⟩ ]⟩

/-- Lex state 42 of `ts_lex`. -/
def lexSt42 : LState :=
  ⟨none,
  [ ⟨.anyIn [(117, 117)], false, 36⟩ ]⟩

/-- Lex state 43 of `ts_lex`. -/
def lexSt43 : LState :=
  ⟨none,
  [ ⟨.anyIn [(117, 117)], false, 38⟩ ]⟩

/-- Lex state 44 of `ts_lex`. -/
def lexSt44 : LState :=
  ⟨none,
  [ ⟨.anyIn [(48, 57)], false, 80⟩ ]⟩

/-- Lex state 45 of `ts_lex`. -/
def lexSt45 : LState :=
  ⟨none,
  [ ⟨.anyIn [(48, 57), (65, 70), (97, 102)], false, 79⟩ ]⟩

/-- Lex state 46 of `ts_lex`. -/
def lexSt46 : LState :=
  ⟨none,
  [ ⟨.eofc, false, 47⟩,
    ⟨.anyIn [(34, 34)], false, 66⟩,
    ⟨.anyIn [(35, 35)], false, 141⟩,
    ⟨.anyIn [(39, 39)], false, 70⟩,
    ⟨.anyIn [(40, 40)], false, 91⟩,
    ⟨.anyIn [(41, 41)], false, 92⟩,
    ⟨.anyIn [(42, 42)], false, 93⟩,
    ⟨.anyIn [(43, 43)], false, 95⟩,
    ⟨.anyIn [(44, 44)], false, 87⟩,
    ⟨.anyIn [(45, 45)], false, 96⟩,
    ⟨.anyIn [(46, 46)], false, 90⟩,
    ⟨.anyIn [(47, 47)], false, 94⟩,
    ⟨.anyIn [(58, 58)], false, 89⟩,
    ⟨.anyIn [(61, 61)], false, 60⟩,
    ⟨.anyIn [(91, 91)], false, 86⟩,
    ⟨.anyIn [(93, 93)], false, 88⟩,
    ⟨.anyIn [(97, 97)], false, 14⟩,
    ⟨.anyIn [(105, 105)], false, 23⟩,
    ⟨.anyIn [(111, 111)], false, 41⟩,
    ⟨.anyIn [(115, 115)], false, 19⟩,
    ⟨.anyIn [(118, 118)], false, 11⟩,
    ⟨.anyIn [(123, 123)], false, 63⟩,
    ⟨.anyIn [(125, 125)], false, 64⟩,
    ⟨.anyIn [(9, 9), (10, 10), (13, 13), (32, 32)], true, 46⟩ ]⟩

/-- Lex state 47 of `ts_lex`. -/
def lexSt47 : LState := ⟨some 0, []⟩

/-- Lex state 48 of `ts_lex`. -/
def lexSt48 : LState := ⟨some 1, []⟩

/-- Lex state 49 of `ts_lex`. -/
def lexSt49 : LState :=
  ⟨some 1,
  [ ⟨.anyIn [(48, 57), (65, 90), (95, 95), (97, 122)], false, 140⟩ ]⟩

/-- Lex state 50 of `ts_lex`. -/
def lexSt50 : LState := ⟨some 2, []⟩

/-- Lex state 51 of `ts_lex`. -/
def lexSt51 : LState :=
  ⟨some 2,
  [ ⟨.anyIn [(48, 57), (65, 90), (95, 95), (97, 122)], false, 140⟩ ]⟩

/-- Lex state 52 of `ts_lex`. -/
def lexSt52 : LState := ⟨some 3, []⟩

/-- Lex state 53 of `ts_lex`. -/
def lexSt53 : LState :=
  ⟨some 3,
  [ ⟨.anyIn [(48, 57), (65, 90), (95, 95), (97, 122)], false, 140⟩ ]⟩

/-- Lex state 54 of `ts_lex`. -/
def lexSt54 : LState := ⟨some 4, []⟩

/-- Lex state 55 of `ts_lex`. -/
def lexSt55 : LState :=
  ⟨some 4,
  [ ⟨.anyIn [(48, 57), (65, 90), (95, 95), (97, 122)], false, 140⟩ ]⟩

/-- Lex state 56 of `ts_lex`. -/
def lexSt56 : LState := ⟨some 5, []⟩

/-- Lex state 57 of `ts_lex`. -/
def lexSt57 : LState :=
  ⟨some 5,
  [ ⟨.anyIn [(48, 57), (65, 90), (95, 95), (97, 122)], false, 140⟩ ]⟩

/-- Lex state 58 of `ts_lex`. -/
def lexSt58 : LState := ⟨some 6, []⟩

/-- Lex state 59 of `ts_lex`. -/
def lexSt59 : LState :=
  ⟨some 6,
  [ ⟨.anyIn [(48, 57), (65, 90), (95, 95), (97, 122)], false, 140⟩ ]⟩

/-- Lex state 60 of `ts_lex`. -/
def lexSt60 : LState := ⟨some 7, []⟩

/-- Lex state 61 of `ts_lex`. -/
def lexSt61 : LState := ⟨some 8, []⟩

/-- Lex state 62 of `ts_lex`. -/
def lexSt62 : LState :=
  ⟨some 8,
  [ ⟨.anyIn [(48, 57), (65, 90), (95, 95), (97, 122)], false, 140⟩ ]⟩

/-- Lex state 63 of `ts_lex`. -/
def lexSt63 : LState := ⟨some 9, []⟩

/-- Lex state 64 of `ts_lex`. -/
def lexSt64 : LState := ⟨some 10, []⟩

/-- Lex state 65 of `ts_lex`. -/
def lexSt65 : LState := ⟨some 11, []⟩

/-- Lex state 66 of `ts_lex`. -/
def lexSt66 : LState :=
  ⟨some 11,
  [ ⟨.anyIn [(34, 34)], false, 3⟩ ]⟩

/-- Lex state 67 of `ts_lex`. -/
def lexSt67 : LState :=
  ⟨some 12,
  [ ⟨.anyIn [(35, 35)], false, 144⟩,
    ⟨.anyIn [(47, 47)], false, 68⟩,
    ⟨.anyIn [(9, 9), (10, 10), (13, 13), (32, 32)], false, 67⟩,
    ⟨.noneOf [0, 34], false, 69⟩ ]⟩

/-- Lex state 68 of `ts_lex`. -/
def lexSt68 : LState :=
  ⟨some 12,
  [ ⟨.anyIn [(42, 42)], false, 157⟩,
    ⟨.anyIn [(47, 47)], false, 152⟩,
    ⟨.noneOf [0, 34], false, 69⟩ ]⟩

/-- Lex state 69 of `ts_lex`. -/
def lexSt69 : LState :=
  ⟨some 12,
  [ ⟨.noneOf [0, 34], false, 69⟩ ]⟩

/-- Lex state 70 of `ts_lex`. -/
def lexSt70 : LState := ⟨some 13, []⟩

/-- Lex state 71 of `ts_lex`. -/
def lexSt71 : LState :=
  ⟨some 14,
  [ ⟨.anyIn [(35, 35)], false, 145⟩,
    ⟨.anyIn [(47, 47)], false, 72⟩,
    ⟨.anyIn [(9, 9), (10, 10), (13, 13), (32, 32)], false, 71⟩,
    ⟨.noneOf [0, 39], false, 73⟩ ]⟩

/-- Lex state 72 of `ts_lex`. -/
def lexSt72 : LState :=
  ⟨some 14,
  [ ⟨.anyIn [(42, 42)], false, 158⟩,
    ⟨.anyIn [(47, 47)], false, 153⟩,
    ⟨.noneOf [0, 39], false, 73⟩ ]⟩

/-- Lex state 73 of `ts_lex`. -/
def lexSt73 : LState :=
  ⟨some 14,
  [ ⟨.noneOf [0, 39], false, 73⟩ ]⟩

/-- Lex state 74 of `ts_lex`. -/
def lexSt74 : LState := ⟨some 15, []⟩

/-- Lex state 75 of `ts_lex`. -/
def lexSt75 : LState := ⟨some 16, []⟩

/-- Lex state 76 of `ts_lex`. -/
def lexSt76 : LState :=
  ⟨some 16,
  [ ⟨.anyIn [(34, 34)], false, 5⟩,
    ⟨.anyIn [(35, 35)], false, 141⟩,
    ⟨.anyIn [(47, 47)], false, 77⟩,
    ⟨.anyIn [(9, 9), (10, 10), (13, 13), (32, 32)], false, 76⟩,
    ⟨.noneOf [0], false, 75⟩ ]⟩

/-- Lex state 77 of `ts_lex`. -/
def lexSt77 : LState :=
  ⟨some 16,
  [ ⟨.anyIn [(42, 42)], false, 154⟩,
    ⟨.anyIn [(47, 47)], false, 149⟩ ]⟩

/-- Lex state 78 of `ts_lex`. -/
def lexSt78 : LState :=
  ⟨some 16,
  [ ⟨.noneOf [0, 34], false, 78⟩ ]⟩

/-- Lex state 79 of `ts_lex`. -/
def lexSt79 : LState :=
  ⟨some 17,
  [ ⟨.anyIn [(48, 57), (65, 70), (97, 102)], false, 79⟩ ]⟩

/-- Lex state 80 of `ts_lex`. -/
def lexSt80 : LState :=
  ⟨some 18,
  [ ⟨.anyIn [(48, 57)], false, 80⟩ ]⟩

/-- Lex state 81 of `ts_lex`. -/
def lexSt81 : LState :=
  ⟨some 19,
  [ ⟨.anyIn [(46, 46)], false, 44⟩,
    ⟨.anyIn [(120, 120)], false, 45⟩,
    ⟨.anyIn [(48, 57)], false, 82⟩ ]⟩

/-- Lex state 82 of `ts_lex`. -/
def lexSt82 : LState :=
  ⟨some 19,
  [ ⟨.anyIn [(46, 46)], false, 44⟩,
    ⟨.anyIn [(48, 57)], false, 82⟩ ]⟩

/-- Lex state 83 of `ts_lex`. -/
def lexSt83 : LState :=
  ⟨some 20,
  [ ⟨.anyIn [(48, 57), (65, 90), (95, 95), (97, 122)], false, 140⟩ ]⟩

/-- Lex state 84 of `ts_lex`. -/
def lexSt84 : LState :=
  ⟨some 21,
  [ ⟨.anyIn [(48, 57), (65, 90), (95, 95), (97, 122)], false, 140⟩ ]⟩

/-- Lex state 85 of `ts_lex`. -/
def lexSt85 : LState :=
  ⟨some 22,
  [ ⟨.anyIn [(48, 57), (65, 90), (95, 95), (97, 122)], false, 140⟩ ]⟩

/-- Lex state 86 of `ts_lex`. -/
def lexSt86 : LState := ⟨some 23, []⟩

/-- Lex state 87 of `ts_lex`. -/
def lexSt87 : LState := ⟨some 24, []⟩

/-- Lex state 88 of `ts_lex`. -/
def lexSt88 : LState := ⟨some 25, []⟩

/-- Lex state 89 of `ts_lex`. -/
def lexSt89 : LState := ⟨some 26, []⟩

/-- Lex state 90 of `ts_lex`. -/
def lexSt90 : LState := ⟨some 27, []⟩

/-- Lex state 91 of `ts_lex`. -/
def lexSt91 : LState := ⟨some 28, []⟩

/-- Lex state 92 of `ts_lex`. -/
def lexSt92 : LState := ⟨some 29, []⟩

/-- Lex state 93 of `ts_lex`. -/
def lexSt93 : LState := ⟨some 30, []⟩

/-- Lex state 94 of `ts_lex`. -/
def lexSt94 : LState :=
  ⟨some 31,
  [ ⟨.anyIn [(42, 42)], false, 154⟩,
    ⟨.anyIn [(47, 47)], false, 149⟩ ]⟩

/-- Lex state 95 of `ts_lex`. -/
def lexSt95 : LState := ⟨some 32, []⟩

/-- Lex state 96 of `ts_lex`. -/
def lexSt96 : LState := ⟨some 33, []⟩

/-- Lex state 97 of `ts_lex`. -/
def lexSt97 : LState :=
  ⟨some 34,
  [ ⟨.anyIn [(97, 97)], false, 111⟩,
    ⟨.anyIn [(48, 57), (65, 90), (95, 95), (98, 122)], false, 140⟩ ]⟩

/-- Lex state 98 of `ts_lex`. -/
def lexSt98 : LState :=
  ⟨some 34,
  [ ⟨.anyIn [(97, 97)], false, 100⟩,
    ⟨.anyIn [(48, 57), (65, 90), (95, 95), (98, 122)], false, 140⟩ ]⟩

/-- Lex state 99 of `ts_lex`. -/
def lexSt99 : LState :=
  ⟨some 34,
  [ ⟨.anyIn [(97, 97)], false, 127⟩,
    ⟨.anyIn [(48, 57), (65, 90), (95, 95), (98, 122)], false, 140⟩ ]⟩

/-- Lex state 100 of `ts_lex`. -/
def lexSt100 : LState :=
  ⟨some 34,
  [ ⟨.anyIn [(98, 98)], false, 114⟩,
    ⟨.anyIn [(48, 57), (65, 90), (95, 95), (97, 122)], false, 140⟩ ]⟩

/-- Lex state 101 of `ts_lex`. -/
def lexSt101 : LState :=
  ⟨some 34,
  [ ⟨.anyIn [(99, 99)], false, 133⟩,
    ⟨.anyIn [(100, 100)], false, 102⟩,
    ⟨.anyIn [(48, 57), (65, 90), (95, 95), (97, 122)], false, 140⟩ ]⟩

/-- Lex state 102 of `ts_lex`. -/
def lexSt102 : LState :=
  ⟨some 34,
  [ ⟨.anyIn [(100, 100)], false, 119⟩,
    ⟨.anyIn [(48, 57), (65, 90), (95, 95), (97, 122)], false, 140⟩ ]⟩

/-- Lex state 103 of `ts_lex`. -/
def lexSt103 : LState :=
  ⟨some 34,
  [ ⟨.anyIn [(101, 101)], false, 83⟩,
    ⟨.anyIn [(48, 57), (65, 90), (95, 95), (97, 122)], false, 140⟩ ]⟩

/-- Lex state 104 of `ts_lex`. -/
def lexSt104 : LState :=
  ⟨some 34,
  [ ⟨.anyIn [(101, 101)], false, 84⟩,
    ⟨.anyIn [(48, 57), (65, 90), (95, 95), (97, 122)], false, 140⟩ ]⟩

/-- Lex state 105 of `ts_lex`. -/
def lexSt105 : LState :=
  ⟨some 34,
  [ ⟨.anyIn [(101, 101)], false, 57⟩,
    ⟨.anyIn [(48, 57), (65, 90), (95, 95), (97, 122)], false, 140⟩ ]⟩

/-- Lex state 106 of `ts_lex`. -/
def lexSt106 : LState :=
  ⟨some 34,
  [ ⟨.anyIn [(101, 101)], false, 125⟩,
    ⟨.anyIn [(48, 57), (65, 90), (95, 95), (97, 122)], false, 140⟩ ]⟩

/-- Lex state 107 of `ts_lex`. -/
def lexSt107 : LState :=
  ⟨some 34,
  [ ⟨.anyIn [(103, 103)], false, 118⟩,
    ⟨.anyIn [(48, 57), (65, 90), (95, 95), (97, 122)], false, 140⟩ ]⟩

/-- Lex state 108 of `ts_lex`. -/
def lexSt108 : LState :=
  ⟨some 34,
  [ ⟨.anyIn [(105, 105)], false, 107⟩,
    ⟨.anyIn [(48, 57), (65, 90), (95, 95), (97, 122)], false, 140⟩ ]⟩

/-- Lex state 109 of `ts_lex`. -/
def lexSt109 : LState :=
  ⟨some 34,
  [ ⟨.anyIn [(105, 105)], false, 98⟩,
    ⟨.anyIn [(48, 57), (65, 90), (95, 95), (97, 122)], false, 140⟩ ]⟩

/-- Lex state 110 of `ts_lex`. -/
def lexSt110 : LState :=
  ⟨some 34,
  [ ⟨.anyIn [(105, 105)], false, 121⟩,
    ⟨.anyIn [(48, 57), (65, 90), (95, 95), (97, 122)], false, 140⟩ ]⟩

/-- Lex state 111 of `ts_lex`. -/
def lexSt111 : LState :=
  ⟨some 34,
  [ ⟨.anyIn [(108, 108)], false, 129⟩,
    ⟨.anyIn [(48, 57), (65, 90), (95, 95), (97, 122)], false, 140⟩ ]⟩

/-- Lex state 112 of `ts_lex`. -/
def lexSt112 : LState :=
  ⟨some 34,
  [ ⟨.anyIn [(108, 108)], false, 85⟩,
    ⟨.anyIn [(48, 57), (65, 90), (95, 95), (97, 122)], false, 140⟩ ]⟩

/-- Lex state 113 of `ts_lex`. -/
def lexSt113 : LState :=
  ⟨some 34,
  [ ⟨.anyIn [(108, 108)], false, 112⟩,
    ⟨.anyIn [(48, 57), (65, 90), (95, 95), (97, 122)], false, 140⟩ ]⟩

/-- Lex state 114 of `ts_lex`. -/
def lexSt114 : LState :=
  ⟨some 34,
  [ ⟨.anyIn [(108, 108)], false, 105⟩,
    ⟨.anyIn [(48, 57), (65, 90), (95, 95), (97, 122)], false, 140⟩ ]⟩

/-- Lex state 115 of `ts_lex`. -/
def lexSt115 : LState :=
  ⟨some 34,
  [ ⟨.anyIn [(109, 109)], false, 122⟩,
    ⟨.anyIn [(110, 110)], false, 123⟩,
    ⟨.anyIn [(48, 57), (65, 90), (95, 95), (97, 122)], false, 140⟩ ]⟩

/-- Lex state 116 of `ts_lex`. -/
def lexSt116 : LState :=
  ⟨some 34,
  [ ⟨.anyIn [(110, 110)], false, 49⟩,
    ⟨.anyIn [(48, 57), (65, 90), (95, 95), (97, 122)], false, 140⟩ ]⟩

/-- Lex state 117 of `ts_lex`. -/
def lexSt117 : LState :=
  ⟨some 34,
  [ ⟨.anyIn [(110, 110)], false, 53⟩,
    ⟨.anyIn [(48, 57), (65, 90), (95, 95), (97, 122)], false, 140⟩ ]⟩

/-- Lex state 118 of `ts_lex`. -/
def lexSt118 : LState :=
  ⟨some 34,
  [ ⟨.anyIn [(110, 110)], false, 106⟩,
    ⟨.anyIn [(48, 57), (65, 90), (95, 95), (97, 122)], false, 140⟩ ]⟩

/-- Lex state 119 of `ts_lex`. -/
def lexSt119 : LState :=
  ⟨some 34,
  [ ⟨.anyIn [(111, 111)], false, 116⟩,
    ⟨.anyIn [(48, 57), (65, 90), (95, 95), (97, 122)], false, 140⟩ ]⟩

/-- Lex state 120 of `ts_lex`. -/
def lexSt120 : LState :=
  ⟨some 34,
  [ ⟨.anyIn [(111, 111)], false, 128⟩,
    ⟨.anyIn [(48, 57), (65, 90), (95, 95), (97, 122)], false, 140⟩ ]⟩

/-- Lex state 121 of `ts_lex`. -/
def lexSt121 : LState :=
  ⟨some 34,
  [ ⟨.anyIn [(111, 111)], false, 117⟩,
    ⟨.anyIn [(48, 57), (65, 90), (95, 95), (97, 122)], false, 140⟩ ]⟩

/-- Lex state 122 of `ts_lex`. -/
def lexSt122 : LState :=
  ⟨some 34,
  [ ⟨.anyIn [(112, 112)], false, 120⟩,
    ⟨.anyIn [(48, 57), (65, 90), (95, 95), (97, 122)], false, 140⟩ ]⟩

/-- Lex state 123 of `ts_lex`. -/
def lexSt123 : LState :=
  ⟨some 34,
  [ ⟨.anyIn [(112, 112)], false, 138⟩,
    ⟨.anyIn [(48, 57), (65, 90), (95, 95), (97, 122)], false, 140⟩ ]⟩

/-- Lex state 124 of `ts_lex`. -/
def lexSt124 : LState :=
  ⟨some 34,
  [ ⟨.anyIn [(112, 112)], false, 139⟩,
    ⟨.anyIn [(48, 57), (65, 90), (95, 95), (97, 122)], false, 140⟩ ]⟩

/-- Lex state 125 of `ts_lex`. -/
def lexSt125 : LState :=
  ⟨some 34,
  [ ⟨.anyIn [(114, 114)], false, 51⟩,
    ⟨.anyIn [(48, 57), (65, 90), (95, 95), (97, 122)], false, 140⟩ ]⟩

/-- Lex state 126 of `ts_lex`. -/
def lexSt126 : LState :=
  ⟨some 34,
  [ ⟨.anyIn [(114, 114)], false, 135⟩,
    ⟨.anyIn [(48, 57), (65, 90), (95, 95), (97, 122)], false, 140⟩ ]⟩

/-- Lex state 127 of `ts_lex`. -/
def lexSt127 : LState :=
  ⟨some 34,
  [ ⟨.anyIn [(114, 114)], false, 109⟩,
    ⟨.anyIn [(48, 57), (65, 90), (95, 95), (97, 122)], false, 140⟩ ]⟩

/-- Lex state 128 of `ts_lex`. -/
def lexSt128 : LState :=
  ⟨some 34,
  [ ⟨.anyIn [(114, 114)], false, 131⟩,
    ⟨.anyIn [(48, 57), (65, 90), (95, 95), (97, 122)], false, 140⟩ ]⟩

/-- Lex state 129 of `ts_lex`. -/
def lexSt129 : LState :=
  ⟨some 34,
  [ ⟨.anyIn [(115, 115)], false, 104⟩,
    ⟨.anyIn [(48, 57), (65, 90), (95, 95), (97, 122)], false, 140⟩ ]⟩

/-- Lex state 130 of `ts_lex`. -/
def lexSt130 : LState :=
  ⟨some 34,
  [ ⟨.anyIn [(116, 116)], false, 59⟩,
    ⟨.anyIn [(48, 57), (65, 90), (95, 95), (97, 122)], false, 140⟩ ]⟩

/-- Lex state 131 of `ts_lex`. -/
def lexSt131 : LState :=
  ⟨some 34,
  [ ⟨.anyIn [(116, 116)], false, 62⟩,
    ⟨.anyIn [(48, 57), (65, 90), (95, 95), (97, 122)], false, 140⟩ ]⟩

/-- Lex state 132 of `ts_lex`. -/
def lexSt132 : LState :=
  ⟨some 34,
  [ ⟨.anyIn [(116, 116)], false, 55⟩,
    ⟨.anyIn [(48, 57), (65, 90), (95, 95), (97, 122)], false, 140⟩ ]⟩

/-- Lex state 133 of `ts_lex`. -/
def lexSt133 : LState :=
  ⟨some 34,
  [ ⟨.anyIn [(116, 116)], false, 110⟩,
    ⟨.anyIn [(48, 57), (65, 90), (95, 95), (97, 122)], false, 140⟩ ]⟩

/-- Lex state 134 of `ts_lex`. -/
def lexSt134 : LState :=
  ⟨some 34,
  [ ⟨.anyIn [(116, 116)], false, 124⟩,
    ⟨.anyIn [(48, 57), (65, 90), (95, 95), (97, 122)], false, 140⟩ ]⟩

/-- Lex state 135 of `ts_lex`. -/
def lexSt135 : LState :=
  ⟨some 34,
  [ ⟨.anyIn [(117, 117)], false, 103⟩,
    ⟨.anyIn [(48, 57), (65, 90), (95, 95), (97, 122)], false, 140⟩ ]⟩

/-- Lex state 136 of `ts_lex`. -/
def lexSt136 : LState :=
  ⟨some 34,
  [ ⟨.anyIn [(117, 117)], false, 134⟩,
    ⟨.anyIn [(48, 57), (65, 90), (95, 95), (97, 122)], false, 140⟩ ]⟩

/-- Lex state 137 of `ts_lex`. -/
def lexSt137 : LState :=
  ⟨some 34,
  [ ⟨.anyIn [(117, 117)], false, 113⟩,
    ⟨.anyIn [(48, 57), (65, 90), (95, 95), (97, 122)], false, 140⟩ ]⟩

/-- Lex state 138 of `ts_lex`. -/
def lexSt138 : LState :=
  ⟨some 34,
  [ ⟨.anyIn [(117, 117)], false, 130⟩,
    ⟨.anyIn [(48, 57), (65, 90), (95, 95), (97, 122)], false, 140⟩ ]⟩

/-- Lex state 139 of `ts_lex`. -/
def lexSt139 : LState :=
  ⟨some 34,
  [ ⟨.anyIn [(117, 117)], false, 132⟩,
    ⟨.anyIn [(48, 57), (65, 90), (95, 95), (97, 122)], false, 140⟩ ]⟩

/-- Lex state 140 of `ts_lex`. -/
def lexSt140 : LState :=
  ⟨some 34,
  [ ⟨.anyIn [(48, 57), (65, 90), (95, 95), (97, 122)], false, 140⟩ ]⟩

/-- Lex state 141 of `ts_lex`. -/
def lexSt141 : LState := ⟨some 35, []⟩

/-- Lex state 142 of `ts_lex`. -/
def lexSt142 : LState :=
  ⟨some 35,
  [ ⟨.anyIn [(42, 42)], false, 159⟩,
    ⟨.noneOf [0], false, 9⟩ ]⟩

/-- Lex state 143 of `ts_lex`. -/
def lexSt143 : LState :=
  ⟨some 35,
  [ ⟨.noneOf [0, 10], false, 148⟩ ]⟩

/-- Lex state 144 of `ts_lex`. -/
def lexSt144 : LState :=
  ⟨some 35,
  [ ⟨.noneOf [0, 34], false, 69⟩ ]⟩

/-- Lex state 145 of `ts_lex`. -/
def lexSt145 : LState :=
  ⟨some 35,
  [ ⟨.noneOf [0, 39], false, 73⟩ ]⟩

/-- Lex state 146 of `ts_lex`. -/
def lexSt146 : LState :=
  ⟨some 36,
  [ ⟨.anyIn [(35, 35)], false, 143⟩,
    ⟨.anyIn [(47, 47)], false, 147⟩,
    ⟨.anyIn [(9, 9), (13, 13), (32, 32)], false, 146⟩,
    ⟨.noneOf [0, 10], false, 148⟩ ]⟩

/-- Lex state 147 of `ts_lex`. -/
def lexSt147 : LState :=
  ⟨some 36,
  [ ⟨.anyIn [(42, 42)], false, 156⟩,
    ⟨.anyIn [(47, 47)], false, 151⟩,
    ⟨.noneOf [0, 10], false, 148⟩ ]⟩

/-- Lex state 148 of `ts_lex`. -/
def lexSt148 : LState :=
  ⟨some 36,
  [ ⟨.noneOf [0, 10], false, 148⟩ ]⟩

/-- Lex state 149 of `ts_lex`. -/
def lexSt149 : LState := ⟨some 37, []⟩

/-- Lex state 150 of `ts_lex`. -/
def lexSt150 : LState :=
  ⟨some 37,
  [ ⟨.anyIn [(42, 42)], false, 159⟩,
    ⟨.noneOf [0], false, 9⟩ ]⟩

/-- Lex state 151 of `ts_lex`. -/
def lexSt151 : LState :=
  ⟨some 37,
  [ ⟨.noneOf [0, 10], false, 148⟩ ]⟩

/-- Lex state 152 of `ts_lex`. -/
def lexSt152 : LState :=
  ⟨some 37,
  [ ⟨.noneOf [0, 34], false, 69⟩ ]⟩

/-- Lex state 153 of `ts_lex`. -/
def lexSt153 : LState :=
  ⟨some 37,
  [ ⟨.noneOf [0, 39], false, 73⟩ ]⟩

/-- Lex state 154 of `ts_lex`. -/
def lexSt154 : LState := ⟨some 38, []⟩

/-- Lex state 155 of `ts_lex`. -/
def lexSt155 : LState :=
  ⟨some 38,
  [ ⟨.anyIn [(42, 42)], false, 159⟩,
    ⟨.noneOf [0, 47], false, 9⟩ ]⟩

/-- Lex state 156 of `ts_lex`. -/
def lexSt156 : LState :=
  ⟨some 38,
  [ ⟨.noneOf [0, 10], false, 148⟩ ]⟩

/-- Lex state 157 of `ts_lex`. -/
def lexSt157 : LState :=
  ⟨some 38,
  [ ⟨.noneOf [0, 34], false, 69⟩ ]⟩

/-- Lex state 158 of `ts_lex`. -/
def lexSt158 : LState :=
  ⟨some 38,
  [ ⟨.noneOf [0, 39], false, 73⟩ ]⟩

/-- Lex state 159 of `ts_lex`. -/
def lexSt159 : LState :=
  ⟨some 39,
  [ ⟨.anyIn [(42, 42)], false, 159⟩,
    ⟨.noneOf [0, 47], false, 9⟩ ]⟩

/-- The lexing automaton `ts_lex`, one entry per state: the token accepted
on entry (`ACCEPT_TOKEN`) and the guarded transitions in source order; the
flag on an arm marks a `SKIP` (whitespace padding) transition, all others
are `ADVANCE`. -/
def lexTable : List LState := [
  lexSt0, lexSt1, lexSt2, lexSt3, lexSt4, lexSt5, lexSt6, lexSt7, lexSt8,
  lexSt9, lexSt10, lexSt11, lexSt12, lexSt13, lexSt14, lexSt15, lexSt16,
  lexSt17, lexSt18, lexSt19, lexSt20, lexSt21, lexSt22, lexSt23, lexSt24,
  lexSt25, lexSt26, lexSt27, lexSt28, lexSt29, lexSt30, lexSt31, lexSt32,
  lexSt33, lexSt34, lexSt35, lexSt36, lexSt37, lexSt38, lexSt39, lexSt40,
  lexSt41, lexSt42, lexSt43, lexSt44, lexSt45, lexSt46, lexSt47, lexSt48,
  lexSt49, lexSt50, lexSt51, lexSt52, lexSt53, lexSt54, lexSt55, lexSt56,
  lexSt57, lexSt58, lexSt59, lexSt60, lexSt61, lexSt62, lexSt63, lexSt64,
  lexSt65, lexSt66, lexSt67, lexSt68, lexSt69, lexSt70, lexSt71, lexSt72,
  lexSt73, lexSt74, lexSt75, lexSt76, lexSt77, lexSt78, lexSt79, lexSt80,
  lexSt81, lexSt82, lexSt83, lexSt84, lexSt85, lexSt86, lexSt87, lexSt88,
  lexSt89, lexSt90, lexSt91, lexSt92, lexSt93, lexSt94, lexSt95, lexSt96,
  lexSt97, lexSt98, lexSt99, lexSt100, lexSt101, lexSt102, lexSt103, lexSt104,
  lexSt105, lexSt106, lexSt107, lexSt108, lexSt109, lexSt110, lexSt111,
  lexSt112, lexSt113, lexSt114, lexSt115, lexSt116, lexSt117, lexSt118,
  lexSt119, lexSt120, lexSt121, lexSt122, lexSt123, lexSt124, lexSt125,
  lexSt126, lexSt127, lexSt128, lexSt129, lexSt130, lexSt131, lexSt132,
  lexSt133, lexSt134, lexSt135, lexSt136, lexSt137, lexSt138, lexSt139,
  lexSt140, lexSt141, lexSt142, lexSt143, lexSt144, lexSt145, lexSt146,
  lexSt147, lexSt148, lexSt149, lexSt150, lexSt151, lexSt152, lexSt153,
  lexSt154, lexSt155, lexSt156, lexSt157, lexSt158, lexSt159
]

/-- The lexing automaton state for a state number (decision-tree form of
`lexTable`, equal to `lexTable.getD s` everywhere; see `lexStateOf_eq`). -/
def lexStateOf (s : Nat) : LState :=
  if s < 80 then (if s < 40 then (if s < 20 then (if s < 10 then (if s < 5 then (if s < 2 then (if s < 1 then (if s = 0 then lexSt0 else ⟨none, []⟩) else (if s = 1 then lexSt1 else ⟨none, []⟩)) else (if s < 3 then (if s = 2 then lexSt2 else ⟨none, []⟩) else (if s < 4 then (if s = 3 then lexSt3 else ⟨none, []⟩) else (if s = 4 then lexSt4 else ⟨none, []⟩)))) else (if s < 7 then (if s < 6 then (if s = 5 then lexSt5 else ⟨none, []⟩) else (if s = 6 then lexSt6 else ⟨none, []⟩)) else (if s < 8 then (if s = 7 then lexSt7 else ⟨none, []⟩) else (if s < 9 then (if s = 8 then lexSt8 else ⟨none, []⟩) else (if s = 9 then lexSt9 else ⟨none, []⟩))))) else (if s < 15 then (if s < 12 then (if s < 11 then (if s = 10 then lexSt10 else ⟨none, []⟩) else (if s = 11 then lexSt11 else ⟨none, []⟩)) else (if s < 13 then (if s = 12 then lexSt12 else ⟨none, []⟩) else (if s < 14 then (if s = 13 then lexSt13 else ⟨none, []⟩) else (if s = 14 then lexSt14 else ⟨none, []⟩)))) else (if s < 17 then (if s < 16 then (if s = 15 then lexSt15 else ⟨none, []⟩) else (if s = 16 then lexSt16 else ⟨none, []⟩)) else (if s < 18 then (if s = 17 then lexSt17 else ⟨none, []⟩) else (if s < 19 then (if s = 18 then lexSt18 else ⟨none, []⟩) else (if s = 19 then lexSt19 else ⟨none, []⟩)))))) else (if s < 30 then (if s < 25 then (if s < 22 then (if s < 21 then (if s = 20 then lexSt20 else ⟨none, []⟩) else (if s = 21 then lexSt21 else ⟨none, []⟩)) else (if s < 23 then (if s = 22 then lexSt22 else ⟨none, []⟩) else (if s < 24 then (if s = 23 then lexSt23 else ⟨none, []⟩) else (if s = 24 then lexSt24 else ⟨none, []⟩)))) else (if s < 27 then (if s < 26 then (if s = 25 then lexSt25 else ⟨none, []⟩) else (if s = 26 then lexSt26 else ⟨none, []⟩)) else (if s < 28 then (if s = 27 then lexSt27 else ⟨none, []⟩) else (if s < 29 then (if s = 28 then lexSt28 else ⟨none, []⟩) else (if s = 29 then lexSt29 else ⟨none, []⟩))))) else (if s < 35 then (if s < 32 then (if s < 31 then (if s = 30 then lexSt30 else ⟨none, []⟩) else (if s = 31 then lexSt31 else ⟨none, []⟩)) else (if s < 33 then (if s = 32 then lexSt32 else ⟨none, []⟩) else (if s < 34 then (if s = 33 then lexSt33 else ⟨none, []⟩) else (if s = 34 then lexSt34 else ⟨none, []⟩)))) else (if s < 37 then (if s < 36 then (if s = 35 then lexSt35 else ⟨none, []⟩) else (if s = 36 then lexSt36 else ⟨none, []⟩)) else (if s < 38 then (if s = 37 then lexSt37 else ⟨none, []⟩) else (if s < 39 then (if s = 38 then lexSt38 else ⟨none, []⟩) else (if s = 39 then lexSt39 else ⟨none, []⟩))))))) else (if s < 60 then (if s < 50 then (if s < 45 then (if s < 42 then (if s < 41 then (if s = 40 then lexSt40 else ⟨none, []⟩) else (if s = 41 then lexSt41 else ⟨none, []⟩)) else (if s < 43 then (if s = 42 then lexSt42 else ⟨none, []⟩) else (if s < 44 then (if s = 43 then lexSt43 else ⟨none, []⟩) else (if s = 44 then lexSt44 else ⟨none, []⟩)))) else (if s < 47 then (if s < 46 then (if s = 45 then lexSt45 else ⟨none, []⟩) else (if s = 46 then lexSt46 else ⟨none, []⟩)) else (if s < 48 then (if s = 47 then lexSt47 else ⟨none, []⟩) else (if s < 49 then (if s = 48 then lexSt48 else ⟨none, []⟩) else (if s = 49 then lexSt49 else ⟨none, []⟩))))) else (if s < 55 then (if s < 52 then (if s < 51 then (if s = 50 then lexSt50 else ⟨none, []⟩) else (if s = 51 then lexSt51 else ⟨none, []⟩)) else (if s < 53 then (if s = 52 then lexSt52 else ⟨none, []⟩) else (if s < 54 then (if s = 53 then lexSt53 else ⟨none, []⟩) else (if s = 54 then lexSt54 else ⟨none, []⟩)))) else (if s < 57 then (if s < 56 then (if s = 55 then lexSt55 else ⟨none, []⟩) else (if s = 56 then lexSt56 else ⟨none, []⟩)) else (if s < 58 then (if s = 57 then lexSt57 else ⟨none, []⟩) else (if s < 59 then (if s = 58 then lexSt58 else ⟨none, []⟩) else (if s = 59 then lexSt59 else ⟨none, []⟩)))))) else (if s < 70 then (if s < 65 then (if s < 62 then (if s < 61 then (if s = 60 then lexSt60 else ⟨none, []⟩) else (if s = 61 then lexSt61 else ⟨none, []⟩)) else (if s < 63 then (if s = 62 then lexSt62 else ⟨none, []⟩) else (if s < 64 then (if s = 63 then lexSt63 else ⟨none, []⟩) else (if s = 64 then lexSt64 else ⟨none, []⟩)))) else (if s < 67 then (if s < 66 then (if s = 65 then lexSt65 else ⟨none, []⟩) else (if s = 66 then lexSt66 else ⟨none, []⟩)) else (if s < 68 then (if s = 67 then lexSt67 else ⟨none, []⟩) else (if s < 69 then (if s = 68 then lexSt68 else ⟨none, []⟩) else (if s = 69 then lexSt69 else ⟨none, []⟩))))) else (if s < 75 then (if s < 72 then (if s < 71 then (if s = 70 then lexSt70 else ⟨none, []⟩) else (if s = 71 then lexSt71 else ⟨none, []⟩)) else (if s < 73 then (if s = 72 then lexSt72 else ⟨none, []⟩) else (if s < 74 then (if s = 73 then lexSt73 else ⟨none, []⟩) else (if s = 74 then lexSt74 else ⟨none, []⟩)))) else (if s < 77 then (if s < 76 then (if s = 75 then lexSt75 else ⟨none, []⟩) else (if s = 76 then lexSt76 else ⟨none, []⟩)) else (if s < 78 then (if s = 77 then lexSt77 else ⟨none, []⟩) else (if s < 79 then (if s = 78 then lexSt78 else ⟨none, []⟩) else (if s = 79 then lexSt79 else ⟨none, []⟩)))))))) else (if s < 120 then (if s < 100 then (if s < 90 then (if s < 85 then (if s < 82 then (if s < 81 then (if s = 80 then lexSt80 else ⟨none, []⟩) else (if s = 81 then lexSt81 else ⟨none, []⟩)) else (if s < 83 then (if s = 82 then lexSt82 else ⟨none, []⟩) else (if s < 84 then (if s = 83 then lexSt83 else ⟨none, []⟩) else (if s = 84 then lexSt84 else ⟨none, []⟩)))) else (if s < 87 then (if s < 86 then (if s = 85 then lexSt85 else ⟨none, []⟩) else (if s = 86 then lexSt86 else ⟨none, []⟩)) else (if s < 88 then (if s = 87 then lexSt87 else ⟨none, []⟩) else (if s < 89 then (if s = 88 then lexSt88 else ⟨none, []⟩) else (if s = 89 then lexSt89 else ⟨none, []⟩))))) else (if s < 95 then (if s < 92 then (if s < 91 then (if s = 90 then lexSt90 else ⟨none, []⟩) else (if s = 91 then lexSt91 else ⟨none, []⟩)) else (if s < 93 then (if s = 92 then lexSt92 else ⟨none, []⟩) else (if s < 94 then (if s = 93 then lexSt93 else ⟨none, []⟩) else (if s = 94 then lexSt94 else ⟨none, []⟩)))) else (if s < 97 then (if s < 96 then (if s = 95 then lexSt95 else ⟨none, []⟩) else (if s = 96 then lexSt96 else ⟨none, []⟩)) else (if s < 98 then (if s = 97 then lexSt97 else ⟨none, []⟩) else (if s < 99 then (if s = 98 then lexSt98 else ⟨none, []⟩) else (if s = 99 then lexSt99 else ⟨none, []⟩)))))) else (if s < 110 then (if s < 105 then (if s < 102 then (if s < 101 then (if s = 100 then lexSt100 else ⟨none, []⟩) else (if s = 101 then lexSt101 else ⟨none, []⟩)) else (if s < 103 then (if s = 102 then lexSt102 else ⟨none, []⟩) else (if s < 104 then (if s = 103 then lexSt103 else ⟨none, []⟩) else (if s = 104 then lexSt104 else ⟨none, []⟩)))) else (if s < 107 then (if s < 106 then (if s = 105 then lexSt105 else ⟨none, []⟩) else (if s = 106 then lexSt106 else ⟨none, []⟩)) else (if s < 108 then (if s = 107 then lexSt107 else ⟨none, []⟩) else (if s < 109 then (if s = 108 then lexSt108 else ⟨none, []⟩) else (if s = 109 then lexSt109 else ⟨none, []⟩))))) else (if s < 115 then (if s < 112 then (if s < 111 then (if s = 110 then lexSt110 else ⟨none, []⟩) else (if s = 111 then lexSt111 else ⟨none, []⟩)) else (if s < 113 then (if s = 112 then lexSt112 else ⟨none, []⟩) else (if s < 114 then (if s = 113 then lexSt113 else ⟨none, []⟩) else (if s = 114 then lexSt114 else ⟨none, []⟩)))) else (if s < 117 then (if s < 116 then (if s = 115 then lexSt115 else ⟨none, []⟩) else (if s = 116 then lexSt116 else ⟨none, []⟩)) else (if s < 118 then (if s = 117 then lexSt117 else ⟨none, []⟩) else (if s < 119 then (if s = 118 then lexSt118 else ⟨none, []⟩) else (if s = 119 then lexSt119 else ⟨none, []⟩))))))) else (if s < 140 then (if s < 130 then (if s < 125 then (if s < 122 then (if s < 121 then (if s = 120 then lexSt120 else ⟨none, []⟩) else (if s = 121 then lexSt121 else ⟨none, []⟩)) else (if s < 123 then (if s = 122 then lexSt122 else ⟨none, []⟩) else (if s < 124 then (if s = 123 then lexSt123 else ⟨none, []⟩) else (if s = 124 then lexSt124 else ⟨none, []⟩)))) else (if s < 127 then (if s < 126 then (if s = 125 then lexSt125 else ⟨none, []⟩) else (if s = 126 then lexSt126 else ⟨none, []⟩)) else (if s < 128 then (if s = 127 then lexSt127 else ⟨none, []⟩) else (if s < 129 then (if s = 128 then lexSt128 else ⟨none, []⟩) else (if s = 129 then lexSt129 else ⟨none, []⟩))))) else (if s < 135 then (if s < 132 then (if s < 131 then (if s = 130 then lexSt130 else ⟨none, []⟩) else (if s = 131 then lexSt131 else ⟨none, []⟩)) else (if s < 133 then (if s = 132 then lexSt132 else ⟨none, []⟩) else (if s < 134 then (if s = 133 then lexSt133 else ⟨none, []⟩) else (if s = 134 then lexSt134 else ⟨none, []⟩)))) else (if s < 137 then (if s < 136 then (if s = 135 then lexSt135 else ⟨none, []⟩) else (if s = 136 then lexSt136 else ⟨none, []⟩)) else (if s < 138 then (if s = 137 then lexSt137 else ⟨none, []⟩) else (if s < 139 then (if s = 138 then lexSt138 else ⟨none, []⟩) else (if s = 139 then lexSt139 else ⟨none, []⟩)))))) else (if s < 150 then (if s < 145 then (if s < 142 then (if s < 141 then (if s = 140 then lexSt140 else ⟨none, []⟩) else (if s = 141 then lexSt141 else ⟨none, []⟩)) else (if s < 143 then (if s = 142 then lexSt142 else ⟨none, []⟩) else (if s < 144 then (if s = 143 then lexSt143 else ⟨none, []⟩) else (if s = 144 then lexSt144 else ⟨none, []⟩)))) else (if s < 147 then (if s < 146 then (if s = 145 then lexSt145 else ⟨none, []⟩) else (if s = 146 then lexSt146 else ⟨none, []⟩)) else (if s < 148 then (if s = 147 then lexSt147 else ⟨none, []⟩) else (if s < 149 then (if s = 148 then lexSt148 else ⟨none, []⟩) else (if s = 149 then lexSt149 else ⟨none, []⟩))))) else (if s < 155 then (if s < 152 then (if s < 151 then (if s = 150 then lexSt150 else ⟨none, []⟩) else (if s = 151 then lexSt151 else ⟨none, []⟩)) else (if s < 153 then (if s = 152 then lexSt152 else ⟨none, []⟩) else (if s < 154 then (if s = 153 then lexSt153 else ⟨none, []⟩) else (if s = 154 then lexSt154 else ⟨none, []⟩)))) else (if s < 157 then (if s < 156 then (if s = 155 then lexSt155 else ⟨none, []⟩) else (if s = 156 then lexSt156 else ⟨none, []⟩)) else (if s < 158 then (if s = 157 then lexSt157 else ⟨none, []⟩) else (if s < 159 then (if s = 158 then lexSt158 else ⟨none, []⟩) else (if s = 159 then lexSt159 else ⟨none, []⟩))))))))

/-- `ts_lex_modes`: the lex state used in each parse state; `none` transcribes
the `(TSStateId)(-1)` marker (end of a non-terminal extra: no lexing). -/
def lexModes : List (Option Nat) := [
  some 0, some 46, some 2, some 2, some 2, some 2, some 2, some 2, some 2,
  some 2, some 2, some 2, some 2, some 2, some 2, some 2, some 2, some 46,
  some 2, some 2, some 2, some 46, some 46, some 46, some 46, some 46, some
  46, some 46, some 46, some 46, some 46, some 46, some 46, some 46, some 46,
  some 46, some 46, some 46, some 46, some 46, some 46, some 46, some 46, some
  46, some 46, some 46, some 46, some 1, some 46, some 46, some 46, some 46,
  some 46, some 46, some 46, some 1, some 1, some 46, some 46, some 1, some 1,
  some 1, some 1, some 46, some 0, some 1, some 1, some 0, some 1, some 1,
  some 0, some 0, some 1, some 0, some 1, some 1, some 1, some 1, some 1, some
  1, some 0, some 1, some 1, some 1, some 1, some 1, some 1, some 1, some 1,
  some 1, some 1, some 1, some 1, some 1, some 1, some 0, some 0, some 1, some
  0, some 0, some 0, some 0, some 0, some 1, some 1, some 0, some 0, some 0,
  some 0, some 0, some 0, some 0, some 0, some 0, some 0, some 0, some 0, some
  0, some 0, some 1, some 0, some 0, some 0, some 1, some 0, some 0, some 0,
  some 1, some 0, some 0, some 0, some 0, some 71, some 0, some 0, some 67,
  some 0, some 4, some 0, some 0, some 0, some 6, some 0, some 146, some 0,
  some 7, some 0, some 4, some 6, some 67, some 71, none, none
]

/-- The lex state used in a parse state (decision-tree form of `lexModes`,
equal to `lexModes.getD s none` everywhere; see `lexModeOf_eq`). -/
def lexModeOf (s : Nat) : Option Nat :=
  if s < 76 then (if s < 38 then (if s < 19 then (if s < 9 then (if s < 4 then (if s < 2 then (if s < 1 then (if s = 0 then some 0 else none) else (if s = 1 then some 46 else none)) else (if s < 3 then (if s = 2 then some 2 else none) else (if s = 3 then some 2 else none))) else (if s < 6 then (if s < 5 then (if s = 4 then some 2 else none) else (if s = 5 then some 2 else none)) else (if s < 7 then (if s = 6 then some 2 else none) else (if s < 8 then (if s = 7 then some 2 else none) else (if s = 8 then some 2 else none))))) else (if s < 14 then (if s < 11 then (if s < 10 then (if s = 9 then some 2 else none) else (if s = 10 then some 2 else none)) else (if s < 12 then (if s = 11 then some 2 else none) else (if s < 13 then (if s = 12 then some 2 else none) else (if s = 13 then some 2 else none)))) else (if s < 16 then (if s < 15 then (if s = 14 then some 2 else none) else (if s = 15 then some 2 else none)) else (if s < 17 then (if s = 16 then some 2 else none) else (if s < 18 then (if s = 17 then some 46 else none) else (if s = 18 then some 2 else none)))))) else (if s < 28 then (if s < 23 then (if s < 21 then (if s < 20 then (if s = 19 then some 2 else none) else (if s = 20 then some 2 else none)) else (if s < 22 then (if s = 21 then some 46 else none) else (if s = 22 then some 46 else none))) else (if s < 25 then (if s < 24 then (if s = 23 then some 46 else none) else (if s = 24 then some 46 else none)) else (if s < 26 then (if s = 25 then some 46 else none) else (if s < 27 then (if s = 26 then some 46 else none) else (if s = 27 then some 46 else none))))) else (if s < 33 then (if s < 30 then (if s < 29 then (if s = 28 then some 46 else none) else (if s = 29 then some 46 else none)) else (if s < 31 then (if s = 30 then some 46 else none) else (if s < 32 then (if s = 31 then some 46 else none) else (if s = 32 then some 46 else none)))) else (if s < 35 then (if s < 34 then (if s = 33 then some 46 else none) else (if s = 34 then some 46 else none)) else (if s < 36 then (if s = 35 then some 46 else none) else (if s < 37 then (if s = 36 then some 46 else none) else (if s = 37 then some 46 else none))))))) else (if s < 57 then (if s < 47 then (if s < 42 then (if s < 40 then (if s < 39 then (if s = 38 then some 46 else none) else (if s = 39 then some 46 else none)) else (if s < 41 then (if s = 40 then some 46 else none) else (if s = 41 then some 46 else none))) else (if s < 44 then (if s < 43 then (if s = 42 then some 46 else none) else (if s = 43 then some 46 else none)) else (if s < 45 then (if s = 44 then some 46 else none) else (if s < 46 then (if s = 45 then some 46 else none) else (if s = 46 then some 46 else none))))) else (if s < 52 then (if s < 49 then (if s < 48 then (if s = 47 then some 1 else none) else (if s = 48 then some 46 else none)) else (if s < 50 then (if s = 49 then some 46 else none) else (if s < 51 then (if s = 50 then some 46 else none) else (if s = 51 then some 46 else none)))) else (if s < 54 then (if s < 53 then (if s = 52 then some 46 else none) else (if s = 53 then some 46 else none)) else (if s < 55 then (if s = 54 then some 46 else none) else (if s < 56 then (if s = 55 then some 1 else none) else (if s = 56 then some 1 else none)))))) else (if s < 66 then (if s < 61 then (if s < 59 then (if s < 58 then (if s = 57 then some 46 else none) else (if s = 58 then some 46 else none)) else (if s < 60 then (if s = 59 then some 1 else none) else (if s = 60 then some 1 else none))) else (if s < 63 then (if s < 62 then (if s = 61 then some 1 else none) else (if s = 62 then some 1 else none)) else (if s < 64 then (if s = 63 then some 46 else none) else (if s < 65 then (if s = 64 then some 0 else none) else (if s = 65 then some 1 else none))))) else (if s < 71 then (if s < 68 then (if s < 67 then (if s = 66 then some 1 else none) else (if s = 67 then some 0 else none)) else (if s < 69 then (if s = 68 then some 1 else none) else (if s < 70 then (if s = 69 then some 1 else none) else (if s = 70 then some 0 else none)))) else (if s < 73 then (if s < 72 then (if s = 71 then some 0 else none) else (if s = 72 then some 1 else none)) else (if s < 74 then (if s = 73 then some 0 else none) else (if s < 75 then (if s = 74 then some 1 else none) else (if s = 75 then some 1 else none)))))))) else (if s < 114 then (if s < 95 then (if s < 85 then (if s < 80 then (if s < 78 then (if s < 77 then (if s = 76 then some 1 else none) else (if s = 77 then some 1 else none)) else (if s < 79 then (if s = 78 then some 1 else none) else (if s = 79 then some 1 else none))) else (if s < 82 then (if s < 81 then (if s = 80 then some 0 else none) else (if s = 81 then some 1 else none)) else (if s < 83 then (if s = 82 then some 1 else none) else (if s < 84 then (if s = 83 then some 1 else none) else (if s = 84 then some 1 else none))))) else (if s < 90 then (if s < 87 then (if s < 86 then (if s = 85 then some 1 else none) else (if s = 86 then some 1 else none)) else (if s < 88 then (if s = 87 then some 1 else none) else (if s < 89 then (if s = 88 then some 1 else none) else (if s = 89 then some 1 else none)))) else (if s < 92 then (if s < 91 then (if s = 90 then some 1 else none) else (if s = 91 then some 1 else none)) else (if s < 93 then (if s = 92 then some 1 else none) else (if s < 94 then (if s = 93 then some 1 else none) else (if s = 94 then some 1 else none)))))) else (if s < 104 then (if s < 99 then (if s < 97 then (if s < 96 then (if s = 95 then some 0 else none) else (if s = 96 then some 0 else none)) else (if s < 98 then (if s = 97 then some 1 else none) else (if s = 98 then some 0 else none))) else (if s < 101 then (if s < 100 then (if s = 99 then some 0 else none) else (if s = 100 then some 0 else none)) else (if s < 102 then (if s = 101 then some 0 else none) else (if s < 103 then (if s = 102 then some 0 else none) else (if s = 103 then some 1 else none))))) else (if s < 109 then (if s < 106 then (if s < 105 then (if s = 104 then some 1 else none) else (if s = 105 then some 0 else none)) else (if s < 107 then (if s = 106 then some 0 else none) else (if s < 108 then (if s = 107 then some 0 else none) else (if s = 108 then some 0 else none)))) else (if s < 111 then (if s < 110 then (if s = 109 then some 0 else none) else (if s = 110 then some 0 else none)) else (if s < 112 then (if s = 111 then some 0 else none) else (if s < 113 then (if s = 112 then some 0 else none) else (if s = 113 then some 0 else none))))))) else (if s < 133 then (if s < 123 then (if s < 118 then (if s < 116 then (if s < 115 then (if s = 114 then some 0 else none) else (if s = 115 then some 0 else none)) else (if s < 117 then (if s = 116 then some 0 else none) else (if s = 117 then some 0 else none))) else (if s < 120 then (if s < 119 then (if s = 118 then some 0 else none) else (if s = 119 then some 1 else none)) else (if s < 121 then (if s = 120 then some 0 else none) else (if s < 122 then (if s = 121 then some 0 else none) else (if s = 122 then some 0 else none))))) else (if s < 128 then (if s < 125 then (if s < 124 then (if s = 123 then some 1 else none) else (if s = 124 then some 0 else none)) else (if s < 126 then (if s = 125 then some 0 else none) else (if s < 127 then (if s = 126 then some 0 else none) else (if s = 127 then some 1 else none)))) else (if s < 130 then (if s < 129 then (if s = 128 then some 0 else none) else (if s = 129 then some 0 else none)) else (if s < 131 then (if s = 130 then some 0 else none) else (if s < 132 then (if s = 131 then some 0 else none) else (if s = 132 then some 71 else none)))))) else (if s < 143 then (if s < 138 then (if s < 135 then (if s < 134 then (if s = 133 then some 0 else none) else (if s = 134 then some 0 else none)) else (if s < 136 then (if s = 135 then some 67 else none) else (if s < 137 then (if s = 136 then some 0 else none) else (if s = 137 then some 4 else none)))) else (if s < 140 then (if s < 139 then (if s = 138 then some 0 else none) else (if s = 139 then some 0 else none)) else (if s < 141 then (if s = 140 then some 0 else none) else (if s < 142 then (if s = 141 then some 6 else none) else (if s = 142 then some 0 else none))))) else (if s < 148 then (if s < 145 then (if s < 144 then (if s = 143 then some 146 else none) else (if s = 144 then some 0 else none)) else (if s < 146 then (if s = 145 then some 7 else none) else (if s < 147 then (if s = 146 then some 0 else none) else (if s = 147 then some 4 else none)))) else (if s < 150 then (if s < 149 then (if s = 148 then some 6 else none) else (if s = 149 then some 67 else none)) else (if s < 151 then (if s = 150 then some 71 else none) else (if s < 152 then (if s = 151 then none else none) else (if s = 152 then none else none))))))))

/-- Terminal actions of parse state 0: (token symbol, entry index). -/
def tRow0 : List (Nat × Nat) := [(0, 1), (1, 1), (2, 1), (3, 1), (4, 1), (5, 1), (6, 1), (7, 1), (8, 1), (9, 1), (10, 1), (11, 1), (13, 1), (15, 1), (17, 1), (18, 1), (19, 1), (20, 1), (21, 1), (22, 1), (23, 1), (24, 1), (25, 1), (26, 1), (27, 1), (28, 1), (29, 1), (30, 1), (31, 1), (32, 1), (33, 1), (34, 1), (35, 3), (37, 5), (38, 5)]

/-- Terminal actions of parse state 1: (token symbol, entry index). -/
def tRow1 : List (Nat × Nat) := [(0, 7), (1, 9), (2, 11), (3, 13), (4, 15), (5, 17), (6, 19), (8, 21), (35, 3), (37, 5), (38, 5)]

/-- Terminal actions of parse state 2: (token symbol, entry index). -/
def tRow2 : List (Nat × Nat) := [(9, 23), (11, 25), (13, 27), (15, 29), (17, 31), (18, 31), (19, 33), (20, 35), (21, 35), (22, 37), (23, 39), (24, 41), (25, 43), (34, 45), (35, 3), (37, 5), (38, 5)]

/-- Terminal actions of parse state 3: (token symbol, entry index). -/
def tRow3 : List (Nat × Nat) := [(9, 23), (11, 25), (13, 27), (15, 29), (17, 31), (18, 31), (19, 33), (20, 35), (21, 35), (22, 37), (23, 39), (24, 47), (25, 49), (34, 45), (35, 3), (37, 5), (38, 5)]

/-- Terminal actions of parse state 4: (token symbol, entry index). -/
def tRow4 : List (Nat × Nat) := [(9, 23), (11, 25), (13, 27), (15, 29), (17, 31), (18, 31), (19, 33), (20, 35), (21, 35), (22, 37), (23, 39), (25, 51), (34, 45), (35, 3), (37, 5), (38, 5)]

/-- Terminal actions of parse state 5: (token symbol, entry index). -/
def tRow5 : List (Nat × Nat) := [(9, 23), (11, 25), (13, 27), (15, 29), (17, 31), (18, 31), (19, 33), (20, 35), (21, 35), (22, 37), (23, 39), (25, 53), (34, 45), (35, 3), (37, 5), (38, 5)]

/-- Terminal actions of parse state 6: (token symbol, entry index). -/
def tRow6 : List (Nat × Nat) := [(9, 23), (11, 25), (13, 27), (15, 29), (17, 31), (18, 31), (19, 33), (20, 35), (21, 35), (22, 37), (23, 39), (25, 55), (34, 45), (35, 3), (37, 5), (38, 5)]

/-- Terminal actions of parse state 7: (token symbol, entry index). -/
def tRow7 : List (Nat × Nat) := [(9, 23), (11, 25), (13, 27), (15, 29), (17, 31), (18, 31), (19, 33), (20, 35), (21, 35), (22, 37), (23, 39), (25, 57), (34, 45), (35, 3), (37, 5), (38, 5)]

/-- Terminal actions of parse state 8: (token symbol, entry index). -/
def tRow8 : List (Nat × Nat) := [(9, 23), (11, 25), (13, 27), (15, 29), (17, 31), (18, 31), (19, 33), (20, 35), (21, 35), (22, 37), (23, 39), (29, 59), (34, 45), (35, 3), (37, 5), (38, 5)]

/-- Terminal actions of parse state 9: (token symbol, entry index). -/
def tRow9 : List (Nat × Nat) := [(9, 23), (11, 25), (13, 27), (15, 29), (17, 31), (18, 31), (19, 33), (20, 35), (21, 35), (22, 37), (23, 39), (29, 61), (34, 45), (35, 3), (37, 5), (38, 5)]

/-- Terminal actions of parse state 10: (token symbol, entry index). -/
def tRow10 : List (Nat × Nat) := [(9, 63), (11, 65), (13, 67), (15, 69), (17, 71), (18, 71), (19, 73), (20, 75), (21, 75), (22, 77), (23, 79), (34, 81), (35, 3), (37, 5), (38, 5)]

/-- Terminal actions of parse state 11: (token symbol, entry index). -/
def tRow11 : List (Nat × Nat) := [(9, 23), (11, 25), (13, 27), (15, 29), (17, 31), (18, 31), (19, 33), (20, 35), (21, 35), (22, 37), (23, 39), (34, 45), (35, 3), (37, 5), (38, 5)]

/-- Terminal actions of parse state 12: (token symbol, entry index). -/
def tRow12 : List (Nat × Nat) := [(9, 23), (11, 25), (13, 27), (15, 29), (17, 31), (18, 31), (19, 33), (20, 35), (21, 35), (22, 37), (23, 39), (34, 45), (35, 3), (37, 5), (38, 5)]

/-- Terminal actions of parse state 13: (token symbol, entry index). -/
def tRow13 : List (Nat × Nat) := [(9, 23), (11, 25), (13, 27), (15, 29), (17, 31), (18, 31), (19, 33), (20, 35), (21, 35), (22, 37), (23, 39), (34, 45), (35, 3), (37, 5), (38, 5)]

/-- Terminal actions of parse state 14: (token symbol, entry index). -/
def tRow14 : List (Nat × Nat) := [(9, 23), (11, 25), (13, 27), (15, 29), (17, 31), (18, 31), (19, 33), (20, 35), (21, 35), (22, 37), (23, 39), (34, 45), (35, 3), (37, 5), (38, 5)]

/-- Terminal actions of parse state 15: (token symbol, entry index). -/
def tRow15 : List (Nat × Nat) := [(9, 23), (11, 25), (13, 27), (15, 29), (17, 31), (18, 31), (19, 33), (20, 35), (21, 35), (22, 37), (23, 39), (34, 45), (35, 3), (37, 5), (38, 5)]

/-- Terminal actions of parse state 16: (token symbol, entry index). -/
def tRow16 : List (Nat × Nat) := [(9, 23), (11, 25), (13, 27), (15, 29), (17, 31), (18, 31), (19, 33), (20, 35), (21, 35), (22, 37), (23, 39), (34, 45), (35, 3), (37, 5), (38, 5)]

/-- Terminal actions of parse state 17: (token symbol, entry index). -/
def tRow17 : List (Nat × Nat) := [(0, 83), (1, 83), (2, 83), (3, 83), (4, 83), (5, 83), (6, 83), (7, 83), (8, 83), (9, 83), (10, 83), (11, 85), (13, 83), (15, 83), (24, 83), (25, 83), (26, 83), (29, 83), (30, 83), (31, 85), (32, 83), (33, 83), (35, 3), (37, 5), (38, 5)]

/-- Terminal actions of parse state 18: (token symbol, entry index). -/
def tRow18 : List (Nat × Nat) := [(9, 63), (11, 65), (13, 67), (15, 69), (17, 71), (18, 71), (19, 73), (20, 75), (21, 75), (22, 77), (23, 79), (34, 81), (35, 3), (37, 5), (38, 5)]

/-- Terminal actions of parse state 19: (token symbol, entry index). -/
def tRow19 : List (Nat × Nat) := [(9, 63), (11, 65), (13, 67), (15, 69), (17, 71), (18, 71), (19, 73), (20, 75), (21, 75), (22, 77), (23, 79), (34, 81), (35, 3), (37, 5), (38, 5)]

/-- Terminal actions of parse state 20: (token symbol, entry index). -/
def tRow20 : List (Nat × Nat) := [(9, 23), (11, 25), (13, 27), (15, 29), (17, 31), (18, 31), (19, 33), (20, 35), (21, 35), (22, 37), (23, 39), (34, 45), (35, 3), (37, 5), (38, 5)]

/-- Terminal actions of parse state 21: (token symbol, entry index). -/
def tRow21 : List (Nat × Nat) := [(0, 87), (1, 87), (2, 87), (3, 87), (4, 87), (5, 87), (6, 87), (8, 87), (10, 87), (23, 89), (24, 87), (25, 87), (27, 91), (28, 93), (29, 87), (30, 87), (31, 95), (32, 87), (33, 87), (35, 3), (37, 5), (38, 5)]

/-- Terminal actions of parse state 22: (token symbol, entry index). -/
def tRow22 : List (Nat × Nat) := [(0, 97), (1, 97), (2, 97), (3, 97), (4, 97), (5, 97), (6, 97), (8, 97), (10, 97), (24, 97), (25, 97), (27, 99), (29, 97), (30, 97), (31, 102), (32, 97), (33, 97), (35, 3), (37, 5), (38, 5)]

/-- Terminal actions of parse state 23: (token symbol, entry index). -/
def tRow23 : List (Nat × Nat) := [(0, 97), (1, 97), (2, 97), (3, 97), (4, 97), (5, 97), (6, 97), (8, 97), (10, 97), (23, 89), (24, 97), (25, 97), (27, 97), (29, 97), (30, 97), (31, 102), (32, 97), (33, 97), (35, 3), (37, 5), (38, 5)]

/-- Terminal actions of parse state 24: (token symbol, entry index). -/
def tRow24 : List (Nat × Nat) := [(0, 104), (1, 104), (2, 104), (3, 104), (4, 104), (5, 104), (6, 104), (8, 104), (10, 104), (24, 104), (25, 104), (27, 91), (29, 104), (30, 104), (31, 106), (32, 104), (33, 104), (35, 3), (37, 5), (38, 5)]

/-- Terminal actions of parse state 25: (token symbol, entry index). -/
def tRow25 : List (Nat × Nat) := [(0, 87), (1, 87), (2, 87), (3, 87), (4, 87), (5, 87), (6, 87), (8, 87), (10, 87), (24, 87), (25, 87), (27, 91), (29, 87), (30, 87), (31, 95), (32, 87), (33, 87), (35, 3), (37, 5), (38, 5)]

/-- Terminal actions of parse state 26: (token symbol, entry index). -/
def tRow26 : List (Nat × Nat) := [(0, 108), (1, 108), (2, 108), (3, 108), (4, 108), (5, 108), (6, 108), (8, 108), (10, 108), (24, 108), (25, 108), (27, 108), (29, 108), (30, 108), (31, 110), (32, 108), (33, 108), (35, 3), (37, 5), (38, 5)]

/-- Terminal actions of parse state 27: (token symbol, entry index). -/
def tRow27 : List (Nat × Nat) := [(0, 97), (1, 97), (2, 97), (3, 97), (4, 97), (5, 97), (6, 97), (8, 97), (10, 97), (24, 97), (25, 97), (27, 97), (29, 97), (30, 97), (31, 102), (32, 97), (33, 97), (35, 3), (37, 5), (38, 5)]

/-- Terminal actions of parse state 28: (token symbol, entry index). -/
def tRow28 : List (Nat × Nat) := [(0, 112), (1, 9), (2, 11), (3, 13), (4, 15), (5, 17), (6, 19), (8, 21), (35, 3), (37, 5), (38, 5)]

/-- Terminal actions of parse state 29: (token symbol, entry index). -/
def tRow29 : List (Nat × Nat) := [(0, 114), (1, 116), (2, 119), (3, 122), (4, 125), (5, 128), (6, 131), (8, 134), (35, 3), (37, 5), (38, 5)]

/-- Terminal actions of parse state 30: (token symbol, entry index). -/
def tRow30 : List (Nat × Nat) := [(0, 137), (1, 137), (2, 137), (3, 137), (4, 137), (5, 137), (6, 137), (8, 137), (10, 137), (24, 137), (25, 137), (29, 137), (30, 137), (31, 139), (32, 137), (33, 137), (35, 3), (37, 5), (38, 5)]

/-- Terminal actions of parse state 31: (token symbol, entry index). -/
def tRow31 : List (Nat × Nat) := [(0, 141), (1, 141), (2, 141), (3, 141), (4, 141), (5, 141), (6, 141), (8, 141), (10, 141), (24, 141), (25, 141), (29, 141), (30, 141), (31, 143), (32, 141), (33, 141), (35, 3), (37, 5), (38, 5)]

/-- Terminal actions of parse state 32: (token symbol, entry index). -/
def tRow32 : List (Nat × Nat) := [(0, 145), (1, 145), (2, 145), (3, 145), (4, 145), (5, 145), (6, 145), (8, 145), (10, 145), (24, 145), (25, 145), (29, 145), (30, 145), (31, 147), (32, 145), (33, 145), (35, 3), (37, 5), (38, 5)]

/-- Terminal actions of parse state 33: (token symbol, entry index). -/
def tRow33 : List (Nat × Nat) := [(0, 149), (1, 149), (2, 149), (3, 149), (4, 149), (5, 149), (6, 149), (8, 149), (10, 149), (24, 149), (25, 149), (29, 149), (30, 149), (31, 151), (32, 149), (33, 149), (35, 3), (37, 5), (38, 5)]

/-- Terminal actions of parse state 34: (token symbol, entry index). -/
def tRow34 : List (Nat × Nat) := [(0, 153), (1, 153), (2, 153), (3, 153), (4, 153), (5, 153), (6, 153), (8, 153), (10, 153), (24, 153), (25, 153), (29, 153), (30, 153), (31, 155), (32, 153), (33, 153), (35, 3), (37, 5), (38, 5)]

/-- Terminal actions of parse state 35: (token symbol, entry index). -/
def tRow35 : List (Nat × Nat) := [(0, 157), (1, 157), (2, 157), (3, 157), (4, 157), (5, 157), (6, 157), (8, 157), (10, 157), (24, 157), (25, 157), (29, 157), (30, 157), (31, 159), (32, 157), (33, 157), (35, 3), (37, 5), (38, 5)]

/-- Terminal actions of parse state 36: (token symbol, entry index). -/
def tRow36 : List (Nat × Nat) := [(0, 161), (1, 161), (2, 161), (3, 161), (4, 161), (5, 161), (6, 161), (8, 161), (10, 161), (24, 161), (25, 161), (29, 161), (30, 161), (31, 163), (32, 161), (33, 161), (35, 3), (37, 5), (38, 5)]

/-- Terminal actions of parse state 37: (token symbol, entry index). -/
def tRow37 : List (Nat × Nat) := [(0, 165), (1, 165), (2, 165), (3, 165), (4, 165), (5, 165), (6, 165), (8, 165), (10, 165), (24, 165), (25, 165), (29, 165), (30, 165), (31, 167), (32, 165), (33, 165), (35, 3), (37, 5), (38, 5)]

/-- Terminal actions of parse state 38: (token symbol, entry index). -/
def tRow38 : List (Nat × Nat) := [(0, 169), (1, 169), (2, 169), (3, 169), (4, 169), (5, 169), (6, 169), (8, 169), (10, 169), (24, 169), (25, 169), (29, 169), (30, 169), (31, 171), (32, 169), (33, 169), (35, 3), (37, 5), (38, 5)]

/-- Terminal actions of parse state 39: (token symbol, entry index). -/
def tRow39 : List (Nat × Nat) := [(0, 173), (1, 173), (2, 173), (3, 173), (4, 173), (5, 173), (6, 173), (8, 173), (10, 173), (24, 173), (25, 173), (29, 173), (30, 173), (31, 175), (32, 173), (33, 173), (35, 3), (37, 5), (38, 5)]

/-- Terminal actions of parse state 40: (token symbol, entry index). -/
def tRow40 : List (Nat × Nat) := [(0, 177), (1, 177), (2, 177), (3, 177), (4, 177), (5, 177), (6, 177), (8, 177), (10, 177), (24, 177), (25, 177), (29, 177), (30, 177), (31, 179), (32, 177), (33, 177), (35, 3), (37, 5), (38, 5)]

/-- Terminal actions of parse state 41: (token symbol, entry index). -/
def tRow41 : List (Nat × Nat) := [(0, 181), (1, 181), (2, 181), (3, 181), (4, 181), (5, 181), (6, 181), (8, 181), (10, 181), (24, 181), (25, 181), (29, 181), (30, 181), (31, 183), (32, 181), (33, 181), (35, 3), (37, 5), (38, 5)]

/-- Terminal actions of parse state 42: (token symbol, entry index). -/
def tRow42 : List (Nat × Nat) := [(0, 185), (1, 185), (2, 185), (3, 185), (4, 185), (5, 185), (6, 185), (8, 185), (10, 185), (24, 185), (25, 185), (29, 185), (30, 185), (31, 187), (32, 185), (33, 185), (35, 3), (37, 5), (38, 5)]

/-- Terminal actions of parse state 43: (token symbol, entry index). -/
def tRow43 : List (Nat × Nat) := [(0, 181), (1, 181), (2, 181), (3, 181), (4, 181), (5, 181), (6, 181), (8, 181), (10, 181), (24, 181), (25, 181), (29, 181), (30, 189), (31, 191), (32, 181), (33, 181), (35, 3), (37, 5), (38, 5)]

/-- Terminal actions of parse state 44: (token symbol, entry index). -/
def tRow44 : List (Nat × Nat) := [(0, 193), (1, 193), (2, 193), (3, 193), (4, 193), (5, 193), (6, 193), (8, 193), (10, 193), (24, 193), (25, 193), (29, 193), (30, 193), (31, 195), (32, 193), (33, 193), (35, 3), (37, 5), (38, 5)]

/-- Terminal actions of parse state 45: (token symbol, entry index). -/
def tRow45 : List (Nat × Nat) := [(0, 197), (1, 197), (2, 197), (3, 197), (4, 197), (5, 197), (6, 197), (8, 197), (10, 197), (24, 197), (25, 197), (29, 197), (30, 197), (31, 199), (32, 197), (33, 197), (35, 3), (37, 5), (38, 5)]

/-- Terminal actions of parse state 46: (token symbol, entry index). -/
def tRow46 : List (Nat × Nat) := [(0, 201), (1, 201), (2, 201), (3, 201), (4, 201), (5, 201), (6, 201), (8, 201), (30, 189), (31, 191), (32, 203), (33, 203), (35, 3), (37, 5), (38, 5)]

/-- Terminal actions of parse state 47: (token symbol, entry index). -/
def tRow47 : List (Nat × Nat) := [(10, 87), (23, 205), (27, 207), (28, 209), (30, 87), (31, 95), (32, 87), (33, 87), (34, 87), (35, 3), (37, 5), (38, 5)]

/-- Terminal actions of parse state 48: (token symbol, entry index). -/
def tRow48 : List (Nat × Nat) := [(0, 211), (1, 211), (2, 211), (3, 211), (4, 211), (5, 211), (6, 211), (8, 211), (35, 3), (37, 5), (38, 5)]

/-- Terminal actions of parse state 49: (token symbol, entry index). -/
def tRow49 : List (Nat × Nat) := [(0, 213), (1, 213), (2, 213), (3, 213), (4, 213), (5, 213), (6, 213), (8, 213), (35, 3), (37, 5), (38, 5)]

/-- Terminal actions of parse state 50: (token symbol, entry index). -/
def tRow50 : List (Nat × Nat) := [(0, 215), (1, 215), (2, 215), (3, 215), (4, 215), (5, 215), (6, 215), (8, 215), (35, 3), (37, 5), (38, 5)]

/-- Terminal actions of parse state 51: (token symbol, entry index). -/
def tRow51 : List (Nat × Nat) := [(0, 217), (1, 217), (2, 217), (3, 217), (4, 217), (5, 217), (6, 217), (8, 217), (35, 3), (37, 5), (38, 5)]

/-- Terminal actions of parse state 52: (token symbol, entry index). -/
def tRow52 : List (Nat × Nat) := [(0, 219), (1, 219), (2, 219), (3, 219), (4, 219), (5, 219), (6, 219), (8, 219), (35, 3), (37, 5), (38, 5)]

/-- Terminal actions of parse state 53: (token symbol, entry index). -/
def tRow53 : List (Nat × Nat) := [(0, 221), (1, 221), (2, 221), (3, 221), (4, 221), (5, 221), (6, 221), (8, 221), (35, 3), (37, 5), (38, 5)]

/-- Terminal actions of parse state 54: (token symbol, entry index). -/
def tRow54 : List (Nat × Nat) := [(0, 223), (1, 223), (2, 223), (3, 223), (4, 223), (5, 223), (6, 223), (8, 223), (35, 3), (37, 5), (38, 5)]

/-- Terminal actions of parse state 55: (token symbol, entry index). -/
def tRow55 : List (Nat × Nat) := [(10, 87), (27, 207), (30, 87), (31, 95), (32, 87), (33, 87), (34, 87), (35, 3), (37, 5), (38, 5)]

/-- Terminal actions of parse state 56: (token symbol, entry index). -/
def tRow56 : List (Nat × Nat) := [(10, 104), (27, 207), (30, 104), (31, 106), (32, 104), (33, 104), (34, 104), (35, 3), (37, 5), (38, 5)]

/-- Terminal actions of parse state 57: (token symbol, entry index). -/
def tRow57 : List (Nat × Nat) := [(0, 225), (1, 225), (2, 225), (3, 225), (4, 225), (5, 225), (6, 225), (8, 225), (35, 3), (37, 5), (38, 5)]

/-- Terminal actions of parse state 58: (token symbol, entry index). -/
def tRow58 : List (Nat × Nat) := [(0, 227), (1, 227), (2, 227), (3, 227), (4, 227), (5, 227), (6, 227), (8, 227), (35, 3), (37, 5), (38, 5)]

/-- Terminal actions of parse state 59: (token symbol, entry index). -/
def tRow59 : List (Nat × Nat) := [(10, 229), (11, 25), (13, 27), (15, 29), (24, 231), (34, 233), (35, 3), (37, 5), (38, 5)]

/-- Terminal actions of parse state 60: (token symbol, entry index). -/
def tRow60 : List (Nat × Nat) := [(10, 97), (23, 205), (27, 97), (30, 97), (31, 102), (32, 97), (33, 97), (34, 97), (35, 3), (37, 5), (38, 5)]

/-- Terminal actions of parse state 61: (token symbol, entry index). -/
def tRow61 : List (Nat × Nat) := [(10, 97), (27, 235), (30, 97), (31, 102), (32, 97), (33, 97), (34, 97), (35, 3), (37, 5), (38, 5)]

/-- Terminal actions of parse state 62: (token symbol, entry index). -/
def tRow62 : List (Nat × Nat) := [(10, 238), (11, 25), (13, 27), (15, 29), (24, 240), (34, 233), (35, 3), (37, 5), (38, 5)]

/-- Terminal actions of parse state 63: (token symbol, entry index). -/
def tRow63 : List (Nat × Nat) := [(0, 242), (1, 242), (2, 242), (3, 242), (4, 242), (5, 242), (6, 242), (8, 242), (35, 3), (37, 5), (38, 5)]

/-- Terminal actions of parse state 64: (token symbol, entry index). -/
def tRow64 : List (Nat × Nat) := [(24, 244), (25, 244), (29, 244), (30, 189), (31, 191), (32, 203), (33, 203), (35, 3), (37, 5), (38, 5)]

/-- Terminal actions of parse state 65: (token symbol, entry index). -/
def tRow65 : List (Nat × Nat) := [(10, 246), (11, 25), (13, 27), (15, 29), (34, 233), (35, 3), (37, 5), (38, 5)]

/-- Terminal actions of parse state 66: (token symbol, entry index). -/
def tRow66 : List (Nat × Nat) := [(10, 248), (11, 25), (13, 27), (15, 29), (34, 233), (35, 3), (37, 5), (38, 5)]

/-- Terminal actions of parse state 67: (token symbol, entry index). -/
def tRow67 : List (Nat × Nat) := [(24, 250), (29, 252), (30, 189), (31, 191), (32, 203), (33, 203), (35, 3), (37, 5), (38, 5)]

/-- Terminal actions of parse state 68: (token symbol, entry index). -/
def tRow68 : List (Nat × Nat) := [(10, 97), (27, 97), (30, 97), (31, 102), (32, 97), (33, 97), (34, 97), (35, 3), (37, 5), (38, 5)]

/-- Terminal actions of parse state 69: (token symbol, entry index). -/
def tRow69 : List (Nat × Nat) := [(10, 254), (11, 25), (13, 27), (15, 29), (34, 233), (35, 3), (37, 5), (38, 5)]

/-- Terminal actions of parse state 70: (token symbol, entry index). -/
def tRow70 : List (Nat × Nat) := [(24, 256), (25, 258), (30, 189), (31, 191), (32, 203), (33, 203), (35, 3), (37, 5), (38, 5)]

/-- Terminal actions of parse state 71: (token symbol, entry index). -/
def tRow71 : List (Nat × Nat) := [(24, 250), (29, 260), (30, 189), (31, 191), (32, 203), (33, 203), (35, 3), (37, 5), (38, 5)]

/-- Terminal actions of parse state 72: (token symbol, entry index). -/
def tRow72 : List (Nat × Nat) := [(10, 108), (27, 108), (30, 108), (31, 110), (32, 108), (33, 108), (34, 108), (35, 3), (37, 5), (38, 5)]

/-- Terminal actions of parse state 73: (token symbol, entry index). -/
def tRow73 : List (Nat × Nat) := [(24, 262), (25, 264), (30, 189), (31, 191), (32, 203), (33, 203), (35, 3), (37, 5), (38, 5)]

/-- Terminal actions of parse state 74: (token symbol, entry index). -/
def tRow74 : List (Nat × Nat) := [(10, 266), (11, 25), (13, 27), (15, 29), (34, 233), (35, 3), (37, 5), (38, 5)]

/-- Terminal actions of parse state 75: (token symbol, entry index). -/
def tRow75 : List (Nat × Nat) := [(10, 157), (30, 157), (31, 159), (32, 157), (33, 157), (34, 157), (35, 3), (37, 5), (38, 5)]

/-- Terminal actions of parse state 76: (token symbol, entry index). -/
def tRow76 : List (Nat × Nat) := [(10, 193), (30, 193), (31, 195), (32, 193), (33, 193), (34, 193), (35, 3), (37, 5), (38, 5)]

/-- Terminal actions of parse state 77: (token symbol, entry index). -/
def tRow77 : List (Nat × Nat) := [(10, 268), (30, 270), (31, 272), (32, 274), (33, 274), (34, 268), (35, 3), (37, 5), (38, 5)]

/-- Terminal actions of parse state 78: (token symbol, entry index). -/
def tRow78 : List (Nat × Nat) := [(10, 173), (30, 173), (31, 175), (32, 173), (33, 173), (34, 173), (35, 3), (37, 5), (38, 5)]

/-- Terminal actions of parse state 79: (token symbol, entry index). -/
def tRow79 : List (Nat × Nat) := [(11, 25), (13, 27), (15, 29), (34, 233), (35, 3), (37, 5), (38, 5)]

/-- Terminal actions of parse state 80: (token symbol, entry index). -/
def tRow80 : List (Nat × Nat) := [(10, 276), (24, 276), (30, 189), (31, 191), (32, 203), (33, 203), (35, 3), (37, 5), (38, 5)]

/-- Terminal actions of parse state 81: (token symbol, entry index). -/
def tRow81 : List (Nat × Nat) := [(10, 197), (30, 197), (31, 199), (32, 197), (33, 197), (34, 197), (35, 3), (37, 5), (38, 5)]

/-- Terminal actions of parse state 82: (token symbol, entry index). -/
def tRow82 : List (Nat × Nat) := [(10, 169), (30, 169), (31, 171), (32, 169), (33, 169), (34, 169), (35, 3), (37, 5), (38, 5)]

/-- Terminal actions of parse state 83: (token symbol, entry index). -/
def tRow83 : List (Nat × Nat) := [(10, 181), (30, 270), (31, 272), (32, 181), (33, 181), (34, 181), (35, 3), (37, 5), (38, 5)]

/-- Terminal actions of parse state 84: (token symbol, entry index). -/
def tRow84 : List (Nat × Nat) := [(10, 181), (30, 181), (31, 183), (32, 181), (33, 181), (34, 181), (35, 3), (37, 5), (38, 5)]

/-- Terminal actions of parse state 85: (token symbol, entry index). -/
def tRow85 : List (Nat × Nat) := [(10, 185), (30, 185), (31, 187), (32, 185), (33, 185), (34, 185), (35, 3), (37, 5), (38, 5)]

/-- Terminal actions of parse state 86: (token symbol, entry index). -/
def tRow86 : List (Nat × Nat) := [(10, 177), (30, 177), (31, 179), (32, 177), (33, 177), (34, 177), (35, 3), (37, 5), (38, 5)]

/-- Terminal actions of parse state 87: (token symbol, entry index). -/
def tRow87 : List (Nat × Nat) := [(10, 83), (30, 83), (31, 85), (32, 83), (33, 83), (34, 83), (35, 3), (37, 5), (38, 5)]

/-- Terminal actions of parse state 88: (token symbol, entry index). -/
def tRow88 : List (Nat × Nat) := [(10, 137), (30, 137), (31, 139), (32, 137), (33, 137), (34, 137), (35, 3), (37, 5), (38, 5)]

/-- Terminal actions of parse state 89: (token symbol, entry index). -/
def tRow89 : List (Nat × Nat) := [(10, 153), (30, 153), (31, 155), (32, 153), (33, 153), (34, 153), (35, 3), (37, 5), (38, 5)]

/-- Terminal actions of parse state 90: (token symbol, entry index). -/
def tRow90 : List (Nat × Nat) := [(10, 161), (30, 161), (31, 163), (32, 161), (33, 161), (34, 161), (35, 3), (37, 5), (38, 5)]

/-- Terminal actions of parse state 91: (token symbol, entry index). -/
def tRow91 : List (Nat × Nat) := [(10, 141), (30, 141), (31, 143), (32, 141), (33, 141), (34, 141), (35, 3), (37, 5), (38, 5)]

/-- Terminal actions of parse state 92: (token symbol, entry index). -/
def tRow92 : List (Nat × Nat) := [(10, 165), (30, 165), (31, 167), (32, 165), (33, 165), (34, 165), (35, 3), (37, 5), (38, 5)]

/-- Terminal actions of parse state 93: (token symbol, entry index). -/
def tRow93 : List (Nat × Nat) := [(10, 145), (30, 145), (31, 147), (32, 145), (33, 145), (34, 145), (35, 3), (37, 5), (38, 5)]

/-- Terminal actions of parse state 94: (token symbol, entry index). -/
def tRow94 : List (Nat × Nat) := [(10, 149), (30, 149), (31, 151), (32, 149), (33, 149), (34, 149), (35, 3), (37, 5), (38, 5)]

/-- Terminal actions of parse state 95: (token symbol, entry index). -/
def tRow95 : List (Nat × Nat) := [(25, 278), (30, 189), (31, 191), (32, 203), (33, 203), (35, 3), (37, 5), (38, 5)]

/-- Terminal actions of parse state 96: (token symbol, entry index). -/
def tRow96 : List (Nat × Nat) := [(25, 280), (30, 189), (31, 191), (32, 203), (33, 203), (35, 3), (37, 5), (38, 5)]

/-- Terminal actions of parse state 97: (token symbol, entry index). -/
def tRow97 : List (Nat × Nat) := [(10, 282), (34, 284), (35, 3), (37, 5), (38, 5)]

/-- Terminal actions of parse state 98: (token symbol, entry index). -/
def tRow98 : List (Nat × Nat) := [(11, 25), (13, 27), (15, 29), (35, 3), (37, 5), (38, 5)]

/-- Terminal actions of parse state 99: (token symbol, entry index). -/
def tRow99 : List (Nat × Nat) := [(11, 25), (13, 27), (15, 29), (35, 3), (37, 5), (38, 5)]

/-- Terminal actions of parse state 100: (token symbol, entry index). -/
def tRow100 : List (Nat × Nat) := [(11, 25), (13, 27), (15, 29), (35, 3), (37, 5), (38, 5)]

/-- Terminal actions of parse state 101: (token symbol, entry index). -/
def tRow101 : List (Nat × Nat) := [(11, 25), (13, 27), (15, 29), (35, 3), (37, 5), (38, 5)]

/-- Terminal actions of parse state 102: (token symbol, entry index). -/
def tRow102 : List (Nat × Nat) := [(11, 25), (13, 27), (15, 29), (35, 3), (37, 5), (38, 5)]

/-- Terminal actions of parse state 103: (token symbol, entry index). -/
def tRow103 : List (Nat × Nat) := [(10, 286), (34, 284), (35, 3), (37, 5), (38, 5)]

/-- Terminal actions of parse state 104: (token symbol, entry index). -/
def tRow104 : List (Nat × Nat) := [(10, 288), (34, 290), (35, 3), (37, 5), (38, 5)]

/-- Terminal actions of parse state 105: (token symbol, entry index). -/
def tRow105 : List (Nat × Nat) := [(11, 25), (13, 27), (15, 29), (35, 3), (37, 5), (38, 5)]

/-- Terminal actions of parse state 106: (token symbol, entry index). -/
def tRow106 : List (Nat × Nat) := [(11, 25), (13, 27), (15, 29), (35, 3), (37, 5), (38, 5)]

/-- Terminal actions of parse state 107: (token symbol, entry index). -/
def tRow107 : List (Nat × Nat) := [(11, 25), (13, 27), (15, 29), (35, 3), (37, 5), (38, 5)]

/-- Terminal actions of parse state 108: (token symbol, entry index). -/
def tRow108 : List (Nat × Nat) := [(24, 293), (25, 244), (29, 244), (35, 3), (37, 5), (38, 5)]

/-- Terminal actions of parse state 109: (token symbol, entry index). -/
def tRow109 : List (Nat × Nat) := [(11, 25), (13, 27), (15, 29), (35, 3), (37, 5), (38, 5)]

/-- Terminal actions of parse state 110: (token symbol, entry index). -/
def tRow110 : List (Nat × Nat) := [(24, 296), (25, 53), (35, 3), (37, 5), (38, 5)]

/-- Terminal actions of parse state 111: (token symbol, entry index). -/
def tRow111 : List (Nat × Nat) := [(10, 254), (24, 298), (35, 3), (37, 5), (38, 5)]

/-- Terminal actions of parse state 112: (token symbol, entry index). -/
def tRow112 : List (Nat × Nat) := [(24, 300), (25, 57), (35, 3), (37, 5), (38, 5)]

/-- Terminal actions of parse state 113: (token symbol, entry index). -/
def tRow113 : List (Nat × Nat) := [(24, 250), (29, 302), (35, 3), (37, 5), (38, 5)]

/-- Terminal actions of parse state 114: (token symbol, entry index). -/
def tRow114 : List (Nat × Nat) := [(10, 304), (24, 306), (35, 3), (37, 5), (38, 5)]

/-- Terminal actions of parse state 115: (token symbol, entry index). -/
def tRow115 : List (Nat × Nat) := [(10, 308), (24, 310), (35, 3), (37, 5), (38, 5)]

/-- Terminal actions of parse state 116: (token symbol, entry index). -/
def tRow116 : List (Nat × Nat) := [(10, 313), (24, 315), (35, 3), (37, 5), (38, 5)]

/-- Terminal actions of parse state 117: (token symbol, entry index). -/
def tRow117 : List (Nat × Nat) := [(24, 250), (29, 317), (35, 3), (37, 5), (38, 5)]

/-- Terminal actions of parse state 118: (token symbol, entry index). -/
def tRow118 : List (Nat × Nat) := [(10, 266), (24, 319), (35, 3), (37, 5), (38, 5)]

/-- Terminal actions of parse state 119: (token symbol, entry index). -/
def tRow119 : List (Nat × Nat) := [(34, 321), (35, 3), (37, 5), (38, 5)]

/-- Terminal actions of parse state 120: (token symbol, entry index). -/
def tRow120 : List (Nat × Nat) := [(10, 308), (24, 308), (35, 3), (37, 5), (38, 5)]

/-- Terminal actions of parse state 121: (token symbol, entry index). -/
def tRow121 : List (Nat × Nat) := [(9, 323), (35, 3), (37, 5), (38, 5)]

/-- Terminal actions of parse state 122: (token symbol, entry index). -/
def tRow122 : List (Nat × Nat) := [(9, 323), (35, 3), (37, 5), (38, 5)]

/-- Terminal actions of parse state 123: (token symbol, entry index). -/
def tRow123 : List (Nat × Nat) := [(10, 325), (34, 325), (35, 3), (37, 5), (38, 5)]

/-- Terminal actions of parse state 124: (token symbol, entry index). -/
def tRow124 : List (Nat × Nat) := [(9, 323), (35, 3), (37, 5), (38, 5)]

/-- Terminal actions of parse state 125: (token symbol, entry index). -/
def tRow125 : List (Nat × Nat) := [(9, 323), (35, 3), (37, 5), (38, 5)]

/-- Terminal actions of parse state 126: (token symbol, entry index). -/
def tRow126 : List (Nat × Nat) := [(9, 323), (35, 3), (37, 5), (38, 5)]

/-- Terminal actions of parse state 127: (token symbol, entry index). -/
def tRow127 : List (Nat × Nat) := [(34, 327), (35, 3), (37, 5), (38, 5)]

/-- Terminal actions of parse state 128: (token symbol, entry index). -/
def tRow128 : List (Nat × Nat) := [(25, 258), (35, 3), (37, 5), (38, 5)]

/-- Terminal actions of parse state 129: (token symbol, entry index). -/
def tRow129 : List (Nat × Nat) := [(13, 329), (35, 3), (37, 5), (38, 5)]

/-- Terminal actions of parse state 130: (token symbol, entry index). -/
def tRow130 : List (Nat × Nat) := [(13, 331), (35, 3), (37, 5), (38, 5)]

/-- Terminal actions of parse state 131: (token symbol, entry index). -/
def tRow131 : List (Nat × Nat) := [(15, 331), (35, 3), (37, 5), (38, 5)]

/-- Terminal actions of parse state 132: (token symbol, entry index). -/
def tRow132 : List (Nat × Nat) := [(14, 333), (35, 335), (37, 337), (38, 337)]

/-- Terminal actions of parse state 133: (token symbol, entry index). -/
def tRow133 : List (Nat × Nat) := [(7, 339), (35, 3), (37, 5), (38, 5)]

/-- Terminal actions of parse state 134: (token symbol, entry index). -/
def tRow134 : List (Nat × Nat) := [(10, 313), (35, 3), (37, 5), (38, 5)]

/-- Terminal actions of parse state 135: (token symbol, entry index). -/
def tRow135 : List (Nat × Nat) := [(12, 341), (35, 335), (37, 337), (38, 337)]

/-- Terminal actions of parse state 136: (token symbol, entry index). -/
def tRow136 : List (Nat × Nat) := [(25, 264), (35, 3), (37, 5), (38, 5)]

/-- Terminal actions of parse state 137: (token symbol, entry index). -/
def tRow137 : List (Nat × Nat) := [(16, 343), (35, 335), (37, 337), (38, 337)]

/-- Terminal actions of parse state 138: (token symbol, entry index). -/
def tRow138 : List (Nat × Nat) := [(15, 329), (35, 3), (37, 5), (38, 5)]

/-- Terminal actions of parse state 139: (token symbol, entry index). -/
def tRow139 : List (Nat × Nat) := [(31, 345), (35, 3), (37, 5), (38, 5)]

/-- Terminal actions of parse state 140: (token symbol, entry index). -/
def tRow140 : List (Nat × Nat) := [(26, 347), (35, 3), (37, 5), (38, 5)]

/-- Terminal actions of parse state 141: (token symbol, entry index). -/
def tRow141 : List (Nat × Nat) := [(11, 331), (35, 3), (37, 5), (38, 5)]

/-- Terminal actions of parse state 142: (token symbol, entry index). -/
def tRow142 : List (Nat × Nat) := [(0, 349), (35, 3), (37, 5), (38, 5)]

/-- Terminal actions of parse state 143: (token symbol, entry index). -/
def tRow143 : List (Nat × Nat) := [(35, 335), (36, 351), (37, 337), (38, 337)]

/-- Terminal actions of parse state 144: (token symbol, entry index). -/
def tRow144 : List (Nat × Nat) := [(10, 304), (35, 3), (37, 5), (38, 5)]

/-- Terminal actions of parse state 145: (token symbol, entry index). -/
def tRow145 : List (Nat × Nat) := [(35, 335), (37, 337), (38, 337), (39, 353)]

/-- Terminal actions of parse state 146: (token symbol, entry index). -/
def tRow146 : List (Nat × Nat) := [(7, 355), (35, 3), (37, 5), (38, 5)]

/-- Terminal actions of parse state 147: (token symbol, entry index). -/
def tRow147 : List (Nat × Nat) := [(16, 357), (35, 335), (37, 337), (38, 337)]

/-- Terminal actions of parse state 148: (token symbol, entry index). -/
def tRow148 : List (Nat × Nat) := [(11, 329), (35, 3), (37, 5), (38, 5)]

/-- Terminal actions of parse state 149: (token symbol, entry index). -/
def tRow149 : List (Nat × Nat) := [(12, 359), (35, 335), (37, 337), (38, 337)]

/-- Terminal actions of parse state 150: (token symbol, entry index). -/
def tRow150 : List (Nat × Nat) := [(14, 361), (35, 335), (37, 337), (38, 337)]

/-- Terminal actions of parse state 151: (token symbol, entry index). -/
def tRow151 : List (Nat × Nat) := [(0, 363)]

/-- Terminal actions of parse state 152: (token symbol, entry index). -/
def tRow152 : List (Nat × Nat) := [(0, 365)]

/-- Terminal part of `ts_parse_table`/`ts_small_parse_table`: one row per
parse state listing, per terminal symbol, the index of its entry in
`ts_parse_actions`. -/
def tblTermRows : List (List (Nat × Nat)) := [
  tRow0, tRow1, tRow2, tRow3, tRow4, tRow5, tRow6, tRow7, tRow8, tRow9,
  tRow10, tRow11, tRow12, tRow13, tRow14, tRow15, tRow16, tRow17, tRow18,
  tRow19, tRow20, tRow21, tRow22, tRow23, tRow24, tRow25, tRow26, tRow27,
  tRow28, tRow29, tRow30, tRow31, tRow32, tRow33, tRow34, tRow35, tRow36,
  tRow37, tRow38, tRow39, tRow40, tRow41, tRow42, tRow43, tRow44, tRow45,
  tRow46, tRow47, tRow48, tRow49, tRow50, tRow51, tRow52, tRow53, tRow54,
  tRow55, tRow56, tRow57, tRow58, tRow59, tRow60, tRow61, tRow62, tRow63,
  tRow64, tRow65, tRow66, tRow67, tRow68, tRow69, tRow70, tRow71, tRow72,
  tRow73, tRow74, tRow75, tRow76, tRow77, tRow78, tRow79, tRow80, tRow81,
  tRow82, tRow83, tRow84, tRow85, tRow86, tRow87, tRow88, tRow89, tRow90,
  tRow91, tRow92, tRow93, tRow94, tRow95, tRow96, tRow97, tRow98, tRow99,
  tRow100, tRow101, tRow102, tRow103, tRow104, tRow105, tRow106, tRow107,
  tRow108, tRow109, tRow110, tRow111, tRow112, tRow113, tRow114, tRow115,
  tRow116, tRow117, tRow118, tRow119, tRow120, tRow121, tRow122, tRow123,
  tRow124, tRow125, tRow126, tRow127, tRow128, tRow129, tRow130, tRow131,
  tRow132, tRow133, tRow134, tRow135, tRow136, tRow137, tRow138, tRow139,
  tRow140, tRow141, tRow142, tRow143, tRow144, tRow145, tRow146, tRow147,
  tRow148, tRow149, tRow150, tRow151, tRow152
]

/-- The terminal action row of a parse state (decision-tree form of
`tblTermRows`, equal to `tblTermRows.getD s []` everywhere; see
`tRowOf_eq`). -/
def tRowOf (s : Nat) : List (Nat × Nat) :=
  if s < 76 then (if s < 38 then (if s < 19 then (if s < 9 then (if s < 4 then (if s < 2 then (if s < 1 then (if s = 0 then tRow0 else []) else (if s = 1 then tRow1 else [])) else (if s < 3 then (if s = 2 then tRow2 else []) else (if s = 3 then tRow3 else []))) else (if s < 6 then (if s < 5 then (if s = 4 then tRow4 else []) else (if s = 5 then tRow5 else [])) else (if s < 7 then (if s = 6 then tRow6 else []) else (if s < 8 then (if s = 7 then tRow7 else []) else (if s = 8 then tRow8 else []))))) else (if s < 14 then (if s < 11 then (if s < 10 then (if s = 9 then tRow9 else []) else (if s = 10 then tRow10 else [])) else (if s < 12 then (if s = 11 then tRow11 else []) else (if s < 13 then (if s = 12 then tRow12 else []) else (if s = 13 then tRow13 else [])))) else (if s < 16 then (if s < 15 then (if s = 14 then tRow14 else []) else (if s = 15 then tRow15 else [])) else (if s < 17 then (if s = 16 then tRow16 else []) else (if s < 18 then (if s = 17 then tRow17 else []) else (if s = 18 then tRow18 else [])))))) else (if s < 28 then (if s < 23 then (if s < 21 then (if s < 20 then (if s = 19 then tRow19 else []) else (if s = 20 then tRow20 else [])) else (if s < 22 then (if s = 21 then tRow21 else []) else (if s = 22 then tRow22 else []))) else (if s < 25 then (if s < 24 then (if s = 23 then tRow23 else []) else (if s = 24 then tRow24 else [])) else (if s < 26 then (if s = 25 then tRow25 else []) else (if s < 27 then (if s = 26 then tRow26 else []) else (if s = 27 then tRow27 else []))))) else (if s < 33 then (if s < 30 then (if s < 29 then (if s = 28 then tRow28 else []) else (if s = 29 then tRow29 else [])) else (if s < 31 then (if s = 30 then tRow30 else []) else (if s < 32 then (if s = 31 then tRow31 else []) else (if s = 32 then tRow32 else [])))) else (if s < 35 then (if s < 34 then (if s = 33 then tRow33 else []) else (if s = 34 then tRow34 else [])) else (if s < 36 then (if s = 35 then tRow35 else []) else (if s < 37 then (if s = 36 then tRow36 else []) else (if s = 37 then tRow37 else []))))))) else (if s < 57 then (if s < 47 then (if s < 42 then (if s < 40 then (if s < 39 then (if s = 38 then tRow38 else []) else (if s = 39 then tRow39 else [])) else (if s < 41 then (if s = 40 then tRow40 else []) else (if s = 41 then tRow41 else []))) else (if s < 44 then (if s < 43 then (if s = 42 then tRow42 else []) else (if s = 43 then tRow43 else [])) else (if s < 45 then (if s = 44 then tRow44 else []) else (if s < 46 then (if s = 45 then tRow45 else []) else (if s = 46 then tRow46 else []))))) else (if s < 52 then (if s < 49 then (if s < 48 then (if s = 47 then tRow47 else []) else (if s = 48 then tRow48 else [])) else (if s < 50 then (if s = 49 then tRow49 else []) else (if s < 51 then (if s = 50 then tRow50 else []) else (if s = 51 then tRow51 else [])))) else (if s < 54 then (if s < 53 then (if s = 52 then tRow52 else []) else (if s = 53 then tRow53 else [])) else (if s < 55 then (if s = 54 then tRow54 else []) else (if s < 56 then (if s = 55 then tRow55 else []) else (if s = 56 then tRow56 else [])))))) else (if s < 66 then (if s < 61 then (if s < 59 then (if s < 58 then (if s = 57 then tRow57 else []) else (if s = 58 then tRow58 else [])) else (if s < 60 then (if s = 59 then tRow59 else []) else (if s = 60 then tRow60 else []))) else (if s < 63 then (if s < 62 then (if s = 61 then tRow61 else []) else (if s = 62 then tRow62 else [])) else (if s < 64 then (if s = 63 then tRow63 else []) else (if s < 65 then (if s = 64 then tRow64 else []) else (if s = 65 then tRow65 else []))))) else (if s < 71 then (if s < 68 then (if s < 67 then (if s = 66 then tRow66 else []) else (if s = 67 then tRow67 else [])) else (if s < 69 then (if s = 68 then tRow68 else []) else (if s < 70 then (if s = 69 then tRow69 else []) else (if s = 70 then tRow70 else [])))) else (if s < 73 then (if s < 72 then (if s = 71 then tRow71 else []) else (if s = 72 then tRow72 else [])) else (if s < 74 then (if s = 73 then tRow73 else []) else (if s < 75 then (if s = 74 then tRow74 else []) else (if s = 75 then tRow75 else [])))))))) else (if s < 114 then (if s < 95 then (if s < 85 then (if s < 80 then (if s < 78 then (if s < 77 then (if s = 76 then tRow76 else []) else (if s = 77 then tRow77 else [])) else (if s < 79 then (if s = 78 then tRow78 else []) else (if s = 79 then tRow79 else []))) else (if s < 82 then (if s < 81 then (if s = 80 then tRow80 else []) else (if s = 81 then tRow81 else [])) else (if s < 83 then (if s = 82 then tRow82 else []) else (if s < 84 then (if s = 83 then tRow83 else []) else (if s = 84 then tRow84 else []))))) else (if s < 90 then (if s < 87 then (if s < 86 then (if s = 85 then tRow85 else []) else (if s = 86 then tRow86 else [])) else (if s < 88 then (if s = 87 then tRow87 else []) else (if s < 89 then (if s = 88 then tRow88 else []) else (if s = 89 then tRow89 else [])))) else (if s < 92 then (if s < 91 then (if s = 90 then tRow90 else []) else (if s = 91 then tRow91 else [])) else (if s < 93 then (if s = 92 then tRow92 else []) else (if s < 94 then (if s = 93 then tRow93 else []) else (if s = 94 then tRow94 else [])))))) else (if s < 104 then (if s < 99 then (if s < 97 then (if s < 96 then (if s = 95 then tRow95 else []) else (if s = 96 then tRow96 else [])) else (if s < 98 then (if s = 97 then tRow97 else []) else (if s = 98 then tRow98 else []))) else (if s < 101 then (if s < 100 then (if s = 99 then tRow99 else []) else (if s = 100 then tRow100 else [])) else (if s < 102 then (if s = 101 then tRow101 else []) else (if s < 103 then (if s = 102 then tRow102 else []) else (if s = 103 then tRow103 else []))))) else (if s < 109 then (if s < 106 then (if s < 105 then (if s = 104 then tRow104 else []) else (if s = 105 then tRow105 else [])) else (if s < 107 then (if s = 106 then tRow106 else []) else (if s < 108 then (if s = 107 then tRow107 else []) else (if s = 108 then tRow108 else [])))) else (if s < 111 then (if s < 110 then (if s = 109 then tRow109 else []) else (if s = 110 then tRow110 else [])) else (if s < 112 then (if s = 111 then tRow111 else []) else (if s < 113 then (if s = 112 then tRow112 else []) else (if s = 113 then tRow113 else []))))))) else (if s < 133 then (if s < 123 then (if s < 118 then (if s < 116 then (if s < 115 then (if s = 114 then tRow114 else []) else (if s = 115 then tRow115 else [])) else (if s < 117 then (if s = 116 then tRow116 else []) else (if s = 117 then tRow117 else []))) else (if s < 120 then (if s < 119 then (if s = 118 then tRow118 else []) else (if s = 119 then tRow119 else [])) else (if s < 121 then (if s = 120 then tRow120 else []) else (if s < 122 then (if s = 121 then tRow121 else []) else (if s = 122 then tRow122 else []))))) else (if s < 128 then (if s < 125 then (if s < 124 then (if s = 123 then tRow123 else []) else (if s = 124 then tRow124 else [])) else (if s < 126 then (if s = 125 then tRow125 else []) else (if s < 127 then (if s = 126 then tRow126 else []) else (if s = 127 then tRow127 else [])))) else (if s < 130 then (if s < 129 then (if s = 128 then tRow128 else []) else (if s = 129 then tRow129 else [])) else (if s < 131 then (if s = 130 then tRow130 else []) else (if s < 132 then (if s = 131 then tRow131 else []) else (if s = 132 then tRow132 else [])))))) else (if s < 143 then (if s < 138 then (if s < 135 then (if s < 134 then (if s = 133 then tRow133 else []) else (if s = 134 then tRow134 else [])) else (if s < 136 then (if s = 135 then tRow135 else []) else (if s < 137 then (if s = 136 then tRow136 else []) else (if s = 137 then tRow137 else [])))) else (if s < 140 then (if s < 139 then (if s = 138 then tRow138 else []) else (if s = 139 then tRow139 else [])) else (if s < 141 then (if s = 140 then tRow140 else []) else (if s < 142 then (if s = 141 then tRow141 else []) else (if s = 142 then tRow142 else []))))) else (if s < 148 then (if s < 145 then (if s < 144 then (if s = 143 then tRow143 else []) else (if s = 144 then tRow144 else [])) else (if s < 146 then (if s = 145 then tRow145 else []) else (if s < 147 then (if s = 146 then tRow146 else []) else (if s = 147 then tRow147 else [])))) else (if s < 150 then (if s < 149 then (if s = 148 then tRow148 else []) else (if s = 149 then tRow149 else [])) else (if s < 151 then (if s = 150 then tRow150 else []) else (if s < 152 then (if s = 151 then tRow151 else []) else (if s = 152 then tRow152 else []))))))))

/-- Goto successors of parse state 0 (`STATE(n)` entries). -/
def gRow0 (nt : Nat) : Option Nat :=
  match nt with
  | 62 => some 0
  | _ => none

/-- Goto successors of parse state 1 (`STATE(n)` entries). -/
def gRow1 (nt : Nat) : Option Nat :=
  match nt with
  | 40 => some 142
  | 41 => some 48
  | 42 | 43 | 44 | 45 | 46 | 47 | 48 => some 51
  | 62 => some 1
  | 63 => some 28
  | _ => none

/-- Goto successors of parse state 2 (`STATE(n)` entries). -/
def gRow2 (nt : Nat) : Option Nat :=
  match nt with
  | 51 => some 70
  | 52 | 53 | 54 | 55 | 56 | 58 | 60 | 61 => some 32
  | 59 => some 25
  | 62 => some 2
  | _ => none

/-- Goto successors of parse state 3 (`STATE(n)` entries). -/
def gRow3 (nt : Nat) : Option Nat :=
  match nt with
  | 51 => some 73
  | 52 | 53 | 54 | 55 | 56 | 58 | 60 | 61 => some 32
  | 59 => some 25
  | 62 => some 3
  | _ => none

/-- Goto successors of parse state 4 (`STATE(n)` entries). -/
def gRow4 (nt : Nat) : Option Nat :=
  match nt with
  | 51 => some 64
  | 52 | 53 | 54 | 55 | 56 | 58 | 60 | 61 => some 32
  | 59 => some 25
  | 62 => some 4
  | _ => none

/-- Goto successors of parse state 5 (`STATE(n)` entries). -/
def gRow5 (nt : Nat) : Option Nat :=
  match nt with
  | 51 => some 64
  | 52 | 53 | 54 | 55 | 56 | 58 | 60 | 61 => some 32
  | 59 => some 25
  | 62 => some 5
  | _ => none

/-- Goto successors of parse state 6 (`STATE(n)` entries). -/
def gRow6 (nt : Nat) : Option Nat :=
  match nt with
  | 51 => some 64
  | 52 | 53 | 54 | 55 | 56 | 58 | 60 | 61 => some 32
  | 59 => some 25
  | 62 => some 6
  | _ => none

/-- Goto successors of parse state 7 (`STATE(n)` entries). -/
def gRow7 (nt : Nat) : Option Nat :=
  match nt with
  | 51 => some 64
  | 52 | 53 | 54 | 55 | 56 | 58 | 60 | 61 => some 32
  | 59 => some 25
  | 62 => some 7
  | _ => none

/-- Goto successors of parse state 8 (`STATE(n)` entries). -/
def gRow8 (nt : Nat) : Option Nat :=
  match nt with
  | 51 => some 67
  | 52 | 53 | 54 | 55 | 56 | 58 | 60 | 61 => some 32
  | 59 => some 25
  | 62 => some 8
  | _ => none

/-- Goto successors of parse state 9 (`STATE(n)` entries). -/
def gRow9 (nt : Nat) : Option Nat :=
  match nt with
  | 51 => some 71
  | 52 | 53 | 54 | 55 | 56 | 58 | 60 | 61 => some 32
  | 59 => some 25
  | 62 => some 9
  | _ => none

/-- Goto successors of parse state 10 (`STATE(n)` entries). -/
def gRow10 (nt : Nat) : Option Nat :=
  match nt with
  | 51 => some 83
  | 52 | 53 | 54 | 55 | 56 | 58 | 60 | 61 => some 93
  | 59 => some 55
  | 62 => some 10
  | _ => none

/-- Goto successors of parse state 11 (`STATE(n)` entries). -/
def gRow11 (nt : Nat) : Option Nat :=
  match nt with
  | 51 => some 80
  | 52 | 53 | 54 | 55 | 56 | 58 | 60 | 61 => some 32
  | 59 => some 25
  | 62 => some 11
  | _ => none

/-- Goto successors of parse state 12 (`STATE(n)` entries). -/
def gRow12 (nt : Nat) : Option Nat :=
  match nt with
  | 51 => some 95
  | 52 | 53 | 54 | 55 | 56 | 58 | 60 | 61 => some 32
  | 59 => some 25
  | 62 => some 12
  | _ => none

/-- Goto successors of parse state 13 (`STATE(n)` entries). -/
def gRow13 (nt : Nat) : Option Nat :=
  match nt with
  | 51 => some 41
  | 52 | 53 | 54 | 55 | 56 | 58 | 60 | 61 => some 32
  | 59 => some 25
  | 62 => some 13
  | _ => none

/-- Goto successors of parse state 14 (`STATE(n)` entries). -/
def gRow14 (nt : Nat) : Option Nat :=
  match nt with
  | 51 => some 43
  | 52 | 53 | 54 | 55 | 56 | 58 | 60 | 61 => some 32
  | 59 => some 25
  | 62 => some 14
  | _ => none

/-- Goto successors of parse state 15 (`STATE(n)` entries). -/
def gRow15 (nt : Nat) : Option Nat :=
  match nt with
  | 51 => some 64
  | 52 | 53 | 54 | 55 | 56 | 58 | 60 | 61 => some 32
  | 59 => some 25
  | 62 => some 15
  | _ => none

/-- Goto successors of parse state 16 (`STATE(n)` entries). -/
def gRow16 (nt : Nat) : Option Nat :=
  match nt with
  | 51 => some 46
  | 52 | 53 | 54 | 55 | 56 | 58 | 60 | 61 => some 32
  | 59 => some 25
  | 62 => some 16
  | _ => none

/-- Goto successors of parse state 17 (`STATE(n)` entries). -/
def gRow17 (nt : Nat) : Option Nat :=
  match nt with
  | 62 => some 17
  | _ => none

/-- Goto successors of parse state 18 (`STATE(n)` entries). -/
def gRow18 (nt : Nat) : Option Nat :=
  match nt with
  | 51 => some 84
  | 52 | 53 | 54 | 55 | 56 | 58 | 60 | 61 => some 93
  | 59 => some 55
  | 62 => some 18
  | _ => none

/-- Goto successors of parse state 19 (`STATE(n)` entries). -/
def gRow19 (nt : Nat) : Option Nat :=
  match nt with
  | 51 => some 77
  | 52 | 53 | 54 | 55 | 56 | 58 | 60 | 61 => some 93
  | 59 => some 55
  | 62 => some 19
  | _ => none

/-- Goto successors of parse state 20 (`STATE(n)` entries). -/
def gRow20 (nt : Nat) : Option Nat :=
  match nt with
  | 51 => some 96
  | 52 | 53 | 54 | 55 | 56 | 58 | 60 | 61 => some 32
  | 59 => some 25
  | 62 => some 20
  | _ => none

/-- Goto successors of parse state 21 (`STATE(n)` entries). -/
def gRow21 (nt : Nat) : Option Nat :=
  match nt with
  | 62 => some 21
  | 67 => some 24
  | _ => none

/-- Goto successors of parse state 22 (`STATE(n)` entries). -/
def gRow22 (nt : Nat) : Option Nat :=
  match nt with
  | 62 | 67 => some 22
  | _ => none

/-- Goto successors of parse state 23 (`STATE(n)` entries). -/
def gRow23 (nt : Nat) : Option Nat :=
  match nt with
  | 62 => some 23
  | _ => none

/-- Goto successors of parse state 24 (`STATE(n)` entries). -/
def gRow24 (nt : Nat) : Option Nat :=
  match nt with
  | 62 => some 24
  | 67 => some 22
  | _ => none

/-- Goto successors of parse state 25 (`STATE(n)` entries). -/
def gRow25 (nt : Nat) : Option Nat :=
  match nt with
  | 62 => some 25
  | 67 => some 24
  | _ => none

/-- Goto successors of parse state 26 (`STATE(n)` entries). -/
def gRow26 (nt : Nat) : Option Nat :=
  match nt with
  | 62 => some 26
  | _ => none

/-- Goto successors of parse state 27 (`STATE(n)` entries). -/
def gRow27 (nt : Nat) : Option Nat :=
  match nt with
  | 62 => some 27
  | _ => none

/-- Goto successors of parse state 28 (`STATE(n)` entries). -/
def gRow28 (nt : Nat) : Option Nat :=
  match nt with
  | 41 => some 48
  | 42 | 43 | 44 | 45 | 46 | 47 | 48 => some 51
  | 62 => some 28
  | 63 => some 29
  | _ => none

/-- Goto successors of parse state 29 (`STATE(n)` entries). -/
def gRow29 (nt : Nat) : Option Nat :=
  match nt with
  | 41 => some 48
  | 42 | 43 | 44 | 45 | 46 | 47 | 48 => some 51
  | 62 | 63 => some 29
  | _ => none

/-- Goto successors of parse state 30 (`STATE(n)` entries). -/
def gRow30 (nt : Nat) : Option Nat :=
  match nt with
  | 62 => some 30
  | _ => none

/-- Goto successors of parse state 31 (`STATE(n)` entries). -/
def gRow31 (nt : Nat) : Option Nat :=
  match nt with
  | 62 => some 31
  | _ => none

/-- Goto successors of parse state 32 (`STATE(n)` entries). -/
def gRow32 (nt : Nat) : Option Nat :=
  match nt with
  | 62 => some 32
  | _ => none

/-- Goto successors of parse state 33 (`STATE(n)` entries). -/
def gRow33 (nt : Nat) : Option Nat :=
  match nt with
  | 62 => some 33
  | _ => none

/-- Goto successors of parse state 34 (`STATE(n)` entries). -/
def gRow34 (nt : Nat) : Option Nat :=
  match nt with
  | 62 => some 34
  | _ => none

/-- Goto successors of parse state 35 (`STATE(n)` entries). -/
def gRow35 (nt : Nat) : Option Nat :=
  match nt with
  | 62 => some 35
  | _ => none

/-- Goto successors of parse state 36 (`STATE(n)` entries). -/
def gRow36 (nt : Nat) : Option Nat :=
  match nt with
  | 62 => some 36
  | _ => none

/-- Goto successors of parse state 37 (`STATE(n)` entries). -/
def gRow37 (nt : Nat) : Option Nat :=
  match nt with
  | 62 => some 37
  | _ => none

/-- Goto successors of parse state 38 (`STATE(n)` entries). -/
def gRow38 (nt : Nat) : Option Nat :=
  match nt with
  | 62 => some 38
  | _ => none

/-- Goto successors of parse state 39 (`STATE(n)` entries). -/
def gRow39 (nt : Nat) : Option Nat :=
  match nt with
  | 62 => some 39
  | _ => none

/-- Goto successors of parse state 40 (`STATE(n)` entries). -/
def gRow40 (nt : Nat) : Option Nat :=
  match nt with
  | 62 => some 40
  | _ => none

/-- Goto successors of parse state 41 (`STATE(n)` entries). -/
def gRow41 (nt : Nat) : Option Nat :=
  match nt with
  | 62 => some 41
  | _ => none

/-- Goto successors of parse state 42 (`STATE(n)` entries). -/
def gRow42 (nt : Nat) : Option Nat :=
  match nt with
  | 62 => some 42
  | _ => none

/-- Goto successors of parse state 43 (`STATE(n)` entries). -/
def gRow43 (nt : Nat) : Option Nat :=
  match nt with
  | 62 => some 43
  | _ => none

/-- Goto successors of parse state 44 (`STATE(n)` entries). -/
def gRow44 (nt : Nat) : Option Nat :=
  match nt with
  | 62 => some 44
  | _ => none

/-- Goto successors of parse state 45 (`STATE(n)` entries). -/
def gRow45 (nt : Nat) : Option Nat :=
  match nt with
  | 62 => some 45
  | _ => none

/-- Goto successors of parse state 46 (`STATE(n)` entries). -/
def gRow46 (nt : Nat) : Option Nat :=
  match nt with
  | 62 => some 46
  | _ => none

/-- Goto successors of parse state 47 (`STATE(n)` entries). -/
def gRow47 (nt : Nat) : Option Nat :=
  match nt with
  | 62 => some 47
  | 67 => some 56
  | _ => none

/-- Goto successors of parse state 48 (`STATE(n)` entries). -/
def gRow48 (nt : Nat) : Option Nat :=
  match nt with
  | 62 => some 48
  | _ => none

/-- Goto successors of parse state 49 (`STATE(n)` entries). -/
def gRow49 (nt : Nat) : Option Nat :=
  match nt with
  | 62 => some 49
  | _ => none

/-- Goto successors of parse state 50 (`STATE(n)` entries). -/
def gRow50 (nt : Nat) : Option Nat :=
  match nt with
  | 62 => some 50
  | _ => none

/-- Goto successors of parse state 51 (`STATE(n)` entries). -/
def gRow51 (nt : Nat) : Option Nat :=
  match nt with
  | 62 => some 51
  | _ => none

/-- Goto successors of parse state 52 (`STATE(n)` entries). -/
def gRow52 (nt : Nat) : Option Nat :=
  match nt with
  | 62 => some 52
  | _ => none

/-- Goto successors of parse state 53 (`STATE(n)` entries). -/
def gRow53 (nt : Nat) : Option Nat :=
  match nt with
  | 62 => some 53
  | _ => none

/-- Goto successors of parse state 54 (`STATE(n)` entries). -/
def gRow54 (nt : Nat) : Option Nat :=
  match nt with
  | 62 => some 54
  | _ => none

/-- Goto successors of parse state 55 (`STATE(n)` entries). -/
def gRow55 (nt : Nat) : Option Nat :=
  match nt with
  | 62 => some 55
  | 67 => some 56
  | _ => none

/-- Goto successors of parse state 56 (`STATE(n)` entries). -/
def gRow56 (nt : Nat) : Option Nat :=
  match nt with
  | 62 => some 56
  | 67 => some 61
  | _ => none

/-- Goto successors of parse state 57 (`STATE(n)` entries). -/
def gRow57 (nt : Nat) : Option Nat :=
  match nt with
  | 62 => some 57
  | _ => none

/-- Goto successors of parse state 58 (`STATE(n)` entries). -/
def gRow58 (nt : Nat) : Option Nat :=
  match nt with
  | 62 => some 58
  | _ => none

/-- Goto successors of parse state 59 (`STATE(n)` entries). -/
def gRow59 (nt : Nat) : Option Nat :=
  match nt with
  | 52 => some 140
  | 57 => some 114
  | 62 => some 59
  | _ => none

/-- Goto successors of parse state 60 (`STATE(n)` entries). -/
def gRow60 (nt : Nat) : Option Nat :=
  match nt with
  | 62 => some 60
  | _ => none

/-- Goto successors of parse state 61 (`STATE(n)` entries). -/
def gRow61 (nt : Nat) : Option Nat :=
  match nt with
  | 62 | 67 => some 61
  | _ => none

/-- Goto successors of parse state 62 (`STATE(n)` entries). -/
def gRow62 (nt : Nat) : Option Nat :=
  match nt with
  | 52 => some 140
  | 57 => some 116
  | 62 => some 62
  | _ => none

/-- Goto successors of parse state 63 (`STATE(n)` entries). -/
def gRow63 (nt : Nat) : Option Nat :=
  match nt with
  | 62 => some 63
  | _ => none

/-- Goto successors of parse state 64 (`STATE(n)` entries). -/
def gRow64 (nt : Nat) : Option Nat :=
  match nt with
  | 62 => some 64
  | _ => none

/-- Goto successors of parse state 65 (`STATE(n)` entries). -/
def gRow65 (nt : Nat) : Option Nat :=
  match nt with
  | 52 => some 140
  | 57 => some 120
  | 62 => some 65
  | _ => none

/-- Goto successors of parse state 66 (`STATE(n)` entries). -/
def gRow66 (nt : Nat) : Option Nat :=
  match nt with
  | 52 => some 140
  | 57 => some 120
  | 62 => some 66
  | _ => none

/-- Goto successors of parse state 67 (`STATE(n)` entries). -/
def gRow67 (nt : Nat) : Option Nat :=
  match nt with
  | 62 => some 67
  | 65 => some 117
  | _ => none

/-- Goto successors of parse state 68 (`STATE(n)` entries). -/
def gRow68 (nt : Nat) : Option Nat :=
  match nt with
  | 62 => some 68
  | _ => none

/-- Goto successors of parse state 69 (`STATE(n)` entries). -/
def gRow69 (nt : Nat) : Option Nat :=
  match nt with
  | 52 => some 140
  | 57 => some 120
  | 62 => some 69
  | _ => none

/-- Goto successors of parse state 70 (`STATE(n)` entries). -/
def gRow70 (nt : Nat) : Option Nat :=
  match nt with
  | 62 => some 70
  | 65 => some 112
  | _ => none

/-- Goto successors of parse state 71 (`STATE(n)` entries). -/
def gRow71 (nt : Nat) : Option Nat :=
  match nt with
  | 62 => some 71
  | 65 => some 113
  | _ => none

/-- Goto successors of parse state 72 (`STATE(n)` entries). -/
def gRow72 (nt : Nat) : Option Nat :=
  match nt with
  | 62 => some 72
  | _ => none

/-- Goto successors of parse state 73 (`STATE(n)` entries). -/
def gRow73 (nt : Nat) : Option Nat :=
  match nt with
  | 62 => some 73
  | 65 => some 110
  | _ => none

/-- Goto successors of parse state 74 (`STATE(n)` entries). -/
def gRow74 (nt : Nat) : Option Nat :=
  match nt with
  | 52 => some 140
  | 57 => some 120
  | 62 => some 74
  | _ => none

/-- Goto successors of parse state 75 (`STATE(n)` entries). -/
def gRow75 (nt : Nat) : Option Nat :=
  match nt with
  | 62 => some 75
  | _ => none

/-- Goto successors of parse state 76 (`STATE(n)` entries). -/
def gRow76 (nt : Nat) : Option Nat :=
  match nt with
  | 62 => some 76
  | _ => none

/-- Goto successors of parse state 77 (`STATE(n)` entries). -/
def gRow77 (nt : Nat) : Option Nat :=
  match nt with
  | 62 => some 77
  | _ => none

/-- Goto successors of parse state 78 (`STATE(n)` entries). -/
def gRow78 (nt : Nat) : Option Nat :=
  match nt with
  | 62 => some 78
  | _ => none

/-- Goto successors of parse state 79 (`STATE(n)` entries). -/
def gRow79 (nt : Nat) : Option Nat :=
  match nt with
  | 52 => some 140
  | 57 => some 120
  | 62 => some 79
  | _ => none

/-- Goto successors of parse state 80 (`STATE(n)` entries). -/
def gRow80 (nt : Nat) : Option Nat :=
  match nt with
  | 62 => some 80
  | _ => none

/-- Goto successors of parse state 81 (`STATE(n)` entries). -/
def gRow81 (nt : Nat) : Option Nat :=
  match nt with
  | 62 => some 81
  | _ => none

/-- Goto successors of parse state 82 (`STATE(n)` entries). -/
def gRow82 (nt : Nat) : Option Nat :=
  match nt with
  | 62 => some 82
  | _ => none

/-- Goto successors of parse state 83 (`STATE(n)` entries). -/
def gRow83 (nt : Nat) : Option Nat :=
  match nt with
  | 62 => some 83
  | _ => none

/-- Goto successors of parse state 84 (`STATE(n)` entries). -/
def gRow84 (nt : Nat) : Option Nat :=
  match nt with
  | 62 => some 84
  | _ => none

/-- Goto successors of parse state 85 (`STATE(n)` entries). -/
def gRow85 (nt : Nat) : Option Nat :=
  match nt with
  | 62 => some 85
  | _ => none

/-- Goto successors of parse state 86 (`STATE(n)` entries). -/
def gRow86 (nt : Nat) : Option Nat :=
  match nt with
  | 62 => some 86
  | _ => none

/-- Goto successors of parse state 87 (`STATE(n)` entries). -/
def gRow87 (nt : Nat) : Option Nat :=
  match nt with
  | 62 => some 87
  | _ => none

/-- Goto successors of parse state 88 (`STATE(n)` entries). -/
def gRow88 (nt : Nat) : Option Nat :=
  match nt with
  | 62 => some 88
  | _ => none

/-- Goto successors of parse state 89 (`STATE(n)` entries). -/
def gRow89 (nt : Nat) : Option Nat :=
  match nt with
  | 62 => some 89
  | _ => none

/-- Goto successors of parse state 90 (`STATE(n)` entries). -/
def gRow90 (nt : Nat) : Option Nat :=
  match nt with
  | 62 => some 90
  | _ => none

/-- Goto successors of parse state 91 (`STATE(n)` entries). -/
def gRow91 (nt : Nat) : Option Nat :=
  match nt with
  | 62 => some 91
  | _ => none

/-- Goto successors of parse state 92 (`STATE(n)` entries). -/
def gRow92 (nt : Nat) : Option Nat :=
  match nt with
  | 62 => some 92
  | _ => none

/-- Goto successors of parse state 93 (`STATE(n)` entries). -/
def gRow93 (nt : Nat) : Option Nat :=
  match nt with
  | 62 => some 93
  | _ => none

/-- Goto successors of parse state 94 (`STATE(n)` entries). -/
def gRow94 (nt : Nat) : Option Nat :=
  match nt with
  | 62 => some 94
  | _ => none

/-- Goto successors of parse state 95 (`STATE(n)` entries). -/
def gRow95 (nt : Nat) : Option Nat :=
  match nt with
  | 62 => some 95
  | _ => none

/-- Goto successors of parse state 96 (`STATE(n)` entries). -/
def gRow96 (nt : Nat) : Option Nat :=
  match nt with
  | 62 => some 96
  | _ => none

/-- Goto successors of parse state 97 (`STATE(n)` entries). -/
def gRow97 (nt : Nat) : Option Nat :=
  match nt with
  | 50 => some 123
  | 62 => some 97
  | 64 => some 103
  | _ => none

/-- Goto successors of parse state 98 (`STATE(n)` entries). -/
def gRow98 (nt : Nat) : Option Nat :=
  match nt with
  | 52 => some 121
  | 62 => some 98
  | _ => none

/-- Goto successors of parse state 99 (`STATE(n)` entries). -/
def gRow99 (nt : Nat) : Option Nat :=
  match nt with
  | 52 => some 124
  | 62 => some 99
  | _ => none

/-- Goto successors of parse state 100 (`STATE(n)` entries). -/
def gRow100 (nt : Nat) : Option Nat :=
  match nt with
  | 52 => some 50
  | 62 => some 100
  | _ => none

/-- Goto successors of parse state 101 (`STATE(n)` entries). -/
def gRow101 (nt : Nat) : Option Nat :=
  match nt with
  | 52 => some 125
  | 62 => some 101
  | _ => none

/-- Goto successors of parse state 102 (`STATE(n)` entries). -/
def gRow102 (nt : Nat) : Option Nat :=
  match nt with
  | 52 => some 122
  | 62 => some 102
  | _ => none

/-- Goto successors of parse state 103 (`STATE(n)` entries). -/
def gRow103 (nt : Nat) : Option Nat :=
  match nt with
  | 50 => some 123
  | 62 => some 103
  | 64 => some 104
  | _ => none

/-- Goto successors of parse state 104 (`STATE(n)` entries). -/
def gRow104 (nt : Nat) : Option Nat :=
  match nt with
  | 50 => some 123
  | 62 | 64 => some 104
  | _ => none

/-- Goto successors of parse state 105 (`STATE(n)` entries). -/
def gRow105 (nt : Nat) : Option Nat :=
  match nt with
  | 52 => some 146
  | 62 => some 105
  | _ => none

/-- Goto successors of parse state 106 (`STATE(n)` entries). -/
def gRow106 (nt : Nat) : Option Nat :=
  match nt with
  | 52 => some 107
  | 62 => some 106
  | _ => none

/-- Goto successors of parse state 107 (`STATE(n)` entries). -/
def gRow107 (nt : Nat) : Option Nat :=
  match nt with
  | 52 => some 126
  | 62 => some 107
  | _ => none

/-- Goto successors of parse state 108 (`STATE(n)` entries). -/
def gRow108 (nt : Nat) : Option Nat :=
  match nt with
  | 62 | 65 => some 108
  | _ => none

/-- Goto successors of parse state 109 (`STATE(n)` entries). -/
def gRow109 (nt : Nat) : Option Nat :=
  match nt with
  | 52 => some 98
  | 62 => some 109
  | _ => none

/-- Goto successors of parse state 110 (`STATE(n)` entries). -/
def gRow110 (nt : Nat) : Option Nat :=
  match nt with
  | 62 => some 110
  | 65 => some 108
  | _ => none

/-- Goto successors of parse state 111 (`STATE(n)` entries). -/
def gRow111 (nt : Nat) : Option Nat :=
  match nt with
  | 62 => some 111
  | 66 => some 115
  | _ => none

/-- Goto successors of parse state 112 (`STATE(n)` entries). -/
def gRow112 (nt : Nat) : Option Nat :=
  match nt with
  | 62 => some 112
  | 65 => some 108
  | _ => none

/-- Goto successors of parse state 113 (`STATE(n)` entries). -/
def gRow113 (nt : Nat) : Option Nat :=
  match nt with
  | 62 => some 113
  | 65 => some 108
  | _ => none

/-- Goto successors of parse state 114 (`STATE(n)` entries). -/
def gRow114 (nt : Nat) : Option Nat :=
  match nt with
  | 62 => some 114
  | 66 => some 118
  | _ => none

/-- Goto successors of parse state 115 (`STATE(n)` entries). -/
def gRow115 (nt : Nat) : Option Nat :=
  match nt with
  | 62 | 66 => some 115
  | _ => none

/-- Goto successors of parse state 116 (`STATE(n)` entries). -/
def gRow116 (nt : Nat) : Option Nat :=
  match nt with
  | 62 => some 116
  | 66 => some 111
  | _ => none

/-- Goto successors of parse state 117 (`STATE(n)` entries). -/
def gRow117 (nt : Nat) : Option Nat :=
  match nt with
  | 62 => some 117
  | 65 => some 108
  | _ => none

/-- Goto successors of parse state 118 (`STATE(n)` entries). -/
def gRow118 (nt : Nat) : Option Nat :=
  match nt with
  | 62 => some 118
  | 66 => some 115
  | _ => none

/-- Goto successors of parse state 119 (`STATE(n)` entries). -/
def gRow119 (nt : Nat) : Option Nat :=
  match nt with
  | 59 => some 68
  | 62 => some 119
  | _ => none

/-- Goto successors of parse state 120 (`STATE(n)` entries). -/
def gRow120 (nt : Nat) : Option Nat :=
  match nt with
  | 62 => some 120
  | _ => none

/-- Goto successors of parse state 121 (`STATE(n)` entries). -/
def gRow121 (nt : Nat) : Option Nat :=
  match nt with
  | 49 => some 58
  | 62 => some 121
  | _ => none

/-- Goto successors of parse state 122 (`STATE(n)` entries). -/
def gRow122 (nt : Nat) : Option Nat :=
  match nt with
  | 49 => some 53
  | 62 => some 122
  | _ => none

/-- Goto successors of parse state 123 (`STATE(n)` entries). -/
def gRow123 (nt : Nat) : Option Nat :=
  match nt with
  | 62 => some 123
  | _ => none

/-- Goto successors of parse state 124 (`STATE(n)` entries). -/
def gRow124 (nt : Nat) : Option Nat :=
  match nt with
  | 49 => some 52
  | 62 => some 124
  | _ => none

/-- Goto successors of parse state 125 (`STATE(n)` entries). -/
def gRow125 (nt : Nat) : Option Nat :=
  match nt with
  | 49 => some 49
  | 62 => some 125
  | _ => none

/-- Goto successors of parse state 126 (`STATE(n)` entries). -/
def gRow126 (nt : Nat) : Option Nat :=
  match nt with
  | 49 => some 57
  | 62 => some 126
  | _ => none

/-- Goto successors of parse state 127 (`STATE(n)` entries). -/
def gRow127 (nt : Nat) : Option Nat :=
  match nt with
  | 59 => some 27
  | 62 => some 127
  | _ => none

/-- Goto successors of parse state 128 (`STATE(n)` entries). -/
def gRow128 (nt : Nat) : Option Nat :=
  match nt with
  | 62 => some 128
  | _ => none

/-- Goto successors of parse state 129 (`STATE(n)` entries). -/
def gRow129 (nt : Nat) : Option Nat :=
  match nt with
  | 62 => some 129
  | _ => none

/-- Goto successors of parse state 130 (`STATE(n)` entries). -/
def gRow130 (nt : Nat) : Option Nat :=
  match nt with
  | 62 => some 130
  | _ => none

/-- Goto successors of parse state 131 (`STATE(n)` entries). -/
def gRow131 (nt : Nat) : Option Nat :=
  match nt with
  | 62 => some 131
  | _ => none

/-- Goto successors of parse state 132 (`STATE(n)` entries). -/
def gRow132 (nt : Nat) : Option Nat :=
  match nt with
  | 62 => some 132
  | _ => none

/-- Goto successors of parse state 133 (`STATE(n)` entries). -/
def gRow133 (nt : Nat) : Option Nat :=
  match nt with
  | 62 => some 133
  | _ => none

/-- Goto successors of parse state 134 (`STATE(n)` entries). -/
def gRow134 (nt : Nat) : Option Nat :=
  match nt with
  | 62 => some 134
  | _ => none

/-- Goto successors of parse state 135 (`STATE(n)` entries). -/
def gRow135 (nt : Nat) : Option Nat :=
  match nt with
  | 62 => some 135
  | _ => none

/-- Goto successors of parse state 136 (`STATE(n)` entries). -/
def gRow136 (nt : Nat) : Option Nat :=
  match nt with
  | 62 => some 136
  | _ => none

/-- Goto successors of parse state 137 (`STATE(n)` entries). -/
def gRow137 (nt : Nat) : Option Nat :=
  match nt with
  | 62 => some 137
  | _ => none

/-- Goto successors of parse state 138 (`STATE(n)` entries). -/
def gRow138 (nt : Nat) : Option Nat :=
  match nt with
  | 62 => some 138
  | _ => none

/-- Goto successors of parse state 139 (`STATE(n)` entries). -/
def gRow139 (nt : Nat) : Option Nat :=
  match nt with
  | 62 => some 139
  | _ => none

/-- Goto successors of parse state 140 (`STATE(n)` entries). -/
def gRow140 (nt : Nat) : Option Nat :=
  match nt with
  | 62 => some 140
  | _ => none

/-- Goto successors of parse state 141 (`STATE(n)` entries). -/
def gRow141 (nt : Nat) : Option Nat :=
  match nt with
  | 62 => some 141
  | _ => none

/-- Goto successors of parse state 142 (`STATE(n)` entries). -/
def gRow142 (nt : Nat) : Option Nat :=
  match nt with
  | 62 => some 142
  | _ => none

/-- Goto successors of parse state 143 (`STATE(n)` entries). -/
def gRow143 (nt : Nat) : Option Nat :=
  match nt with
  | 62 => some 143
  | _ => none

/-- Goto successors of parse state 144 (`STATE(n)` entries). -/
def gRow144 (nt : Nat) : Option Nat :=
  match nt with
  | 62 => some 144
  | _ => none

/-- Goto successors of parse state 145 (`STATE(n)` entries). -/
def gRow145 (nt : Nat) : Option Nat :=
  match nt with
  | 62 => some 145
  | _ => none

/-- Goto successors of parse state 146 (`STATE(n)` entries). -/
def gRow146 (nt : Nat) : Option Nat :=
  match nt with
  | 62 => some 146
  | _ => none

/-- Goto successors of parse state 147 (`STATE(n)` entries). -/
def gRow147 (nt : Nat) : Option Nat :=
  match nt with
  | 62 => some 147
  | _ => none

/-- Goto successors of parse state 148 (`STATE(n)` entries). -/
def gRow148 (nt : Nat) : Option Nat :=
  match nt with
  | 62 => some 148
  | _ => none

/-- Goto successors of parse state 149 (`STATE(n)` entries). -/
def gRow149 (nt : Nat) : Option Nat :=
  match nt with
  | 62 => some 149
  | _ => none

/-- Goto successors of parse state 150 (`STATE(n)` entries). -/
def gRow150 (nt : Nat) : Option Nat :=
  match nt with
  | 62 => some 150
  | _ => none

/-- Goto part of the parse tables: for a parse state and a non-terminal
symbol, the successor state. -/
def tblGoto (s nt : Nat) : Option Nat :=
  if s < 76 then (if s < 38 then (if s < 19 then (if s < 9 then (if s < 4 then (if s < 2 then (if s < 1 then (if s = 0 then gRow0 nt else none) else (if s = 1 then gRow1 nt else none)) else (if s < 3 then (if s = 2 then gRow2 nt else none) else (if s = 3 then gRow3 nt else none))) else (if s < 6 then (if s < 5 then (if s = 4 then gRow4 nt else none) else (if s = 5 then gRow5 nt else none)) else (if s < 7 then (if s = 6 then gRow6 nt else none) else (if s < 8 then (if s = 7 then gRow7 nt else none) else (if s = 8 then gRow8 nt else none))))) else (if s < 14 then (if s < 11 then (if s < 10 then (if s = 9 then gRow9 nt else none) else (if s = 10 then gRow10 nt else none)) else (if s < 12 then (if s = 11 then gRow11 nt else none) else (if s < 13 then (if s = 12 then gRow12 nt else none) else (if s = 13 then gRow13 nt else none)))) else (if s < 16 then (if s < 15 then (if s = 14 then gRow14 nt else none) else (if s = 15 then gRow15 nt else none)) else (if s < 17 then (if s = 16 then gRow16 nt else none) else (if s < 18 then (if s = 17 then gRow17 nt else none) else (if s = 18 then gRow18 nt else none)))))) else (if s < 28 then (if s < 23 then (if s < 21 then (if s < 20 then (if s = 19 then gRow19 nt else none) else (if s = 20 then gRow20 nt else none)) else (if s < 22 then (if s = 21 then gRow21 nt else none) else (if s = 22 then gRow22 nt else none))) else (if s < 25 then (if s < 24 then (if s = 23 then gRow23 nt else none) else (if s = 24 then gRow24 nt else none)) else (if s < 26 then (if s = 25 then gRow25 nt else none) else (if s < 27 then (if s = 26 then gRow26 nt else none) else (if s = 27 then gRow27 nt else none))))) else (if s < 33 then (if s < 30 then (if s < 29 then (if s = 28 then gRow28 nt else none) else (if s = 29 then gRow29 nt else none)) else (if s < 31 then (if s = 30 then gRow30 nt else none) else (if s < 32 then (if s = 31 then gRow31 nt else none) else (if s = 32 then gRow32 nt else none)))) else (if s < 35 then (if s < 34 then (if s = 33 then gRow33 nt else none) else (if s = 34 then gRow34 nt else none)) else (if s < 36 then (if s = 35 then gRow35 nt else none) else (if s < 37 then (if s = 36 then gRow36 nt else none) else (if s = 37 then gRow37 nt else none))))))) else (if s < 57 then (if s < 47 then (if s < 42 then (if s < 40 then (if s < 39 then (if s = 38 then gRow38 nt else none) else (if s = 39 then gRow39 nt else none)) else (if s < 41 then (if s = 40 then gRow40 nt else none) else (if s = 41 then gRow41 nt else none))) else (if s < 44 then (if s < 43 then (if s = 42 then gRow42 nt else none) else (if s = 43 then gRow43 nt else none)) else (if s < 45 then (if s = 44 then gRow44 nt else none) else (if s < 46 then (if s = 45 then gRow45 nt else none) else (if s = 46 then gRow46 nt else none))))) else (if s < 52 then (if s < 49 then (if s < 48 then (if s = 47 then gRow47 nt else none) else (if s = 48 then gRow48 nt else none)) else (if s < 50 then (if s = 49 then gRow49 nt else none) else (if s < 51 then (if s = 50 then gRow50 nt else none) else (if s = 51 then gRow51 nt else none)))) else (if s < 54 then (if s < 53 then (if s = 52 then gRow52 nt else none) else (if s = 53 then gRow53 nt else none)) else (if s < 55 then (if s = 54 then gRow54 nt else none) else (if s < 56 then (if s = 55 then gRow55 nt else none) else (if s = 56 then gRow56 nt else none)))))) else (if s < 66 then (if s < 61 then (if s < 59 then (if s < 58 then (if s = 57 then gRow57 nt else none) else (if s = 58 then gRow58 nt else none)) else (if s < 60 then (if s = 59 then gRow59 nt else none) else (if s = 60 then gRow60 nt else none))) else (if s < 63 then (if s < 62 then (if s = 61 then gRow61 nt else none) else (if s = 62 then gRow62 nt else none)) else (if s < 64 then (if s = 63 then gRow63 nt else none) else (if s < 65 then (if s = 64 then gRow64 nt else none) else (if s = 65 then gRow65 nt else none))))) else (if s < 71 then (if s < 68 then (if s < 67 then (if s = 66 then gRow66 nt else none) else (if s = 67 then gRow67 nt else none)) else (if s < 69 then (if s = 68 then gRow68 nt else none) else (if s < 70 then (if s = 69 then gRow69 nt else none) else (if s = 70 then gRow70 nt else none)))) else (if s < 73 then (if s < 72 then (if s = 71 then gRow71 nt else none) else (if s = 72 then gRow72 nt else none)) else (if s < 74 then (if s = 73 then gRow73 nt else none) else (if s < 75 then (if s = 74 then gRow74 nt else none) else (if s = 75 then gRow75 nt else none)))))))) else (if s < 114 then (if s < 95 then (if s < 85 then (if s < 80 then (if s < 78 then (if s < 77 then (if s = 76 then gRow76 nt else none) else (if s = 77 then gRow77 nt else none)) else (if s < 79 then (if s = 78 then gRow78 nt else none) else (if s = 79 then gRow79 nt else none))) else (if s < 82 then (if s < 81 then (if s = 80 then gRow80 nt else none) else (if s = 81 then gRow81 nt else none)) else (if s < 83 then (if s = 82 then gRow82 nt else none) else (if s < 84 then (if s = 83 then gRow83 nt else none) else (if s = 84 then gRow84 nt else none))))) else (if s < 90 then (if s < 87 then (if s < 86 then (if s = 85 then gRow85 nt else none) else (if s = 86 then gRow86 nt else none)) else (if s < 88 then (if s = 87 then gRow87 nt else none) else (if s < 89 then (if s = 88 then gRow88 nt else none) else (if s = 89 then gRow89 nt else none)))) else (if s < 92 then (if s < 91 then (if s = 90 then gRow90 nt else none) else (if s = 91 then gRow91 nt else none)) else (if s < 93 then (if s = 92 then gRow92 nt else none) else (if s < 94 then (if s = 93 then gRow93 nt else none) else (if s = 94 then gRow94 nt else none)))))) else (if s < 104 then (if s < 99 then (if s < 97 then (if s < 96 then (if s = 95 then gRow95 nt else none) else (if s = 96 then gRow96 nt else none)) else (if s < 98 then (if s = 97 then gRow97 nt else none) else (if s = 98 then gRow98 nt else none))) else (if s < 101 then (if s < 100 then (if s = 99 then gRow99 nt else none) else (if s = 100 then gRow100 nt else none)) else (if s < 102 then (if s = 101 then gRow101 nt else none) else (if s < 103 then (if s = 102 then gRow102 nt else none) else (if s = 103 then gRow103 nt else none))))) else (if s < 109 then (if s < 106 then (if s < 105 then (if s = 104 then gRow104 nt else none) else (if s = 105 then gRow105 nt else none)) else (if s < 107 then (if s = 106 then gRow106 nt else none) else (if s < 108 then (if s = 107 then gRow107 nt else none) else (if s = 108 then gRow108 nt else none)))) else (if s < 111 then (if s < 110 then (if s = 109 then gRow109 nt else none) else (if s = 110 then gRow110 nt else none)) else (if s < 112 then (if s = 111 then gRow111 nt else none) else (if s < 113 then (if s = 112 then gRow112 nt else none) else (if s = 113 then gRow113 nt else none))))))) else (if s < 133 then (if s < 123 then (if s < 118 then (if s < 116 then (if s < 115 then (if s = 114 then gRow114 nt else none) else (if s = 115 then gRow115 nt else none)) else (if s < 117 then (if s = 116 then gRow116 nt else none) else (if s = 117 then gRow117 nt else none))) else (if s < 120 then (if s < 119 then (if s = 118 then gRow118 nt else none) else (if s = 119 then gRow119 nt else none)) else (if s < 121 then (if s = 120 then gRow120 nt else none) else (if s < 122 then (if s = 121 then gRow121 nt else none) else (if s = 122 then gRow122 nt else none))))) else (if s < 128 then (if s < 125 then (if s < 124 then (if s = 123 then gRow123 nt else none) else (if s = 124 then gRow124 nt else none)) else (if s < 126 then (if s = 125 then gRow125 nt else none) else (if s < 127 then (if s = 126 then gRow126 nt else none) else (if s = 127 then gRow127 nt else none)))) else (if s < 130 then (if s < 129 then (if s = 128 then gRow128 nt else none) else (if s = 129 then gRow129 nt else none)) else (if s < 131 then (if s = 130 then gRow130 nt else none) else (if s < 132 then (if s = 131 then gRow131 nt else none) else (if s = 132 then gRow132 nt else none)))))) else (if s < 143 then (if s < 138 then (if s < 135 then (if s < 134 then (if s = 133 then gRow133 nt else none) else (if s = 134 then gRow134 nt else none)) else (if s < 136 then (if s = 135 then gRow135 nt else none) else (if s < 137 then (if s = 136 then gRow136 nt else none) else (if s = 137 then gRow137 nt else none)))) else (if s < 140 then (if s < 139 then (if s = 138 then gRow138 nt else none) else (if s = 139 then gRow139 nt else none)) else (if s < 141 then (if s = 140 then gRow140 nt else none) else (if s < 142 then (if s = 141 then gRow141 nt else none) else (if s = 142 then gRow142 nt else none))))) else (if s < 148 then (if s < 145 then (if s < 144 then (if s = 143 then gRow143 nt else none) else (if s = 144 then gRow144 nt else none)) else (if s < 146 then (if s = 145 then gRow145 nt else none) else (if s < 147 then (if s = 146 then gRow146 nt else none) else (if s = 147 then gRow147 nt else none)))) else (if s < 150 then (if s < 149 then (if s = 148 then gRow148 nt else none) else (if s = 149 then gRow149 nt else none)) else (if s < 151 then (if s = 150 then gRow150 nt else none) else (if s < 152 then (if s = 151 then none else none) else (if s = 152 then none else none))))))))

/-- Entry 0 of `ts_parse_actions`. -/
def pEnt0 : List PAct := []

/-- Entry 1 of `ts_parse_actions`. -/
def pEnt1 : List PAct := [.recover]

/-- Entry 3 of `ts_parse_actions`. -/
def pEnt3 : List PAct := [.shift 143]

/-- Entry 5 of `ts_parse_actions`. -/
def pEnt5 : List PAct := [.shift 145]

/-- Entry 7 of `ts_parse_actions`. -/
def pEnt7 : List PAct := [.reduce 40 0 0]

/-- Entry 9 of `ts_parse_actions`. -/
def pEnt9 : List PAct := [.shift 101]

/-- Entry 11 of `ts_parse_actions`. -/
def pEnt11 : List PAct := [.shift 106]

/-- Entry 13 of `ts_parse_actions`. -/
def pEnt13 : List PAct := [.shift 109]

/-- Entry 15 of `ts_parse_actions`. -/
def pEnt15 : List PAct := [.shift 99]

/-- Entry 17 of `ts_parse_actions`. -/
def pEnt17 : List PAct := [.shift 102]

/-- Entry 19 of `ts_parse_actions`. -/
def pEnt19 : List PAct := [.shift 105]

/-- Entry 21 of `ts_parse_actions`. -/
def pEnt21 : List PAct := [.shift 100]

/-- Entry 23 of `ts_parse_actions`. -/
def pEnt23 : List PAct := [.shift 59]

/-- Entry 25 of `ts_parse_actions`. -/
def pEnt25 : List PAct := [.shift 135]

/-- Entry 27 of `ts_parse_actions`. -/
def pEnt27 : List PAct := [.shift 132]

/-- Entry 29 of `ts_parse_actions`. -/
def pEnt29 : List PAct := [.shift 137]

/-- Entry 31 of `ts_parse_actions`. -/
def pEnt31 : List PAct := [.shift 34]

/-- Entry 33 of `ts_parse_actions`. -/
def pEnt33 : List PAct := [.shift 34]

/-- Entry 35 of `ts_parse_actions`. -/
def pEnt35 : List PAct := [.shift 33]

/-- Entry 37 of `ts_parse_actions`. -/
def pEnt37 : List PAct := [.shift 32]

/-- Entry 39 of `ts_parse_actions`. -/
def pEnt39 : List PAct := [.shift 3]

/-- Entry 41 of `ts_parse_actions`. -/
def pEnt41 : List PAct := [.shift 128]

/-- Entry 43 of `ts_parse_actions`. -/
def pEnt43 : List PAct := [.shift 91]

/-- Entry 45 of `ts_parse_actions`. -/
def pEnt45 : List PAct := [.shift 21]

/-- Entry 47 of `ts_parse_actions`. -/
def pEnt47 : List PAct := [.shift 136]

/-- Entry 49 of `ts_parse_actions`. -/
def pEnt49 : List PAct := [.shift 31]

/-- Entry 51 of `ts_parse_actions`. -/
def pEnt51 : List PAct := [.shift 39]

/-- Entry 53 of `ts_parse_actions`. -/
def pEnt53 : List PAct := [.shift 44]

/-- Entry 55 of `ts_parse_actions`. -/
def pEnt55 : List PAct := [.shift 78]

/-- Entry 57 of `ts_parse_actions`. -/
def pEnt57 : List PAct := [.shift 76]

/-- Entry 59 of `ts_parse_actions`. -/
def pEnt59 : List PAct := [.shift 75]

/-- Entry 61 of `ts_parse_actions`. -/
def pEnt61 : List PAct := [.shift 35]

/-- Entry 63 of `ts_parse_actions`. -/
def pEnt63 : List PAct := [.shift 62]

/-- Entry 65 of `ts_parse_actions`. -/
def pEnt65 : List PAct := [.shift 149]

/-- Entry 67 of `ts_parse_actions`. -/
def pEnt67 : List PAct := [.shift 150]

/-- Entry 69 of `ts_parse_actions`. -/
def pEnt69 : List PAct := [.shift 147]

/-- Entry 71 of `ts_parse_actions`. -/
def pEnt71 : List PAct := [.shift 89]

/-- Entry 73 of `ts_parse_actions`. -/
def pEnt73 : List PAct := [.shift 89]

/-- Entry 75 of `ts_parse_actions`. -/
def pEnt75 : List PAct := [.shift 94]

/-- Entry 77 of `ts_parse_actions`. -/
def pEnt77 : List PAct := [.shift 93]

/-- Entry 79 of `ts_parse_actions`. -/
def pEnt79 : List PAct := [.shift 2]

/-- Entry 81 of `ts_parse_actions`. -/
def pEnt81 : List PAct := [.shift 47]

/-- Entry 83 of `ts_parse_actions`. -/
def pEnt83 : List PAct := [.reduce 52 3 0]

/-- Entry 85 of `ts_parse_actions`. -/
def pEnt85 : List PAct := [.reduce 52 3 0]

/-- Entry 87 of `ts_parse_actions`. -/
def pEnt87 : List PAct := [.reduce 58 1 0]

/-- Entry 89 of `ts_parse_actions`. -/
def pEnt89 : List PAct := [.shift 20]

/-- Entry 91 of `ts_parse_actions`. -/
def pEnt91 : List PAct := [.shift 127]

/-- Entry 93 of `ts_parse_actions`. -/
def pEnt93 : List PAct := [.shift 9]

/-- Entry 95 of `ts_parse_actions`. -/
def pEnt95 : List PAct := [.reduce 58 1 0]

/-- Entry 97 of `ts_parse_actions`. -/
def pEnt97 : List PAct := [.reduce 67 2 0]

/-- Entry 99 of `ts_parse_actions`. -/
def pEnt99 : List PAct := [.reduce 67 2 0, .shiftRep 127]

/-- Entry 102 of `ts_parse_actions`. -/
def pEnt102 : List PAct := [.reduce 67 2 0]

/-- Entry 104 of `ts_parse_actions`. -/
def pEnt104 : List PAct := [.reduce 58 2 0]

/-- Entry 106 of `ts_parse_actions`. -/
def pEnt106 : List PAct := [.reduce 58 2 0]

/-- Entry 108 of `ts_parse_actions`. -/
def pEnt108 : List PAct := [.reduce 59 4 0]

/-- Entry 110 of `ts_parse_actions`. -/
def pEnt110 : List PAct := [.reduce 59 4 0]

/-- Entry 112 of `ts_parse_actions`. -/
def pEnt112 : List PAct := [.reduce 40 1 0]

/-- Entry 114 of `ts_parse_actions`. -/
def pEnt114 : List PAct := [.reduce 63 2 0]

/-- Entry 116 of `ts_parse_actions`. -/
def pEnt116 : List PAct := [.reduce 63 2 0, .shiftRep 101]

/-- Entry 119 of `ts_parse_actions`. -/
def pEnt119 : List PAct := [.reduce 63 2 0, .shiftRep 106]

/-- Entry 122 of `ts_parse_actions`. -/
def pEnt122 : List PAct := [.reduce 63 2 0, .shiftRep 109]

/-- Entry 125 of `ts_parse_actions`. -/
def pEnt125 : List PAct := [.reduce 63 2 0, .shiftRep 99]

/-- Entry 128 of `ts_parse_actions`. -/
def pEnt128 : List PAct := [.reduce 63 2 0, .shiftRep 102]

/-- Entry 131 of `ts_parse_actions`. -/
def pEnt131 : List PAct := [.reduce 63 2 0, .shiftRep 105]

/-- Entry 134 of `ts_parse_actions`. -/
def pEnt134 : List PAct := [.reduce 63 2 0, .shiftRep 100]

/-- Entry 137 of `ts_parse_actions`. -/
def pEnt137 : List PAct := [.reduce 55 3 0]

/-- Entry 139 of `ts_parse_actions`. -/
def pEnt139 : List PAct := [.reduce 55 3 0]

/-- Entry 141 of `ts_parse_actions`. -/
def pEnt141 : List PAct := [.reduce 55 2 0]

/-- Entry 143 of `ts_parse_actions`. -/
def pEnt143 : List PAct := [.reduce 55 2 0]

/-- Entry 145 of `ts_parse_actions`. -/
def pEnt145 : List PAct := [.reduce 51 1 0]

/-- Entry 147 of `ts_parse_actions`. -/
def pEnt147 : List PAct := [.reduce 51 1 0]

/-- Entry 149 of `ts_parse_actions`. -/
def pEnt149 : List PAct := [.reduce 54 1 0]

/-- Entry 151 of `ts_parse_actions`. -/
def pEnt151 : List PAct := [.reduce 54 1 0]

/-- Entry 153 of `ts_parse_actions`. -/
def pEnt153 : List PAct := [.reduce 53 1 0]

/-- Entry 155 of `ts_parse_actions`. -/
def pEnt155 : List PAct := [.reduce 53 1 0]

/-- Entry 157 of `ts_parse_actions`. -/
def pEnt157 : List PAct := [.reduce 60 3 7]

/-- Entry 159 of `ts_parse_actions`. -/
def pEnt159 : List PAct := [.reduce 60 3 7]

/-- Entry 161 of `ts_parse_actions`. -/
def pEnt161 : List PAct := [.reduce 56 3 0]

/-- Entry 163 of `ts_parse_actions`. -/
def pEnt163 : List PAct := [.reduce 56 3 0]

/-- Entry 165 of `ts_parse_actions`. -/
def pEnt165 : List PAct := [.reduce 56 2 0]

/-- Entry 167 of `ts_parse_actions`. -/
def pEnt167 : List PAct := [.reduce 56 2 0]

/-- Entry 169 of `ts_parse_actions`. -/
def pEnt169 : List PAct := [.reduce 60 5 9]

/-- Entry 171 of `ts_parse_actions`. -/
def pEnt171 : List PAct := [.reduce 60 5 9]

/-- Entry 173 of `ts_parse_actions`. -/
def pEnt173 : List PAct := [.reduce 55 5 0]

/-- Entry 175 of `ts_parse_actions`. -/
def pEnt175 : List PAct := [.reduce 55 5 0]

/-- Entry 177 of `ts_parse_actions`. -/
def pEnt177 : List PAct := [.reduce 56 5 0]

/-- Entry 179 of `ts_parse_actions`. -/
def pEnt179 : List PAct := [.reduce 56 5 0]

/-- Entry 181 of `ts_parse_actions`. -/
def pEnt181 : List PAct := [.reduce 61 3 0]

/-- Entry 183 of `ts_parse_actions`. -/
def pEnt183 : List PAct := [.reduce 61 3 0]

/-- Entry 185 of `ts_parse_actions`. -/
def pEnt185 : List PAct := [.reduce 60 4 8]

/-- Entry 187 of `ts_parse_actions`. -/
def pEnt187 : List PAct := [.reduce 60 4 8]

/-- Entry 189 of `ts_parse_actions`. -/
def pEnt189 : List PAct := [.shift 13]

/-- Entry 191 of `ts_parse_actions`. -/
def pEnt191 : List PAct := [.shift 13]

/-- Entry 193 of `ts_parse_actions`. -/
def pEnt193 : List PAct := [.reduce 55 4 0]

/-- Entry 195 of `ts_parse_actions`. -/
def pEnt195 : List PAct := [.reduce 55 4 0]

/-- Entry 197 of `ts_parse_actions`. -/
def pEnt197 : List PAct := [.reduce 56 4 0]

/-- Entry 199 of `ts_parse_actions`. -/
def pEnt199 : List PAct := [.reduce 56 4 0]

/-- Entry 201 of `ts_parse_actions`. -/
def pEnt201 : List PAct := [.reduce 47 4 5]

/-- Entry 203 of `ts_parse_actions`. -/
def pEnt203 : List PAct := [.shift 14]

/-- Entry 205 of `ts_parse_actions`. -/
def pEnt205 : List PAct := [.shift 12]

/-- Entry 207 of `ts_parse_actions`. -/
def pEnt207 : List PAct := [.shift 119]

/-- Entry 209 of `ts_parse_actions`. -/
def pEnt209 : List PAct := [.shift 8]

/-- Entry 211 of `ts_parse_actions`. -/
def pEnt211 : List PAct := [.reduce 63 1 0]

/-- Entry 213 of `ts_parse_actions`. -/
def pEnt213 : List PAct := [.reduce 42 3 2]

/-- Entry 215 of `ts_parse_actions`. -/
def pEnt215 : List PAct := [.reduce 48 2 1]

/-- Entry 217 of `ts_parse_actions`. -/
def pEnt217 : List PAct := [.reduce 41 1 0]

/-- Entry 219 of `ts_parse_actions`. -/
def pEnt219 : List PAct := [.reduce 45 3 3]

/-- Entry 221 of `ts_parse_actions`. -/
def pEnt221 : List PAct := [.reduce 46 3 3]

/-- Entry 223 of `ts_parse_actions`. -/
def pEnt223 : List PAct := [.reduce 49 2 0]

/-- Entry 225 of `ts_parse_actions`. -/
def pEnt225 : List PAct := [.reduce 43 4 4]

/-- Entry 227 of `ts_parse_actions`. -/
def pEnt227 : List PAct := [.reduce 44 4 4]

/-- Entry 229 of `ts_parse_actions`. -/
def pEnt229 : List PAct := [.shift 37]

/-- Entry 231 of `ts_parse_actions`. -/
def pEnt231 : List PAct := [.shift 144]

/-- Entry 233 of `ts_parse_actions`. -/
def pEnt233 : List PAct := [.shift 140]

/-- Entry 235 of `ts_parse_actions`. -/
def pEnt235 : List PAct := [.reduce 67 2 0, .shiftRep 119]

/-- Entry 238 of `ts_parse_actions`. -/
def pEnt238 : List PAct := [.shift 92]

/-- Entry 240 of `ts_parse_actions`. -/
def pEnt240 : List PAct := [.shift 134]

/-- Entry 242 of `ts_parse_actions`. -/
def pEnt242 : List PAct := [.reduce 49 3 0]

/-- Entry 244 of `ts_parse_actions`. -/
def pEnt244 : List PAct := [.reduce 65 2 0]

/-- Entry 246 of `ts_parse_actions`. -/
def pEnt246 : List PAct := [.shift 40]

/-- Entry 248 of `ts_parse_actions`. -/
def pEnt248 : List PAct := [.shift 86]

/-- Entry 250 of `ts_parse_actions`. -/
def pEnt250 : List PAct := [.shift 15]

/-- Entry 252 of `ts_parse_actions`. -/
def pEnt252 : List PAct := [.shift 85]

/-- Entry 254 of `ts_parse_actions`. -/
def pEnt254 : List PAct := [.shift 81]

/-- Entry 256 of `ts_parse_actions`. -/
def pEnt256 : List PAct := [.shift 7]

/-- Entry 258 of `ts_parse_actions`. -/
def pEnt258 : List PAct := [.shift 88]

/-- Entry 260 of `ts_parse_actions`. -/
def pEnt260 : List PAct := [.shift 42]

/-- Entry 262 of `ts_parse_actions`. -/
def pEnt262 : List PAct := [.shift 5]

/-- Entry 264 of `ts_parse_actions`. -/
def pEnt264 : List PAct := [.shift 30]

/-- Entry 266 of `ts_parse_actions`. -/
def pEnt266 : List PAct := [.shift 45]

/-- Entry 268 of `ts_parse_actions`. -/
def pEnt268 : List PAct := [.reduce 50 3 6]

/-- Entry 270 of `ts_parse_actions`. -/
def pEnt270 : List PAct := [.shift 18]

/-- Entry 272 of `ts_parse_actions`. -/
def pEnt272 : List PAct := [.shift 18]

/-- Entry 274 of `ts_parse_actions`. -/
def pEnt274 : List PAct := [.shift 10]

/-- Entry 276 of `ts_parse_actions`. -/
def pEnt276 : List PAct := [.reduce 57 3 6]

/-- Entry 278 of `ts_parse_actions`. -/
def pEnt278 : List PAct := [.shift 72]

/-- Entry 280 of `ts_parse_actions`. -/
def pEnt280 : List PAct := [.shift 26]

/-- Entry 282 of `ts_parse_actions`. -/
def pEnt282 : List PAct := [.shift 54]

/-- Entry 284 of `ts_parse_actions`. -/
def pEnt284 : List PAct := [.shift 133]

/-- Entry 286 of `ts_parse_actions`. -/
def pEnt286 : List PAct := [.shift 63]

/-- Entry 288 of `ts_parse_actions`. -/
def pEnt288 : List PAct := [.reduce 64 2 0]

/-- Entry 290 of `ts_parse_actions`. -/
def pEnt290 : List PAct := [.reduce 64 2 0, .shiftRep 133]

/-- Entry 293 of `ts_parse_actions`. -/
def pEnt293 : List PAct := [.reduce 65 2 0, .shiftRep 15]

/-- Entry 296 of `ts_parse_actions`. -/
def pEnt296 : List PAct := [.shift 4]

/-- Entry 298 of `ts_parse_actions`. -/
def pEnt298 : List PAct := [.shift 66]

/-- Entry 300 of `ts_parse_actions`. -/
def pEnt300 : List PAct := [.shift 6]

/-- Entry 302 of `ts_parse_actions`. -/
def pEnt302 : List PAct := [.shift 38]

/-- Entry 304 of `ts_parse_actions`. -/
def pEnt304 : List PAct := [.shift 36]

/-- Entry 306 of `ts_parse_actions`. -/
def pEnt306 : List PAct := [.shift 74]

/-- Entry 308 of `ts_parse_actions`. -/
def pEnt308 : List PAct := [.reduce 66 2 0]

/-- Entry 310 of `ts_parse_actions`. -/
def pEnt310 : List PAct := [.reduce 66 2 0, .shiftRep 79]

/-- Entry 313 of `ts_parse_actions`. -/
def pEnt313 : List PAct := [.shift 90]

/-- Entry 315 of `ts_parse_actions`. -/
def pEnt315 : List PAct := [.shift 69]

/-- Entry 317 of `ts_parse_actions`. -/
def pEnt317 : List PAct := [.shift 82]

/-- Entry 319 of `ts_parse_actions`. -/
def pEnt319 : List PAct := [.shift 65]

/-- Entry 321 of `ts_parse_actions`. -/
def pEnt321 : List PAct := [.shift 60]

/-- Entry 323 of `ts_parse_actions`. -/
def pEnt323 : List PAct := [.shift 97]

/-- Entry 325 of `ts_parse_actions`. -/
def pEnt325 : List PAct := [.reduce 64 1 0]

/-- Entry 327 of `ts_parse_actions`. -/
def pEnt327 : List PAct := [.shift 23]

/-- Entry 329 of `ts_parse_actions`. -/
def pEnt329 : List PAct := [.shift 17]

/-- Entry 331 of `ts_parse_actions`. -/
def pEnt331 : List PAct := [.shift 87]

/-- Entry 333 of `ts_parse_actions`. -/
def pEnt333 : List PAct := [.shift 129]

/-- Entry 335 of `ts_parse_actions`. -/
def pEnt335 : List PAct := [.shift 143]

/-- Entry 337 of `ts_parse_actions`. -/
def pEnt337 : List PAct := [.shift 145]

/-- Entry 339 of `ts_parse_actions`. -/
def pEnt339 : List PAct := [.shift 19]

/-- Entry 341 of `ts_parse_actions`. -/
def pEnt341 : List PAct := [.shift 148]

/-- Entry 343 of `ts_parse_actions`. -/
def pEnt343 : List PAct := [.shift 138]

/-- Entry 345 of `ts_parse_actions`. -/
def pEnt345 : List PAct := [.shift 151]

/-- Entry 347 of `ts_parse_actions`. -/
def pEnt347 : List PAct := [.shift 11]

/-- Entry 349 of `ts_parse_actions`. -/
def pEnt349 : List PAct := [.acceptInput]

/-- Entry 351 of `ts_parse_actions`. -/
def pEnt351 : List PAct := [.shift 152]

/-- Entry 353 of `ts_parse_actions`. -/
def pEnt353 : List PAct := [.shift 139]

/-- Entry 355 of `ts_parse_actions`. -/
def pEnt355 : List PAct := [.shift 16]

/-- Entry 357 of `ts_parse_actions`. -/
def pEnt357 : List PAct := [.shift 131]

/-- Entry 359 of `ts_parse_actions`. -/
def pEnt359 : List PAct := [.shift 141]

/-- Entry 361 of `ts_parse_actions`. -/
def pEnt361 : List PAct := [.shift 130]

/-- Entry 363 of `ts_parse_actions`. -/
def pEnt363 : List PAct := [.reduce 62 3 0]

/-- Entry 365 of `ts_parse_actions`. -/
def pEnt365 : List PAct := [.reduce 62 2 0]

/-- `ts_parse_actions`: each entry is a list of parse actions. -/
def pactions (s : Nat) : List PAct :=
  if s < 183 then (if s < 91 then (if s < 45 then (if s < 22 then (if s < 11 then (if s < 5 then (if s < 2 then (if s < 1 then (if s = 0 then pEnt0 else []) else (if s = 1 then pEnt1 else [])) else (if s < 3 then (if s = 2 then [] else []) else (if s < 4 then (if s = 3 then pEnt3 else []) else (if s = 4 then [] else [])))) else (if s < 8 then (if s < 6 then (if s = 5 then pEnt5 else []) else (if s < 7 then (if s = 6 then [] else []) else (if s = 7 then pEnt7 else []))) else (if s < 9 then (if s = 8 then [] else []) else (if s < 10 then (if s = 9 then pEnt9 else []) else (if s = 10 then [] else []))))) else (if s < 16 then (if s < 13 then (if s < 12 then (if s = 11 then pEnt11 else []) else (if s = 12 then [] else [])) else (if s < 14 then (if s = 13 then pEnt13 else []) else (if s < 15 then (if s = 14 then [] else []) else (if s = 15 then pEnt15 else [])))) else (if s < 19 then (if s < 17 then (if s = 16 then [] else []) else (if s < 18 then (if s = 17 then pEnt17 else []) else (if s = 18 then [] else []))) else (if s < 20 then (if s = 19 then pEnt19 else []) else (if s < 21 then (if s = 20 then [] else []) else (if s = 21 then pEnt21 else [])))))) else (if s < 33 then (if s < 27 then (if s < 24 then (if s < 23 then (if s = 22 then [] else []) else (if s = 23 then pEnt23 else [])) else (if s < 25 then (if s = 24 then [] else []) else (if s < 26 then (if s = 25 then pEnt25 else []) else (if s = 26 then [] else [])))) else (if s < 30 then (if s < 28 then (if s = 27 then pEnt27 else []) else (if s < 29 then (if s = 28 then [] else []) else (if s = 29 then pEnt29 else []))) else (if s < 31 then (if s = 30 then [] else []) else (if s < 32 then (if s = 31 then pEnt31 else []) else (if s = 32 then [] else []))))) else (if s < 39 then (if s < 36 then (if s < 34 then (if s = 33 then pEnt33 else []) else (if s < 35 then (if s = 34 then [] else []) else (if s = 35 then pEnt35 else []))) else (if s < 37 then (if s = 36 then [] else []) else (if s < 38 then (if s = 37 then pEnt37 else []) else (if s = 38 then [] else [])))) else (if s < 42 then (if s < 40 then (if s = 39 then pEnt39 else []) else (if s < 41 then (if s = 40 then [] else []) else (if s = 41 then pEnt41 else []))) else (if s < 43 then (if s = 42 then [] else []) else (if s < 44 then (if s = 43 then pEnt43 else []) else (if s = 44 then [] else []))))))) else (if s < 68 then (if s < 56 then (if s < 50 then (if s < 47 then (if s < 46 then (if s = 45 then pEnt45 else []) else (if s = 46 then [] else [])) else (if s < 48 then (if s = 47 then pEnt47 else []) else (if s < 49 then (if s = 48 then [] else []) else (if s = 49 then pEnt49 else [])))) else (if s < 53 then (if s < 51 then (if s = 50 then [] else []) else (if s < 52 then (if s = 51 then pEnt51 else []) else (if s = 52 then [] else []))) else (if s < 54 then (if s = 53 then pEnt53 else []) else (if s < 55 then (if s = 54 then [] else []) else (if s = 55 then pEnt55 else []))))) else (if s < 62 then (if s < 59 then (if s < 57 then (if s = 56 then [] else []) else (if s < 58 then (if s = 57 then pEnt57 else []) else (if s = 58 then [] else []))) else (if s < 60 then (if s = 59 then pEnt59 else []) else (if s < 61 then (if s = 60 then [] else []) else (if s = 61 then pEnt61 else [])))) else (if s < 65 then (if s < 63 then (if s = 62 then [] else []) else (if s < 64 then (if s = 63 then pEnt63 else []) else (if s = 64 then [] else []))) else (if s < 66 then (if s = 65 then pEnt65 else []) else (if s < 67 then (if s = 66 then [] else []) else (if s = 67 then pEnt67 else [])))))) else (if s < 79 then (if s < 73 then (if s < 70 then (if s < 69 then (if s = 68 then [] else []) else (if s = 69 then pEnt69 else [])) else (if s < 71 then (if s = 70 then [] else []) else (if s < 72 then (if s = 71 then pEnt71 else []) else (if s = 72 then [] else [])))) else (if s < 76 then (if s < 74 then (if s = 73 then pEnt73 else []) else (if s < 75 then (if s = 74 then [] else []) else (if s = 75 then pEnt75 else []))) else (if s < 77 then (if s = 76 then [] else []) else (if s < 78 then (if s = 77 then pEnt77 else []) else (if s = 78 then [] else []))))) else (if s < 85 then (if s < 82 then (if s < 80 then (if s = 79 then pEnt79 else []) else (if s < 81 then (if s = 80 then [] else []) else (if s = 81 then pEnt81 else []))) else (if s < 83 then (if s = 82 then [] else []) else (if s < 84 then (if s = 83 then pEnt83 else []) else (if s = 84 then [] else [])))) else (if s < 88 then (if s < 86 then (if s = 85 then pEnt85 else []) else (if s < 87 then (if s = 86 then [] else []) else (if s = 87 then pEnt87 else []))) else (if s < 89 then (if s = 88 then [] else []) else (if s < 90 then (if s = 89 then pEnt89 else []) else (if s = 90 then [] else [])))))))) else (if s < 137 then (if s < 114 then (if s < 102 then (if s < 96 then (if s < 93 then (if s < 92 then (if s = 91 then pEnt91 else []) else (if s = 92 then [] else [])) else (if s < 94 then (if s = 93 then pEnt93 else []) else (if s < 95 then (if s = 94 then [] else []) else (if s = 95 then pEnt95 else [])))) else (if s < 99 then (if s < 97 then (if s = 96 then [] else []) else (if s < 98 then (if s = 97 then pEnt97 else []) else (if s = 98 then [] else []))) else (if s < 100 then (if s = 99 then pEnt99 else []) else (if s < 101 then (if s = 100 then [] else []) else (if s = 101 then [] else []))))) else (if s < 108 then (if s < 105 then (if s < 103 then (if s = 102 then pEnt102 else []) else (if s < 104 then (if s = 103 then [] else []) else (if s = 104 then pEnt104 else []))) else (if s < 106 then (if s = 105 then [] else []) else (if s < 107 then (if s = 106 then pEnt106 else []) else (if s = 107 then [] else [])))) else (if s < 111 then (if s < 109 then (if s = 108 then pEnt108 else []) else (if s < 110 then (if s = 109 then [] else []) else (if s = 110 then pEnt110 else []))) else (if s < 112 then (if s = 111 then [] else []) else (if s < 113 then (if s = 112 then pEnt112 else []) else (if s = 113 then [] else [])))))) else (if s < 125 then (if s < 119 then (if s < 116 then (if s < 115 then (if s = 114 then pEnt114 else []) else (if s = 115 then [] else [])) else (if s < 117 then (if s = 116 then pEnt116 else []) else (if s < 118 then (if s = 117 then [] else []) else (if s = 118 then [] else [])))) else (if s < 122 then (if s < 120 then (if s = 119 then pEnt119 else []) else (if s < 121 then (if s = 120 then [] else []) else (if s = 121 then [] else []))) else (if s < 123 then (if s = 122 then pEnt122 else []) else (if s < 124 then (if s = 123 then [] else []) else (if s = 124 then [] else []))))) else (if s < 131 then (if s < 128 then (if s < 126 then (if s = 125 then pEnt125 else []) else (if s < 127 then (if s = 126 then [] else []) else (if s = 127 then [] else []))) else (if s < 129 then (if s = 128 then pEnt128 else []) else (if s < 130 then (if s = 129 then [] else []) else (if s = 130 then [] else [])))) else (if s < 134 then (if s < 132 then (if s = 131 then pEnt131 else []) else (if s < 133 then (if s = 132 then [] else []) else (if s = 133 then [] else []))) else (if s < 135 then (if s = 134 then pEnt134 else []) else (if s < 136 then (if s = 135 then [] else []) else (if s = 136 then [] else []))))))) else (if s < 160 then (if s < 148 then (if s < 142 then (if s < 139 then (if s < 138 then (if s = 137 then pEnt137 else []) else (if s = 138 then [] else [])) else (if s < 140 then (if s = 139 then pEnt139 else []) else (if s < 141 then (if s = 140 then [] else []) else (if s = 141 then pEnt141 else [])))) else (if s < 145 then (if s < 143 then (if s = 142 then [] else []) else (if s < 144 then (if s = 143 then pEnt143 else []) else (if s = 144 then [] else []))) else (if s < 146 then (if s = 145 then pEnt145 else []) else (if s < 147 then (if s = 146 then [] else []) else (if s = 147 then pEnt147 else []))))) else (if s < 154 then (if s < 151 then (if s < 149 then (if s = 148 then [] else []) else (if s < 150 then (if s = 149 then pEnt149 else []) else (if s = 150 then [] else []))) else (if s < 152 then (if s = 151 then pEnt151 else []) else (if s < 153 then (if s = 152 then [] else []) else (if s = 153 then pEnt153 else [])))) else (if s < 157 then (if s < 155 then (if s = 154 then [] else []) else (if s < 156 then (if s = 155 then pEnt155 else []) else (if s = 156 then [] else []))) else (if s < 158 then (if s = 157 then pEnt157 else []) else (if s < 159 then (if s = 158 then [] else []) else (if s = 159 then pEnt159 else [])))))) else (if s < 171 then (if s < 165 then (if s < 162 then (if s < 161 then (if s = 160 then [] else []) else (if s = 161 then pEnt161 else [])) else (if s < 163 then (if s = 162 then [] else []) else (if s < 164 then (if s = 163 then pEnt163 else []) else (if s = 164 then [] else [])))) else (if s < 168 then (if s < 166 then (if s = 165 then pEnt165 else []) else (if s < 167 then (if s = 166 then [] else []) else (if s = 167 then pEnt167 else []))) else (if s < 169 then (if s = 168 then [] else []) else (if s < 170 then (if s = 169 then pEnt169 else []) else (if s = 170 then [] else []))))) else (if s < 177 then (if s < 174 then (if s < 172 then (if s = 171 then pEnt171 else []) else (if s < 173 then (if s = 172 then [] else []) else (if s = 173 then pEnt173 else []))) else (if s < 175 then (if s = 174 then [] else []) else (if s < 176 then (if s = 175 then pEnt175 else []) else (if s = 176 then [] else [])))) else (if s < 180 then (if s < 178 then (if s = 177 then pEnt177 else []) else (if s < 179 then (if s = 178 then [] else []) else (if s = 179 then pEnt179 else []))) else (if s < 181 then (if s = 180 then [] else []) else (if s < 182 then (if s = 181 then pEnt181 else []) else (if s = 182 then [] else []))))))))) else (if s < 274 then (if s < 228 then (if s < 205 then (if s < 194 then (if s < 188 then (if s < 185 then (if s < 184 then (if s = 183 then pEnt183 else []) else (if s = 184 then [] else [])) else (if s < 186 then (if s = 185 then pEnt185 else []) else (if s < 187 then (if s = 186 then [] else []) else (if s = 187 then pEnt187 else [])))) else (if s < 191 then (if s < 189 then (if s = 188 then [] else []) else (if s < 190 then (if s = 189 then pEnt189 else []) else (if s = 190 then [] else []))) else (if s < 192 then (if s = 191 then pEnt191 else []) else (if s < 193 then (if s = 192 then [] else []) else (if s = 193 then pEnt193 else []))))) else (if s < 199 then (if s < 196 then (if s < 195 then (if s = 194 then [] else []) else (if s = 195 then pEnt195 else [])) else (if s < 197 then (if s = 196 then [] else []) else (if s < 198 then (if s = 197 then pEnt197 else []) else (if s = 198 then [] else [])))) else (if s < 202 then (if s < 200 then (if s = 199 then pEnt199 else []) else (if s < 201 then (if s = 200 then [] else []) else (if s = 201 then pEnt201 else []))) else (if s < 203 then (if s = 202 then [] else []) else (if s < 204 then (if s = 203 then pEnt203 else []) else (if s = 204 then [] else [])))))) else (if s < 216 then (if s < 210 then (if s < 207 then (if s < 206 then (if s = 205 then pEnt205 else []) else (if s = 206 then [] else [])) else (if s < 208 then (if s = 207 then pEnt207 else []) else (if s < 209 then (if s = 208 then [] else []) else (if s = 209 then pEnt209 else [])))) else (if s < 213 then (if s < 211 then (if s = 210 then [] else []) else (if s < 212 then (if s = 211 then pEnt211 else []) else (if s = 212 then [] else []))) else (if s < 214 then (if s = 213 then pEnt213 else []) else (if s < 215 then (if s = 214 then [] else []) else (if s = 215 then pEnt215 else []))))) else (if s < 222 then (if s < 219 then (if s < 217 then (if s = 216 then [] else []) else (if s < 218 then (if s = 217 then pEnt217 else []) else (if s = 218 then [] else []))) else (if s < 220 then (if s = 219 then pEnt219 else []) else (if s < 221 then (if s = 220 then [] else []) else (if s = 221 then pEnt221 else [])))) else (if s < 225 then (if s < 223 then (if s = 222 then [] else []) else (if s < 224 then (if s = 223 then pEnt223 else []) else (if s = 224 then [] else []))) else (if s < 226 then (if s = 225 then pEnt225 else []) else (if s < 227 then (if s = 226 then [] else []) else (if s = 227 then pEnt227 else []))))))) else (if s < 251 then (if s < 239 then (if s < 233 then (if s < 230 then (if s < 229 then (if s = 228 then [] else []) else (if s = 229 then pEnt229 else [])) else (if s < 231 then (if s = 230 then [] else []) else (if s < 232 then (if s = 231 then pEnt231 else []) else (if s = 232 then [] else [])))) else (if s < 236 then (if s < 234 then (if s = 233 then pEnt233 else []) else (if s < 235 then (if s = 234 then [] else []) else (if s = 235 then pEnt235 else []))) else (if s < 237 then (if s = 236 then [] else []) else (if s < 238 then (if s = 237 then [] else []) else (if s = 238 then pEnt238 else []))))) else (if s < 245 then (if s < 242 then (if s < 240 then (if s = 239 then [] else []) else (if s < 241 then (if s = 240 then pEnt240 else []) else (if s = 241 then [] else []))) else (if s < 243 then (if s = 242 then pEnt242 else []) else (if s < 244 then (if s = 243 then [] else []) else (if s = 244 then pEnt244 else [])))) else (if s < 248 then (if s < 246 then (if s = 245 then [] else []) else (if s < 247 then (if s = 246 then pEnt246 else []) else (if s = 247 then [] else []))) else (if s < 249 then (if s = 248 then pEnt248 else []) else (if s < 250 then (if s = 249 then [] else []) else (if s = 250 then pEnt250 else [])))))) else (if s < 262 then (if s < 256 then (if s < 253 then (if s < 252 then (if s = 251 then [] else []) else (if s = 252 then pEnt252 else [])) else (if s < 254 then (if s = 253 then [] else []) else (if s < 255 then (if s = 254 then pEnt254 else []) else (if s = 255 then [] else [])))) else (if s < 259 then (if s < 257 then (if s = 256 then pEnt256 else []) else (if s < 258 then (if s = 257 then [] else []) else (if s = 258 then pEnt258 else []))) else (if s < 260 then (if s = 259 then [] else []) else (if s < 261 then (if s = 260 then pEnt260 else []) else (if s = 261 then [] else []))))) else (if s < 268 then (if s < 265 then (if s < 263 then (if s = 262 then pEnt262 else []) else (if s < 264 then (if s = 263 then [] else []) else (if s = 264 then pEnt264 else []))) else (if s < 266 then (if s = 265 then [] else []) else (if s < 267 then (if s = 266 then pEnt266 else []) else (if s = 267 then [] else [])))) else (if s < 271 then (if s < 269 then (if s = 268 then pEnt268 else []) else (if s < 270 then (if s = 269 then [] else []) else (if s = 270 then pEnt270 else []))) else (if s < 272 then (if s = 271 then [] else []) else (if s < 273 then (if s = 272 then pEnt272 else []) else (if s = 273 then [] else [])))))))) else (if s < 320 then (if s < 297 then (if s < 285 then (if s < 279 then (if s < 276 then (if s < 275 then (if s = 274 then pEnt274 else []) else (if s = 275 then [] else [])) else (if s < 277 then (if s = 276 then pEnt276 else []) else (if s < 278 then (if s = 277 then [] else []) else (if s = 278 then pEnt278 else [])))) else (if s < 282 then (if s < 280 then (if s = 279 then [] else []) else (if s < 281 then (if s = 280 then pEnt280 else []) else (if s = 281 then [] else []))) else (if s < 283 then (if s = 282 then pEnt282 else []) else (if s < 284 then (if s = 283 then [] else []) else (if s = 284 then pEnt284 else []))))) else (if s < 291 then (if s < 288 then (if s < 286 then (if s = 285 then [] else []) else (if s < 287 then (if s = 286 then pEnt286 else []) else (if s = 287 then [] else []))) else (if s < 289 then (if s = 288 then pEnt288 else []) else (if s < 290 then (if s = 289 then [] else []) else (if s = 290 then pEnt290 else [])))) else (if s < 294 then (if s < 292 then (if s = 291 then [] else []) else (if s < 293 then (if s = 292 then [] else []) else (if s = 293 then pEnt293 else []))) else (if s < 295 then (if s = 294 then [] else []) else (if s < 296 then (if s = 295 then [] else []) else (if s = 296 then pEnt296 else [])))))) else (if s < 308 then (if s < 302 then (if s < 299 then (if s < 298 then (if s = 297 then [] else []) else (if s = 298 then pEnt298 else [])) else (if s < 300 then (if s = 299 then [] else []) else (if s < 301 then (if s = 300 then pEnt300 else []) else (if s = 301 then [] else [])))) else (if s < 305 then (if s < 303 then (if s = 302 then pEnt302 else []) else (if s < 304 then (if s = 303 then [] else []) else (if s = 304 then pEnt304 else []))) else (if s < 306 then (if s = 305 then [] else []) else (if s < 307 then (if s = 306 then pEnt306 else []) else (if s = 307 then [] else []))))) else (if s < 314 then (if s < 311 then (if s < 309 then (if s = 308 then pEnt308 else []) else (if s < 310 then (if s = 309 then [] else []) else (if s = 310 then pEnt310 else []))) else (if s < 312 then (if s = 311 then [] else []) else (if s < 313 then (if s = 312 then [] else []) else (if s = 313 then pEnt313 else [])))) else (if s < 317 then (if s < 315 then (if s = 314 then [] else []) else (if s < 316 then (if s = 315 then pEnt315 else []) else (if s = 316 then [] else []))) else (if s < 318 then (if s = 317 then pEnt317 else []) else (if s < 319 then (if s = 318 then [] else []) else (if s = 319 then pEnt319 else []))))))) else (if s < 343 then (if s < 331 then (if s < 325 then (if s < 322 then (if s < 321 then (if s = 320 then [] else []) else (if s = 321 then pEnt321 else [])) else (if s < 323 then (if s = 322 then [] else []) else (if s < 324 then (if s = 323 then pEnt323 else []) else (if s = 324 then [] else [])))) else (if s < 328 then (if s < 326 then (if s = 325 then pEnt325 else []) else (if s < 327 then (if s = 326 then [] else []) else (if s = 327 then pEnt327 else []))) else (if s < 329 then (if s = 328 then [] else []) else (if s < 330 then (if s = 329 then pEnt329 else []) else (if s = 330 then [] else []))))) else (if s < 337 then (if s < 334 then (if s < 332 then (if s = 331 then pEnt331 else []) else (if s < 333 then (if s = 332 then [] else []) else (if s = 333 then pEnt333 else []))) else (if s < 335 then (if s = 334 then [] else []) else (if s < 336 then (if s = 335 then pEnt335 else []) else (if s = 336 then [] else [])))) else (if s < 340 then (if s < 338 then (if s = 337 then pEnt337 else []) else (if s < 339 then (if s = 338 then [] else []) else (if s = 339 then pEnt339 else []))) else (if s < 341 then (if s = 340 then [] else []) else (if s < 342 then (if s = 341 then pEnt341 else []) else (if s = 342 then [] else [])))))) else (if s < 354 then (if s < 348 then (if s < 345 then (if s < 344 then (if s = 343 then pEnt343 else []) else (if s = 344 then [] else [])) else (if s < 346 then (if s = 345 then pEnt345 else []) else (if s < 347 then (if s = 346 then [] else []) else (if s = 347 then pEnt347 else [])))) else (if s < 351 then (if s < 349 then (if s = 348 then [] else []) else (if s < 350 then (if s = 349 then pEnt349 else []) else (if s = 350 then [] else []))) else (if s < 352 then (if s = 351 then pEnt351 else []) else (if s < 353 then (if s = 352 then [] else []) else (if s = 353 then pEnt353 else []))))) else (if s < 360 then (if s < 357 then (if s < 355 then (if s = 354 then [] else []) else (if s < 356 then (if s = 355 then pEnt355 else []) else (if s = 356 then [] else []))) else (if s < 358 then (if s = 357 then pEnt357 else []) else (if s < 359 then (if s = 358 then [] else []) else (if s = 359 then pEnt359 else [])))) else (if s < 363 then (if s < 361 then (if s = 360 then [] else []) else (if s < 362 then (if s = 361 then pEnt361 else []) else (if s = 362 then [] else []))) else (if s < 364 then (if s = 363 then pEnt363 else []) else (if s < 365 then (if s = 364 then [] else []) else (if s = 365 then pEnt365 else [])))))))))

/-- `ts_field_map_slices`: production id to (index, length) into the entries. -/
def fieldSlice (pid : Nat) : Nat × Nat :=
  match pid with
  | 1 => (0, 1)
  | 2 => (1, 2)
  | 3 => (3, 2)
  | 4 => (5, 3)
  | 5 => (8, 2)
  | 6 => (10, 2)
  | 7 => (12, 1)
  | 8 => (13, 2)
  | 9 => (15, 3)
  | _ => (0, 0)

/-- `ts_field_map_entries`: flat list of (field id, child index) pairs. -/
def fieldEntry (i : Nat) : Nat × Nat :=
  match i with
  | 0 => (6, 1)
  | 1 => (2, 2)
  | 2 => (5, 1)
  | 3 => (2, 2)
  | 4 => (4, 1)
  | 5 => (2, 3)
  | 6 => (4, 1)
  | 7 => (7, 2)
  | 8 => (4, 1)
  | 9 => (8, 3)
  | 10 => (3, 0)
  | 11 => (8, 2)
  | 12 => (4, 0)
  | 13 => (1, 2)
  | 14 => (4, 0)
  | 15 => (1, 2)
  | 16 => (1, 3)
  | 17 => (4, 0)
  | _ => (0, 0)

/-- `ts_symbol_metadata`: whether a symbol is visible in the public tree. -/
def symVisible (s : Nat) : Bool :=
  match s with
  | 1 | 2 | 3 | 4 | 5 | 6 | 7 | 8 | 9 | 10 | 11 | 13 | 15 | 20 | 21 | 22 | 23 | 24 | 25 | 26 | 27 | 28 | 29 | 30 | 31 | 32 | 33 | 34 | 35 | 37 | 38 | 40 | 42 | 43 | 44 | 45 | 46 | 47 | 48 | 49 | 50 | 52 | 53 | 54 | 55 | 56 | 57 | 58 | 59 | 60 | 61 | 62 => true
  | _ => false

/-- The token symbol accepted on entry to a lex state (`ACCEPT_TOKEN`). -/
def lexAccept (s : Nat) : Option Nat := (lexStateOf s).accept

/-- One step of the lexing automaton: the first arm whose guard matches the
lookahead decides, exactly like the if-chains of `ts_lex`. -/
def lexStep (s : Nat) (e : Bool) (c : Nat) : LAct :=
  match (lexStateOf s).arms.find? (fun a => condHolds a.cond e c) with
  | some a => if a.isSkip then .skp a.target else .adv a.target
  | none => .stuck

/-- For a parse state and a terminal symbol, the index of the matching entry
of `ts_parse_actions` (0, the empty entry, when there is none). -/
def tblTerm (s t : Nat) : Nat :=
  (((tRowOf s).find? (fun p => p.1 == t)).map Prod.snd).getD 0

/-- A lexed token: its symbol, the byte offset where its text starts (after
any skipped whitespace padding), and the byte offset one past its last byte. -/
structure Tok where
  sym : Nat
  tokStart : Nat
  tokEnd : Nat
deriving DecidableEq, Repr

/-- Run the lexing automaton at end of input.  At end of input the generated
lexer keeps taking transitions (with lookahead 0 and the `eof` flag set)
without moving the cursor until no transition applies; the only such
transition in the transcribed tables is the advance into the accepting state
of the end token.  The cursor stays at `cur`.  Bounded by the number of lex
states. -/
def lexEof : Nat → Nat → Nat → Option (Nat × Nat) → Option (Nat × Nat)
  | 0, _, _, acc => acc
  | f + 1, st, cur, acc =>
    let acc' := match lexAccept st with
      | some sy => some (sy, cur)
      | none => acc
    match lexStep st true 0 with
    | .adv s' => lexEof f s' cur acc'
    | .skp s' => lexEof f s' cur acc'
    | .stuck => acc'

/-- The scanning loop of `ts_lex`.  `rest` is the input from the cursor on,
`cur` the absolute cursor offset, `ts` the current token start (whitespace
skipped so far is the padding `[origin, ts)`), and `acc` the most recent
accepted token (symbol and end offset, `ACCEPT_TOKEN` plus `mark_end`).
On entering a state the state's accept annotation updates `acc`; then the
transition for the lookahead byte is taken; when no transition applies the
last accepted token is produced, or the failure offset `ts` when none was. -/
def lexGo : List Nat → Nat → Nat → Nat → Option (Nat × Nat) → Except Nat Tok
  | [], st, cur, ts, acc =>
    match lexEof 161 st cur acc with
    | some (sy, e) => .ok ⟨sy, ts, e⟩
    | none => .error ts
  | c :: rest, st, cur, ts, acc =>
    let acc' := match lexAccept st with
      | some sy => some (sy, cur)
      | none => acc
    match lexStep st false c with
    | .adv s' => lexGo rest s' (cur + 1) ts acc'
    | .skp s' => lexGo rest s' (cur + 1) (cur + 1) acc'
    | .stuck =>
      match acc' with
      | some (sy, e) => .ok ⟨sy, ts, e⟩
      | none => .error ts

/-- Lex one token of `b` starting at offset `pos` in lex state `m`.  On
failure the error value is the offset of the first byte that no token could
start with (after whitespace padding). -/
def lexToken (b : List Nat) (m pos : Nat) : Except Nat Tok :=
  lexGo (b.drop pos) m pos pos none

/-- A syntax tree.  `leaf` is a shifted token with its byte span; `node` is a
reduced non-terminal carrying its production id and the extra flag (set for
comment nodes, which are the grammar's non-terminal extras); `errs` is an
error node holding the tokens skipped by panic-mode recovery. -/
inductive Tree where
  | leaf (sym tokStart tokEnd : Nat)
  | node (sym pid : Nat) (extra : Bool) (children : List Tree)
  | errs (children : List Tree)
deriving Repr

/-- Whether a subtree is an extra (a comment node or an error node): extras do
not count towards reduction child counts and are invisible to gotos. -/
def isExtraT : Tree → Bool
  | .node _ _ e _ => e
  | .errs _ => true
  | .leaf _ _ _ => false

/-- The state on top of the parse stack; the empty stack is in the start
state 1. -/
def topState : List (Nat × Tree) → Nat
  | [] => 1
  | (s, _) :: _ => s

/-- Pop stack frames until `n` subtrees that are not extras have been popped;
extras encountered on the way are popped along.  Returns the popped subtrees
top-first together with the remaining stack. -/
def popCount : List (Nat × Tree) → Nat → Option (List Tree × List (Nat × Tree))
  | stk, 0 => some ([], stk)
  | [], _ + 1 => none
  | (_, t) :: rest, n + 1 =>
    match popCount rest (if isExtraT t then n + 1 else n) with
    | some (ts, stk') => some (t :: ts, stk')
    | none => none

/-- Split a source-ordered child list into the children of the new parent and
the trailing extras, which are re-pushed onto the stack after a reduction so
that a trailing comment does not end up inside the reduced node. -/
def stripTrailing (l : List Tree) : List Tree × List Tree :=
  let r := l.reverse
  ((r.dropWhile isExtraT).reverse, (r.takeWhile isExtraT).reverse)

/-- Parser configuration: the stack (top first, each frame a state and the
subtree below it), the cursor, the consumed token pieces
`(padding start, token start, token end)` in reverse order, and the
diagnostics (byte offsets) in reverse order. -/
structure Cfg where
  stack : List (Nat × Tree)
  pos : Nat
  pieces : List (Nat × Nat × Nat)
  diags : List Nat
deriving Repr

/-- Apply a reduction: pop `cnt` children, strip trailing extras, build the
parent node (marked extra at the end of a non-terminal extra), and push it on
the goto successor of the uncovered state, followed by the stripped extras. -/
def doReduce (cfg : Cfg) (symb cnt pid : Nat) (extraMark : Bool) : Option Cfg :=
  match popCount cfg.stack cnt with
  | none => none
  | some (popped, stk') =>
    let (kids, trailing) := stripTrailing popped.reverse
    let parent := Tree.node symb pid extraMark kids
    match tblGoto (topState stk') symb with
    | none => none
    | some g =>
      some { cfg with stack := trailing.reverse.map (fun e => (g, e)) ++ (g, parent) :: stk' }

/-- Build the final root from the remaining stack subtrees in source order:
the extras surrounding the accepted root node become its children. -/
def assembleRoot : List Tree → Tree
  | [] => .node 40 0 false []
  | t :: rest =>
    if isExtraT t then
      match assembleRoot rest with
      | .node s p e kids => .node s p e (t :: kids)
      | .leaf s a z => .leaf s a z
      | .errs kids => .errs (t :: kids)
    else
      match t with
      | .node s p _ kids => .node s p false (kids ++ rest)
      | x => .node 40 0 false (x :: rest)

/-- Result of processing one action entry against a lookahead token. -/
inductive ActRes where
  | shifted (cfg : Cfg)
  | reduced (cfg : Cfg)
  | accepted
  | nothing
  | failed

/-- Process the actions of one parse-table entry, following the table
interpretation: repetition shifts are skipped, a plain shift consumes the
lookahead (recording its piece), reductions are applied in place and flagged
so that the same lookahead is dispatched again in the new state. -/
def procActs (pad : Nat) (tok : Tok) : List PAct → Cfg → Bool → ActRes
  | [], cfg, red => if red then .reduced cfg else .nothing
  | .shift s :: _, cfg, _ =>
    .shifted { cfg with
      stack := (s, .leaf tok.sym tok.tokStart tok.tokEnd) :: cfg.stack
      pos := tok.tokEnd
      pieces := (pad, tok.tokStart, tok.tokEnd) :: cfg.pieces }
  | .shiftRep _ :: rest, cfg, red => procActs pad tok rest cfg red
  | .recover :: rest, cfg, red => procActs pad tok rest cfg red
  | .acceptInput :: _, _, _ => .accepted
  | .reduce s n p :: rest, cfg, _ =>
    match doReduce cfg s n p false with
    | some cfg' => procActs pad tok rest cfg' true
    | none => .failed

/-- Synchronizing tokens of panic-mode recovery.  Modelled from the spec:
recovery skips to a top-level keyword, a closing brace, or end of input. -/
def isSyncTok (t : Nat) : Bool :=
  t = 0 || t = 1 || t = 2 || t = 3 || t = 4 || t = 5 || t = 6 || t = 8 || t = 10

/-- Modelled from the spec: the panic-mode skip loop of error recovery, which
is part of the runtime rather than of the transcribed tables.  Tokens are
consumed (lexed in the full lex state 0) into an error node until a
synchronizing token is reached, which is left unconsumed; a byte no token can
start with is consumed as a one-byte error token. -/
def recoverSkip (b : List Nat) :
    Nat → Nat → List (Nat × Nat × Nat) → List Tree →
    Nat × List (Nat × Nat × Nat) × List Tree
  | 0, pos, pieces, toks => (pos, pieces, toks)
  | fuel + 1, pos, pieces, toks =>
    match lexToken b 0 pos with
    | .error _ =>
      if b.length ≤ pos then (pos, pieces, toks)
      else
        recoverSkip b fuel (pos + 1) ((pos, pos, pos + 1) :: pieces)
          (toks ++ [.leaf 999 pos (pos + 1)])
    | .ok tok =>
      if isSyncTok tok.sym then (pos, pieces, toks)
      else
        recoverSkip b fuel tok.tokEnd ((pos, tok.tokStart, tok.tokEnd) :: pieces)
          (toks ++ [.leaf tok.sym tok.tokStart tok.tokEnd])

/-- The parse result: the root tree, the consumed pieces and diagnostics in
source order, and the final cursor. -/
structure Outcome where
  root : Tree
  pieces : List (Nat × Nat × Nat)
  diags : List Nat
  finalPos : Nat
deriving Repr

/-- The table interpreter, modelled from the spec for the parts that are not
in the transcribed tables (the main loop, extras, and panic-mode recovery;
shift/reduce/goto/accept follow the tables themselves).  One iteration:
when the current state marks the end of a non-terminal extra, its reduction
is applied without lexing and the node is marked extra; otherwise a lookahead
token is lexed with the state's lex mode when none is held, and the action
entry for it is processed.  A missing action or a lexing failure produces a
diagnostic and resynchronizes, attaching an error node; at end of input a
partial tree is returned. -/
def runP (b : List Nat) : Nat → Cfg → Option (Nat × Tok) → Option Outcome
  | 0, _, _ => none
  | fuel + 1, cfg, la =>
    let st := topState cfg.stack
    match lexModeOf st with
    | none =>
      match pactions (tblTerm st 0) with
      | .reduce s n p :: _ =>
        match doReduce cfg s n p true with
        | some cfg' => runP b fuel cfg' la
        | none => none
      | _ => none
    | some m =>
      match la with
      | none =>
        match lexToken b m cfg.pos with
        | .ok tok => runP b fuel cfg (some (cfg.pos, tok))
        | .error dpos =>
          if b.length ≤ cfg.pos then
            some { root := assembleRoot ((cfg.stack.map Prod.snd).reverse)
                   pieces := cfg.pieces.reverse
                   diags := (dpos :: cfg.diags).reverse
                   finalPos := cfg.pos }
          else
            match recoverSkip b (b.length + 2 - cfg.pos) (cfg.pos + 1)
                ((cfg.pos, cfg.pos, cfg.pos + 1) :: cfg.pieces)
                [.leaf 999 cfg.pos (cfg.pos + 1)] with
            | (pos', pieces', toks) =>
              runP b fuel { cfg with
                stack := (st, .errs toks) :: cfg.stack
                pos := pos', pieces := pieces', diags := dpos :: cfg.diags } none
      | some (pad, tok) =>
        match procActs pad tok (pactions (tblTerm st tok.sym)) cfg false with
        | .shifted cfg' => runP b fuel cfg' none
        | .reduced cfg' => runP b fuel cfg' (some (pad, tok))
        | .accepted =>
          some { root := assembleRoot ((cfg.stack.map Prod.snd).reverse)
                 pieces := ((pad, tok.tokStart, tok.tokEnd) :: cfg.pieces).reverse
                 diags := cfg.diags.reverse
                 finalPos := tok.tokEnd }
        | .failed => none
        | .nothing =>
          if tok.sym = 0 then
            some { root := assembleRoot ((cfg.stack.map Prod.snd).reverse)
                   pieces := ((pad, tok.tokStart, tok.tokEnd) :: cfg.pieces).reverse
                   diags := (tok.tokStart :: cfg.diags).reverse
                   finalPos := tok.tokEnd }
          else
            match recoverSkip b (b.length + 2 - tok.tokEnd) tok.tokEnd
                ((pad, tok.tokStart, tok.tokEnd) :: cfg.pieces)
                [.leaf tok.sym tok.tokStart tok.tokEnd] with
            | (pos', pieces', toks) =>
              runP b fuel { cfg with
                stack := (st, .errs toks) :: cfg.stack
                pos := pos', pieces := pieces', diags := tok.tokStart :: cfg.diags } none

/-- The initial configuration: empty stack (start state 1), cursor at 0. -/
def initCfg : Cfg := { stack := [], pos := 0, pieces := [], diags := [] }

/-- Parse a whole buffer. -/
def parseBytes (b : List Nat) : Option Outcome :=
  runP b (8 * (b.length + 16)) initCfg none

/-- The bytes of a string (all inputs used below are ASCII). -/
def bytesOf (s : String) : List Nat := s.toList.map Char.toNat

/-- The byte slice `[s, e)` of a buffer. -/
def slice (b : List Nat) (s e : Nat) : List Nat := (b.take e).drop s

/-- The symbol of a tree (error nodes get the out-of-grammar code 1000). -/
def Tree.symOf : Tree → Nat
  | .leaf s _ _ => s
  | .node s _ _ _ => s
  | .errs _ => 1000

/-- The children of a tree. -/
def kidsOf : Tree → List Tree
  | .node _ _ _ k => k
  | .errs k => k
  | .leaf _ _ _ => []

/-- The structural (non-extra) children, the ones field maps index. -/
def structKids (t : Tree) : List Tree :=
  (kidsOf t).filter (fun c => !isExtraT c)

/-- Look a named field up on a node, through its production's field map:
the entries of the production's slice are searched for the field id and the
designated structural child is returned. -/
def fieldOf (t : Tree) (f : Nat) : Option Tree :=
  match t with
  | .node _ pid _ _ =>
    match fieldSlice pid with
    | (i, l) =>
      (List.range l).findSome? fun j =>
        match fieldEntry (i + j) with
        | (ff, ci) => if ff = f then (structKids t).get? ci else none
  | _ => none

/-- Strip the invisible `_expression` wrapper (symbol 51) from a value. -/
def unExpr (t : Tree) : Tree :=
  if t.symOf = 51 then
    match structKids t with
    | [c] => c
    | _ => t
  else t

/-- Fuel for the tree traversals below: an upper bound on the node count of
any tree they are applied to (one unit is spent per visited node, unused
fuel costs nothing). -/
def obsFuel : Nat := 1000000

/-- Worklist scan: whether some tree of the forest contains a node or leaf
with the given symbol. -/
def hasSymW (s : Nat) : Nat → List Tree → Bool
  | 0, _ => false
  | _ + 1, [] => false
  | f + 1, t :: r =>
    match t with
    | .leaf s' _ _ => s' == s || hasSymW s f r
    | .node s' _ _ k => s' == s || hasSymW s f (k ++ r)
    | .errs k => hasSymW s f (k ++ r)

/-- Whether a tree contains a node or leaf with the given symbol. -/
def hasSymT (s : Nat) (t : Tree) : Bool := hasSymW s obsFuel [t]

/-- Worklist scan: whether some tree of the forest contains an error node. -/
def hasErrW : Nat → List Tree → Bool
  | 0, _ => false
  | _ + 1, [] => false
  | f + 1, t :: r =>
    match t with
    | .leaf _ _ _ => hasErrW f r
    | .node _ _ _ k => hasErrW f (k ++ r)
    | .errs _ => true

/-- Whether a tree contains an error node. -/
def hasErrT (t : Tree) : Bool := hasErrW obsFuel [t]

/-- Worklist scan: the texts of all identifier leaves of the forest, in
source order. -/
def idTextsW (b : List Nat) : Nat → List Tree → List (List Nat)
  | 0, _ => []
  | _ + 1, [] => []
  | f + 1, t :: r =>
    match t with
    | .leaf s a e => (if s = 34 then [slice b a e] else []) ++ idTextsW b f r
    | .node _ _ _ k => idTextsW b f (k ++ r)
    | .errs k => idTextsW b f (k ++ r)

/-- The texts of all identifier leaves of a tree, in source order. -/
def idTexts (b : List Nat) (t : Tree) : List (List Nat) := idTextsW b obsFuel [t]

/-- Worklist scan: the start offset of the first token of the forest. -/
def treeStartW : Nat → List Tree → Option Nat
  | 0, _ => none
  | _ + 1, [] => none
  | f + 1, t :: r =>
    match t with
    | .leaf _ a _ => some a
    | .node _ _ _ k => treeStartW f (k ++ r)
    | .errs k => treeStartW f (k ++ r)

/-- The start offset of the first token of a tree. -/
def treeStart (t : Tree) : Option Nat := treeStartW obsFuel [t]

/-- Worklist scan over a reversed forest (children pushed reversed): the end
offset of the last token. -/
def treeEndW : Nat → List Tree → Option Nat
  | 0, _ => none
  | _ + 1, [] => none
  | f + 1, t :: r =>
    match t with
    | .leaf _ _ e => some e
    | .node _ _ _ k => treeEndW f (k.reverse ++ r)
    | .errs k => treeEndW f (k.reverse ++ r)

/-- The end offset of the last token of a tree. -/
def treeEnd (t : Tree) : Option Nat := treeEndW obsFuel [t]

/-- Worklist scan: the top-level statement nodes of the forest (the seven
statement kinds, symbols 42-48), found through the invisible repeat and
`_statement` wrappers; the scan does not descend into statement or error
nodes. -/
def stmtsW : Nat → List Tree → List Tree
  | 0, _ => []
  | _ + 1, [] => []
  | f + 1, t :: r =>
    match t with
    | .leaf _ _ _ => stmtsW f r
    | .node s p e k =>
      if 42 ≤ s ∧ s ≤ 48 then .node s p e k :: stmtsW f r else stmtsW f (k ++ r)
    | .errs _ => stmtsW f r

/-- The top-level statement nodes of a tree. -/
def stmts (t : Tree) : List Tree := stmtsW obsFuel [t]

/-- The root tree of a parse. -/
def parseRoot (b : List Nat) : Option Tree := (parseBytes b).map Outcome.root

/-- The diagnostics of a parse, in source order. -/
def parseDiags (b : List Nat) : Option (List Nat) := (parseBytes b).map Outcome.diags

/-- A shape skeleton of an expression subtree: number literals with their
text, references with their identifier segment texts, binary expressions
with their operator token symbol, anything else opaque. -/
inductive Skel where
  | num (txt : List Nat)
  | ref (segs : List (List Nat))
  | bin (op : Nat) (l r : Skel)
  | other
deriving DecidableEq, Repr

/-- Extract the skeleton of an expression subtree (fuel-bounded). -/
def exprSkel (b : List Nat) : Nat → Tree → Skel
  | 0, _ => .other
  | f + 1, t =>
    let t := unExpr t
    if t.symOf = 53 then
      match treeStart t, treeEnd t with
      | some a, some e => .num (slice b a e)
      | _, _ => .other
    else if t.symOf = 58 then .ref (idTexts b t)
    else if t.symOf = 61 then
      match structKids t with
      | [l, o, r] => .bin o.symOf (exprSkel b f l) (exprSkel b f r)
      | _ => .other
    else .other

/-- The statement nodes of a parse outcome. -/
def stmtsO (o : Outcome) : List Tree := stmts o.root

/-- A named field of the i-th statement of an outcome. -/
def stmtFieldO (o : Outcome) (i f : Nat) : Option Tree :=
  ((stmtsO o).get? i).bind fun s => fieldOf s f

/-- Symbol and source text of a named field of the i-th statement. -/
def fieldSigO (b : List Nat) (o : Outcome) (i f : Nat) : Option (Nat × List Nat) :=
  (stmtFieldO o i f).bind fun t =>
    match treeStart t, treeEnd t with
    | some a, some e => some (t.symOf, slice b a e)
    | _, _ => none

/-- Skeleton of the `value` field of the i-th statement. -/
def valueSkelO (b : List Nat) (o : Outcome) (i : Nat) : Option Skel :=
  (stmtFieldO o i 8).map (exprSkel b 9)

/-- The first attribute node of the `config` block of the first statement. -/
def firstAttrO (o : Outcome) : Option Tree :=
  (stmtFieldO o 0 2).bind fun blk =>
    ((structKids blk).get? 1).bind fun aux => (structKids aux).get? 0

/-- Symbol of the value of the first attribute of the first statement. -/
def attrValueSym (o : Outcome) : Option Nat :=
  (firstAttrO o).bind fun a => (fieldOf a 8).map fun t => (unExpr t).symOf

/-- Skeleton of the value of the first attribute of the first statement. -/
def attrValueSkel (b : List Nat) (o : Outcome) : Option Skel :=
  (firstAttrO o).bind fun a => (fieldOf a 8).map (exprSkel b 9)

/-- Symbols and spans of the root's children. -/
def rootKidsSig (o : Outcome) : List (Nat × Option Nat × Option Nat) :=
  (kidsOf o.root).map fun t => (t.symOf, treeStart t, treeEnd t)

/-- Whether a byte is skippable whitespace (tab, newline, carriage return,
space): exactly the bytes the lexer's `SKIP` transitions accept. -/
def wsByte (c : Nat) : Bool := c == 9 || c == 10 || c == 13 || c == 32

/-- The byte content of a consumed piece: its whitespace padding followed by
its token span. -/
def pieceBytes (b : List Nat) (p : Nat × Nat × Nat) : List Nat :=
  slice b p.1 p.2.1 ++ slice b p.2.1 p.2.2

/-- Well-formedness of the reversed piece list of a configuration whose
cursor is `p`: the pieces tile `[0, p)` back to front, each padding precedes
its token span, and spans stay inside the buffer. -/
def piecesInv (b : List Nat) : List (Nat × Nat × Nat) → Nat → Prop
  | [], p => p = 0
  | (pf, s, e) :: rest, p =>
      e = p ∧ pf ≤ s ∧ s ≤ e ∧ e ≤ b.length ∧ piecesInv b rest pf

/-- Well-formedness of a held lookahead token at cursor `pos`: its padding
starts at the cursor, its span is ordered and inside the buffer, and the end
token reaches the end of the buffer. -/
def laInv (b : List Nat) (pos : Nat) : Option (Nat × Tok) → Prop
  | none => True
  | some (pad, tok) =>
      pad = pos ∧ pad ≤ tok.tokStart ∧ tok.tokStart ≤ tok.tokEnd ∧
      tok.tokEnd ≤ b.length ∧ (tok.sym = 0 → tok.tokEnd = b.length)

/-- Whether a lex state has no skip transitions. -/
def noSkipS (s : Nat) : Bool := (lexStateOf s).arms.all (fun a => !a.isSkip)

/-- Whether a guard matches only whitespace bytes. -/
def condWS : LCond → Bool
  | .anyIn rs => rs.all (fun r => r.1 == r.2 && wsByte r.1)
  | _ => false

/-- Whether a guard is the end-of-input test. -/
def isEofc : LCond → Bool
  | .eofc => true
  | _ => false

/-- Decimal digit bytes. -/
def isDecD (d : Nat) : Prop := 48 ≤ d ∧ d ≤ 57

instance (d : Nat) : Decidable (isDecD d) := by unfold isDecD; infer_instance

/-- Hexadecimal digit bytes. -/
def isHexD (d : Nat) : Prop := (48 ≤ d ∧ d ≤ 57) ∨ (65 ≤ d ∧ d ≤ 70) ∨ (97 ≤ d ∧ d ≤ 102)

instance (d : Nat) : Decidable (isHexD d) := by unfold isHexD; infer_instance

/-- Input of the C1 counterexample: output with a bare identifier name. -/
def c1bad : List Nat := bytesOf ("output myout ") ++ [123] ++ bytesOf (" value = a.b ") ++ [125]

/-- Output statement with a string name and an empty block. -/
def c1out : List Nat := bytesOf ("output ") ++ [34, 111, 34, 32, 123, 32, 125]

/-- Signer statement with string name and type. -/
def c1sig : List Nat := bytesOf ("signer ") ++ [34, 115, 34, 32, 34, 116, 34, 32, 123, 32, 125]

/-- Action statement with string name and type. -/
def c1act : List Nat := bytesOf ("action ") ++ [34, 97, 34, 32, 34, 116, 34, 32, 123, 32, 125]

/-- Addon statement with a string network. -/
def c1add : List Nat := bytesOf ("addon ") ++ [34, 110, 34, 32, 123, 32, 125]

/-- Variable statement with a string name. -/
def c1var : List Nat := bytesOf ("variable ") ++ [34, 118, 34, 32, 123, 32, 125]

/-- Input statement with a string name. -/
def c1inp : List Nat := bytesOf ("input ") ++ [34, 120, 34] ++ bytesOf (" = 1")

/-- Import statement with a string path. -/
def c1imp : List Nat := bytesOf ("import ") ++ [34, 112, 34]

/-- Input whose value is the C2 reference-or-division text a.b/c.d. -/
def c2in : List Nat := bytesOf ("input ") ++ [34, 120, 34] ++ bytesOf (" = a.b/c.d")

/-- Output block with one attribute, for the C3 field claims. -/
def c3in : List Nat := bytesOf ("output ") ++ [34, 111, 34, 32, 123, 32] ++ bytesOf ("value = 1") ++ [32, 125]

/-- The C4 nested-comment text. -/
def c4full : List Nat := bytesOf ("/* a /* b */ c */")

/-- The C4 text up to the first closing delimiter. -/
def c4one : List Nat := bytesOf ("/* a /* b */")

/-- Input whose value is the statement keyword addon, for C5. -/
def c5in : List Nat := bytesOf ("input ") ++ [34, 120, 34] ++ bytesOf (" = addon")

/-- Value with addition then multiplication. -/
def c6a : List Nat := bytesOf ("input ") ++ [34, 120, 34] ++ bytesOf (" = 1 + 2 * 3")

/-- Value with multiplication then addition. -/
def c6b : List Nat := bytesOf ("input ") ++ [34, 120, 34] ++ bytesOf (" = 1 * 2 + 3")

/-- Value with two additive operators. -/
def c6c : List Nat := bytesOf ("input ") ++ [34, 120, 34] ++ bytesOf (" = 1 - 2 + 3")

/-- The input declaration `input "x" = 8 / 4 * 2`. -/
def c6d : List Nat := bytesOf ("input ") ++ [34, 120, 34] ++ bytesOf (" = 8 / 4 * 2")

/-- Attribute value starting with unary minus. -/
def c8neg : List Nat := bytesOf ("output ") ++ [34, 111, 34, 32, 123, 32] ++ bytesOf ("value = -5") ++ [32, 125]

/-- Attribute value starting with a parenthesis. -/
def c8par : List Nat := bytesOf ("output ") ++ [34, 111, 34, 32, 123, 32] ++ bytesOf ("value = (1+2)") ++ [32, 125]

/-- Attribute value that is a function call. -/
def c8fun : List Nat := bytesOf ("output ") ++ [34, 111, 34, 32, 123, 32] ++ bytesOf ("value = f(1)") ++ [32, 125]

/-- A buffer of whitespace and comments only. -/
def c10triv : List Nat := bytesOf (" /* x */ # y")

/-- A malformed buffer for the round-trip witness. -/
def c9mal : List Nat := [64, 32] ++ bytesOf ("output ") ++ [34, 111, 34, 32, 123, 125]

/-! ## Claim C1: what the name/type/network positions accept -/

/-- Claim C1, counterexample: the input `output myout ...` with a bare
identifier name does not parse without error into an output block — the
parse reports diagnostics (the first at byte 7, the identifier) and
produces no statement node at all.  The name position does not accept a
bare identifier token. -/
theorem c1_counterexample :
    (parseBytes c1bad).map (fun o => (o.diags, (stmtsO o).map Tree.symOf)) =
      some ([7, 27, 28], []) := rfl

/-- Claim C1, amended: the name/type/network position after each statement
keyword accepts a string (not a bare identifier): `output`, `variable`,
`addon` take one string before their block, `signer`/`action` take two,
`input` takes one string before `=`, `import` one string path; each parses
without error with the string attached under the corresponding named
field. -/
theorem c1_names_are_strings :
    (parseBytes c1out).map (fun o =>
        (o.diags, (stmtsO o).map Tree.symOf, fieldSigO c1out o 0 4, fieldSigO c1out o 0 2)) =
      some ([], [45], some (52, [34, 111, 34]), some (49, [123, 32, 125])) ∧
    (parseBytes c1sig).map (fun o =>
        (o.diags, (stmtsO o).map Tree.symOf, fieldSigO c1sig o 0 4, fieldSigO c1sig o 0 7)) =
      some ([], [43], some (52, [34, 115, 34]), some (52, [34, 116, 34])) ∧
    (parseBytes c1act).map (fun o =>
        (o.diags, (stmtsO o).map Tree.symOf, fieldSigO c1act o 0 4, fieldSigO c1act o 0 7)) =
      some ([], [44], some (52, [34, 97, 34]), some (52, [34, 116, 34])) ∧
    (parseBytes c1add).map (fun o =>
        (o.diags, (stmtsO o).map Tree.symOf, fieldSigO c1add o 0 5)) =
      some ([], [42], some (52, [34, 110, 34])) ∧
    (parseBytes c1var).map (fun o =>
        (o.diags, (stmtsO o).map Tree.symOf, fieldSigO c1var o 0 4)) =
      some ([], [46], some (52, [34, 118, 34])) ∧
    (parseBytes c1inp).map (fun o =>
        (o.diags, (stmtsO o).map Tree.symOf, fieldSigO c1inp o 0 4, valueSkelO c1inp o 0)) =
      some ([], [47], some (52, [34, 120, 34]), some (.num [49])) ∧
    (parseBytes c1imp).map (fun o =>
        (o.diags, (stmtsO o).map Tree.symOf, fieldSigO c1imp o 0 6)) =
      some ([], [48], some (52, [34, 112, 34])) :=
  ⟨rfl, rfl, rfl, rfl, rfl, rfl, rfl⟩

/-! ## Claim C2: the role of the slash between identifiers -/

/-- Claim C2, counterexample: for the attribute value `a.b/c.d` the parser
does not produce a single reference node — the value node is a binary
expression (symbol 61), not a reference (symbol 58). -/
theorem c2_counterexample :
    (parseBytes c2in).map (fun o =>
        (o.diags, (stmtFieldO o 0 8).map (fun t => (unExpr t).symOf))) =
      some ([], some 61) := rfl

/-- Claim C2, amended: only `.` continues a reference; `/` is the division
operator.  The value `a.b/c.d` parses without error as a binary expression
whose operator token is the slash (symbol 31), whose left operand is the
reference with segments `[a, b]` and whose right operand is the reference
with segments `[c, d]`. -/
theorem c2_slash_is_division :
    (parseBytes c2in).map (fun o => (o.diags, valueSkelO c2in o 0)) =
      some ([], some (.bin 31 (.ref [[97], [98]]) (.ref [[99], [100]]))) := rfl

/-! ## Claim C3: the named fields of an attribute -/

/-- Claim C3, counterexample: on the attribute of `output "o" { value = 1 }`
field lookup with the field `name` (field id 4) returns nothing, not the
identifier — the attribute's identifier child is not attached under
`name`. -/
theorem c3_counterexample :
    (parseBytes c3in).map (fun o =>
        (firstAttrO o).map (fun a => (a.symOf, (fieldOf a 4).map Tree.symOf))) =
      some (some (50, none)) := rfl

/-- Claim C3, amended: an attribute node carries its identifier child under
the field `key` (field id 3) and its expression child under `value` (field
id 8): the attribute production (production id 6) maps `key` to child 0 and
`value` to child 2, and on the parsed attribute the `key` field is the
identifier spanning `value` (bytes 13 to 18) while the `value` field is the
expression child. -/
theorem c3_attribute_fields_key_value :
    fieldSlice 6 = (10, 2) ∧ fieldEntry 10 = (3, 0) ∧ fieldEntry 11 = (8, 2) ∧
    (parseBytes c3in).map (fun o =>
        (firstAttrO o).map (fun a =>
          ((fieldOf a 3).map (fun t => (t.symOf, treeStart t, treeEnd t)),
           (fieldOf a 8).map Tree.symOf))) =
      some (some (some (34, some 13, some 18), some 51)) :=
  ⟨rfl, rfl, rfl, rfl⟩

/-! ## Claim C4: block comments and nesting -/

/-- Claim C4, counterexample: the text `/* a /* b */ c */` does not lex as
one single comment: the comment node ends at the first `*/` (byte 12), the
rest of the text is an error with a diagnostic at byte 13, and the content
scan of the comment lexer (state 7) started after `/*` stops at byte 11
(just before the first closing slash), ignoring the inner `/*`. -/
theorem c4_counterexample :
    (parseBytes c4full).map (fun o => (o.diags, rootKidsSig o)) =
      some ([13], [(62, some 0, some 12), (1000, some 12, some 17)]) ∧
    lexToken c4full 7 2 = .ok ⟨39, 2, 11⟩ :=
  ⟨rfl, rfl⟩

/-- Claim C4, amended: block comments do not nest — the comment token closes
at the first `*/` regardless of inner `/*` occurrences: the prefix
`/* a /* b */` alone parses without error as a runbook whose only child is
one comment node spanning bytes 0 to 12 and containing no statement. -/
theorem c4_comment_closes_at_first_end :
    (parseBytes c4one).map (fun o => (o.diags, rootKidsSig o, (stmtsO o).length)) =
      some ([], [(62, some 0, some 12)], 0) := rfl

/-! ## Claim C5: reservation of keyword spellings -/

/-- Claim C5, counterexample: in the expression lex state (state 2, used in
attribute-value position) the token `addon` is lexed as a plain identifier
(symbol 34), so a keyword spelling can lex as an identifier. -/
theorem c5_counterexample :
    lexToken (bytesOf ("addon")) 2 0 = .ok ⟨34, 0, 5⟩ := rfl

/-- Claim C5, amended: keyword spellings are reserved contextually, not
globally.  In the expression lex state (state 2) every statement keyword
lexes as a plain identifier while the literal keywords `true`/`false`/
`null` still lex as their keyword tokens; in the full lex state (state 0)
all ten keywords lex as keyword tokens; and a statement keyword used as an
attribute value parses without error as a reference over that
identifier. -/
theorem c5_keywords_reserved_only_contextually :
    lexToken (bytesOf ("addon")) 2 0 = .ok ⟨34, 0, 5⟩ ∧
    lexToken (bytesOf ("signer")) 2 0 = .ok ⟨34, 0, 6⟩ ∧
    lexToken (bytesOf ("action")) 2 0 = .ok ⟨34, 0, 6⟩ ∧
    lexToken (bytesOf ("output")) 2 0 = .ok ⟨34, 0, 6⟩ ∧
    lexToken (bytesOf ("variable")) 2 0 = .ok ⟨34, 0, 8⟩ ∧
    lexToken (bytesOf ("input")) 2 0 = .ok ⟨34, 0, 5⟩ ∧
    lexToken (bytesOf ("import")) 2 0 = .ok ⟨34, 0, 6⟩ ∧
    lexToken (bytesOf ("true")) 2 0 = .ok ⟨20, 0, 4⟩ ∧
    lexToken (bytesOf ("false")) 2 0 = .ok ⟨21, 0, 5⟩ ∧
    lexToken (bytesOf ("null")) 2 0 = .ok ⟨22, 0, 4⟩ ∧
    lexToken (bytesOf ("addon")) 0 0 = .ok ⟨1, 0, 5⟩ ∧
    lexToken (bytesOf ("signer")) 0 0 = .ok ⟨2, 0, 6⟩ ∧
    lexToken (bytesOf ("action")) 0 0 = .ok ⟨3, 0, 6⟩ ∧
    lexToken (bytesOf ("output")) 0 0 = .ok ⟨4, 0, 6⟩ ∧
    lexToken (bytesOf ("variable")) 0 0 = .ok ⟨5, 0, 8⟩ ∧
    lexToken (bytesOf ("input")) 0 0 = .ok ⟨6, 0, 5⟩ ∧
    lexToken (bytesOf ("import")) 0 0 = .ok ⟨8, 0, 6⟩ ∧
    lexToken (bytesOf ("true")) 0 0 = .ok ⟨20, 0, 4⟩ ∧
    lexToken (bytesOf ("false")) 0 0 = .ok ⟨21, 0, 5⟩ ∧
    lexToken (bytesOf ("null")) 0 0 = .ok ⟨22, 0, 4⟩ ∧
    (parseBytes c5in).map (fun o => (o.diags, valueSkelO c5in o 0)) =
      some ([], some (.ref [[97, 100, 100, 111, 110]])) :=
  ⟨rfl, rfl, rfl, rfl, rfl, rfl, rfl, rfl, rfl, rfl, rfl, rfl, rfl, rfl, rfl,
   rfl, rfl, rfl, rfl, rfl, rfl⟩

/-! ## Claim C6: precedence and associativity of the binary operators -/

/-- Claim C6: in `1 + 2 * 3` the multiplication is the right operand of the
addition; in `1 * 2 + 3` the multiplication is the left operand of the
addition; within the additive tier `1 - 2 + 3` groups left (the subtraction
is the left operand of the addition); and within the multiplicative tier
`8 / 4 * 2` groups left (the division is the left operand of the
multiplication).  All four values parse without error.  Operator token
symbols: 30 `*`, 31 `/`, 32 `+`, 33 `-`. -/
theorem c6_precedence :
    (parseBytes c6a).map (fun o => (o.diags, valueSkelO c6a o 0)) =
      some ([], some (.bin 32 (.num [49]) (.bin 30 (.num [50]) (.num [51])))) ∧
    (parseBytes c6b).map (fun o => (o.diags, valueSkelO c6b o 0)) =
      some ([], some (.bin 32 (.bin 30 (.num [49]) (.num [50])) (.num [51]))) ∧
    (parseBytes c6c).map (fun o => (o.diags, valueSkelO c6c o 0)) =
      some ([], some (.bin 32 (.bin 33 (.num [49]) (.num [50])) (.num [51]))) ∧
    (parseBytes c6d).map (fun o => (o.diags, valueSkelO c6d o 0)) =
      some ([], some (.bin 30 (.bin 31 (.num [56]) (.num [52])) (.num [50]))) :=
  ⟨rfl, rfl, rfl, rfl⟩

/-! ## Claim C8: no unary minus, no bare parenthesised grouping -/

/-- Claim C8: an attribute value beginning with `-` or `(` is a syntax
error: for `value = -5` and `value = (1+2)` the parse reports its first
diagnostic exactly at the offending byte (offset 21) and the resulting tree
contains no number node (symbol 53) and no binary-expression or
function-call node; the expression lex state (state 2) has no transition
for `-` (byte 45) or `(` (byte 40); and `(` is accepted after an
identifier, where `value = f(1)` parses without error into a function-call
value. -/
theorem c8_no_unary_minus_no_grouping :
    (parseBytes c8neg).map (fun o => (o.diags.head?, hasSymT 53 o.root, hasSymT 61 o.root)) =
      some (some 21, false, false) ∧
    (parseBytes c8par).map (fun o => (o.diags.head?, hasSymT 53 o.root, hasSymT 60 o.root)) =
      some (some 21, false, false) ∧
    lexStep 2 false 45 = .stuck ∧
    lexStep 2 false 40 = .stuck ∧
    (parseBytes c8fun).map (fun o => (o.diags, attrValueSym o)) =
      some ([], some 60) :=
  ⟨rfl, rfl, rfl, rfl, rfl⟩

/-! ## Claim C10: empty and trivia-only buffers -/

/-- Claim C10: parsing the empty buffer succeeds with a runbook root that
has no children at all and no error node; parsing a buffer of whitespace
and comments only succeeds with a runbook root whose children are exactly
the two comment nodes, no statement and no error node; both parses produce
no diagnostics. -/
theorem c10_empty_and_trivia_only :
    (parseBytes ([] : List Nat)).map (fun o =>
        (o.diags, o.root.symOf, (stmtsO o).length, hasErrT o.root, (kidsOf o.root).length)) =
      some ([], 40, 0, false, 0) ∧
    (parseBytes c10triv).map (fun o =>
        (o.diags, o.root.symOf, (stmtsO o).length, hasErrT o.root,
         (kidsOf o.root).map Tree.symOf)) =
      some ([], 40, 0, false, [62, 62]) :=
  ⟨rfl, rfl⟩


/-- Unfolding equation for `lexGo` on a non-empty input. -/
theorem lexGo_cons (c : Nat) (r : List Nat) (st cur ts : Nat) (acc : Option (Nat × Nat)) :
    lexGo (c :: r) st cur ts acc =
      (match lexStep st false c with
       | .adv s' => lexGo r s' (cur + 1) ts
           (match lexAccept st with | some sy => some (sy, cur) | none => acc)
       | .skp s' => lexGo r s' (cur + 1) (cur + 1)
           (match lexAccept st with | some sy => some (sy, cur) | none => acc)
       | .stuck =>
           match (match lexAccept st with | some sy => some (sy, cur) | none => acc) with
           | some (sy, e) => .ok ⟨sy, ts, e⟩
           | none => .error ts) := rfl

/-- Unfolding equation for `lexGo` at end of input. -/
theorem lexGo_nil (st cur ts : Nat) (acc : Option (Nat × Nat)) :
    lexGo [] st cur ts acc =
      (match lexEof 161 st cur acc with
       | some (sy, e) => .ok ⟨sy, ts, e⟩
       | none => .error ts) := rfl

/-- Unfolding equation for `lexEof` with fuel left. -/
theorem lexEof_succ (f st cur : Nat) (acc : Option (Nat × Nat)) :
    lexEof (f + 1) st cur acc =
      (match lexStep st true 0 with
       | .adv s' => lexEof f s' cur
           (match lexAccept st with | some sy => some (sy, cur) | none => acc)
       | .skp s' => lexEof f s' cur
           (match lexAccept st with | some sy => some (sy, cur) | none => acc)
       | .stuck =>
           match lexAccept st with | some sy => some (sy, cur) | none => acc) := rfl

/-- In a state that accepts on entry, the incoming accumulator is
irrelevant: it is overwritten before it can be used. -/
theorem lexGo_acc_overwrite {st sy : Nat} (h : lexAccept st = some sy)
    (rest : List Nat) (cur ts : Nat) (a1 a2 : Option (Nat × Nat)) :
    lexGo rest st cur ts a1 = lexGo rest st cur ts a2 := by
  cases rest with
  | nil =>
    rw [lexGo_nil, lexGo_nil, show (161 : Nat) = 160 + 1 from rfl,
      lexEof_succ, lexEof_succ, h]
  | cons c r =>
    rw [lexGo_cons, lexGo_cons, h]

/-- A range disjunction evaluates to `false` when the byte is in none of the
ranges. -/
theorem any_ranges_false {c : Nat} {rs : List (Nat × Nat)}
    (h : ∀ r ∈ rs, ¬ (r.1 ≤ c ∧ c ≤ r.2)) :
    (rs.any fun r => Nat.ble r.1 c && Nat.ble c r.2) = false := by
  induction rs with
  | nil => rfl
  | cons a l ih =>
    have ha := h a (List.mem_cons_self a l)
    have hl := ih fun r hr => h r (List.mem_cons_of_mem a hr)
    simp only [List.any_cons, hl, Bool.or_false]
    cases hb1 : Nat.ble a.1 c with
    | false => rfl
    | true =>
      cases hb2 : Nat.ble c a.2 with
      | false => rfl
      | true => exact absurd ⟨Nat.le_of_ble_eq_true hb1, Nat.le_of_ble_eq_true hb2⟩ ha

set_option maxHeartbeats 1000000 in
/-- State 45 (after `0x`) is stuck on any byte that is not a hex digit. -/
theorem lexStep_45_nonhex {c : Nat} (h : ¬ isHexD c) : lexStep 45 false c = .stuck := by
  have e : lexStateOf 45 = lexSt45 := rfl
  simp only [isHexD, not_or] at h
  have h' : ∀ r ∈ [((48 : Nat), (57 : Nat)), (65, 70), (97, 102)], ¬ (r.1 ≤ c ∧ c ≤ r.2) := by
    intro r hr
    simp only [List.mem_cons, List.not_mem_nil, or_false] at hr
    rcases hr with rfl | rfl | rfl
    · exact h.1
    · exact h.2.1
    · exact h.2.2
  simp only [lexStep, e, lexSt45, List.find?, condHolds]
  rw [any_ranges_false h']

set_option maxHeartbeats 1000000 in
/-- State 79 (hex digits seen) is stuck on any byte that is not a hex digit. -/
theorem lexStep_79_nonhex {c : Nat} (h : ¬ isHexD c) : lexStep 79 false c = .stuck := by
  have e : lexStateOf 79 = lexSt79 := rfl
  simp only [isHexD, not_or] at h
  have h' : ∀ r ∈ [((48 : Nat), (57 : Nat)), (65, 70), (97, 102)], ¬ (r.1 ≤ c ∧ c ≤ r.2) := by
    intro r hr
    simp only [List.mem_cons, List.not_mem_nil, or_false] at hr
    rcases hr with rfl | rfl | rfl
    · exact h.1
    · exact h.2.1
    · exact h.2.2
  simp only [lexStep, e, lexSt79, List.find?, condHolds]
  rw [any_ranges_false h']

set_option maxHeartbeats 1000000 in
/-- State 44 (after a decimal point) is stuck on any non-digit byte. -/
theorem lexStep_44_nondigit {c : Nat} (h : ¬ isDecD c) : lexStep 44 false c = .stuck := by
  have e : lexStateOf 44 = lexSt44 := rfl
  simp only [isDecD, not_and, not_le] at h
  have h' : ∀ r ∈ [((48 : Nat), (57 : Nat))], ¬ (r.1 ≤ c ∧ c ≤ r.2) := by
    intro r hr
    simp only [List.mem_cons, List.not_mem_nil, or_false] at hr
    subst hr
    exact fun hc => absurd hc.2 (not_le.mpr (h hc.1))
  simp only [lexStep, e, lexSt44, List.find?, condHolds]
  rw [any_ranges_false h']

set_option maxHeartbeats 1000000 in
/-- State 80 (fraction digits seen) is stuck on any non-digit byte. -/
theorem lexStep_80_nondigit {c : Nat} (h : ¬ isDecD c) : lexStep 80 false c = .stuck := by
  have e : lexStateOf 80 = lexSt80 := rfl
  simp only [isDecD, not_and, not_le] at h
  have h' : ∀ r ∈ [((48 : Nat), (57 : Nat))], ¬ (r.1 ≤ c ∧ c ≤ r.2) := by
    intro r hr
    simp only [List.mem_cons, List.not_mem_nil, or_false] at hr
    subst hr
    exact fun hc => absurd hc.2 (not_le.mpr (h hc.1))
  simp only [lexStep, e, lexSt80, List.find?, condHolds]
  rw [any_ranges_false h']

set_option maxHeartbeats 1000000 in
/-- State 82 (integer digits seen) is stuck on any byte that is neither a
digit nor a decimal point. -/
theorem lexStep_82_stop {c : Nat} (h1 : ¬ isDecD c) (h2 : c ≠ 46) : lexStep 82 false c = .stuck := by
  have e : lexStateOf 82 = lexSt82 := rfl
  simp only [isDecD, not_and, not_le] at h1
  have hA : ∀ r ∈ [((46 : Nat), (46 : Nat))], ¬ (r.1 ≤ c ∧ c ≤ r.2) := by
    intro r hr
    simp only [List.mem_cons, List.not_mem_nil, or_false] at hr
    subst hr
    exact fun hc => h2 (Nat.le_antisymm hc.2 hc.1)
  have hB : ∀ r ∈ [((48 : Nat), (57 : Nat))], ¬ (r.1 ≤ c ∧ c ≤ r.2) := by
    intro r hr
    simp only [List.mem_cons, List.not_mem_nil, or_false] at hr
    subst hr
    exact fun hc => absurd hc.2 (not_le.mpr (h1 hc.1))
  simp only [lexStep, e, lexSt82, List.find?, condHolds]
  rw [any_ranges_false hA, any_ranges_false hB]

theorem lexStep_82_digit {d : Nat} (h : isDecD d) : lexStep 82 false d = .adv 82 := by
  obtain ⟨h1, h2⟩ := h
  interval_cases d <;> rfl

theorem lexStep_79_hex {d : Nat} (h : isHexD d) : lexStep 79 false d = .adv 79 := by
  rcases h with ⟨h1, h2⟩ | ⟨h1, h2⟩ | ⟨h1, h2⟩ <;> interval_cases d <;> rfl

theorem lexStep_45_hex {d : Nat} (h : isHexD d) : lexStep 45 false d = .adv 79 := by
  rcases h with ⟨h1, h2⟩ | ⟨h1, h2⟩ | ⟨h1, h2⟩ <;> interval_cases d <;> rfl

theorem lexStep_80_digit {d : Nat} (h : isDecD d) : lexStep 80 false d = .adv 80 := by
  obtain ⟨h1, h2⟩ := h
  interval_cases d <;> rfl

theorem lexStep_44_digit {d : Nat} (h : isDecD d) : lexStep 44 false d = .adv 80 := by
  obtain ⟨h1, h2⟩ := h
  interval_cases d <;> rfl

theorem lexStep_2_digit {d : Nat} (h1 : 49 ≤ d) (h2 : d ≤ 57) : lexStep 2 false d = .adv 82 := by
  interval_cases d <;> rfl

theorem lexStep_81_digit {d : Nat} (h : isDecD d) : lexStep 81 false d = .adv 82 := by
  obtain ⟨h1, h2⟩ := h
  interval_cases d <;> rfl

/-- Running the digit loop of state 82 consumes a block of digits. -/
theorem lexGo_82_digits {ds : List Nat} (h : ∀ d ∈ ds, isDecD d)
    (rest : List Nat) (cur ts : Nat) (acc : Option (Nat × Nat)) :
    lexGo (ds ++ rest) 82 cur ts acc = lexGo rest 82 (cur + ds.length) ts acc := by
  revert h
  induction ds generalizing cur acc with
  | nil => intro h; simp
  | cons d ds ih =>
    intro h
    rw [List.cons_append, lexGo_cons, lexStep_82_digit (h d (List.mem_cons_self d ds)),
      show lexAccept 82 = some 19 from rfl]
    dsimp only
    rw [ih (cur + 1) (some (19, cur)) fun x hx => h x (List.mem_cons_of_mem d hx),
      lexGo_acc_overwrite (show lexAccept 82 = some 19 from rfl) rest (cur + 1 + ds.length) ts
        (some (19, cur)) acc]
    congr 1
    simp [List.length_cons]
    omega

/-- Running the hex loop of state 79 consumes a block of hex digits. -/
theorem lexGo_79_hexes {ds : List Nat} (h : ∀ d ∈ ds, isHexD d)
    (rest : List Nat) (cur ts : Nat) (acc : Option (Nat × Nat)) :
    lexGo (ds ++ rest) 79 cur ts acc = lexGo rest 79 (cur + ds.length) ts acc := by
  revert h
  induction ds generalizing cur acc with
  | nil => intro h; simp
  | cons d ds ih =>
    intro h
    rw [List.cons_append, lexGo_cons, lexStep_79_hex (h d (List.mem_cons_self d ds)),
      show lexAccept 79 = some 17 from rfl]
    dsimp only
    rw [ih (cur + 1) (some (17, cur)) fun x hx => h x (List.mem_cons_of_mem d hx),
      lexGo_acc_overwrite (show lexAccept 79 = some 17 from rfl) rest (cur + 1 + ds.length) ts
        (some (17, cur)) acc]
    congr 1
    simp [List.length_cons]
    omega

/-- Running the digit loop of state 80 consumes a block of digits. -/
theorem lexGo_80_digits {ds : List Nat} (h : ∀ d ∈ ds, isDecD d)
    (rest : List Nat) (cur ts : Nat) (acc : Option (Nat × Nat)) :
    lexGo (ds ++ rest) 80 cur ts acc = lexGo rest 80 (cur + ds.length) ts acc := by
  revert h
  induction ds generalizing cur acc with
  | nil => intro h; simp
  | cons d ds ih =>
    intro h
    rw [List.cons_append, lexGo_cons, lexStep_80_digit (h d (List.mem_cons_self d ds)),
      show lexAccept 80 = some 18 from rfl]
    dsimp only
    rw [ih (cur + 1) (some (18, cur)) fun x hx => h x (List.mem_cons_of_mem d hx),
      lexGo_acc_overwrite (show lexAccept 80 = some 18 from rfl) rest (cur + 1 + ds.length) ts
        (some (18, cur)) acc]
    congr 1
    simp [List.length_cons]
    omega

/-- Leaving state 82 at a non-continuation byte (or end of input) emits the
integer token spanning up to the cursor. -/
theorem lexGo_82_stops {rest : List Nat} (h : ∀ c ∈ rest.take 1, ¬ isDecD c ∧ c ≠ 46)
    (cur ts : Nat) (acc : Option (Nat × Nat)) :
    lexGo rest 82 cur ts acc = .ok ⟨19, ts, cur⟩ := by
  cases rest with
  | nil =>
    rw [lexGo_nil, show (161 : Nat) = 160 + 1 from rfl, lexEof_succ,
      show lexStep 82 true 0 = .stuck from rfl, show lexAccept 82 = some 19 from rfl]
  | cons c r =>
    have hc := h c (by simp)
    rw [lexGo_cons, lexStep_82_stop hc.1 hc.2, show lexAccept 82 = some 19 from rfl]

/-- Leaving state 79 at a non-hex byte (or end of input) emits the hex token
spanning up to the cursor. -/
theorem lexGo_79_stops {rest : List Nat} (h : ∀ c ∈ rest.take 1, ¬ isHexD c)
    (cur ts : Nat) (acc : Option (Nat × Nat)) :
    lexGo rest 79 cur ts acc = .ok ⟨17, ts, cur⟩ := by
  cases rest with
  | nil =>
    rw [lexGo_nil, show (161 : Nat) = 160 + 1 from rfl, lexEof_succ,
      show lexStep 79 true 0 = .stuck from rfl, show lexAccept 79 = some 17 from rfl]
  | cons c r =>
    have hc := h c (by simp)
    rw [lexGo_cons, lexStep_79_nonhex hc, show lexAccept 79 = some 17 from rfl]

/-- Leaving state 80 at a non-digit byte (or end of input) emits the fraction
token spanning up to the cursor. -/
theorem lexGo_80_stops {rest : List Nat} (h : ∀ c ∈ rest.take 1, ¬ isDecD c)
    (cur ts : Nat) (acc : Option (Nat × Nat)) :
    lexGo rest 80 cur ts acc = .ok ⟨18, ts, cur⟩ := by
  cases rest with
  | nil =>
    rw [lexGo_nil, show (161 : Nat) = 160 + 1 from rfl, lexEof_succ,
      show lexStep 80 true 0 = .stuck from rfl, show lexAccept 80 = some 18 from rfl]
  | cons c r =>
    have hc := h c (by simp)
    rw [lexGo_cons, lexStep_80_nondigit hc, show lexAccept 80 = some 18 from rfl]

/-- Getting stuck in state 44 (no accept of its own) falls back to the
accumulated token. -/
theorem lexGo_44_stops {rest : List Nat} (h : ∀ c ∈ rest.take 1, ¬ isDecD c)
    (cur ts sy e : Nat) :
    lexGo rest 44 cur ts (some (sy, e)) = .ok ⟨sy, ts, e⟩ := by
  cases rest with
  | nil =>
    rw [lexGo_nil, show (161 : Nat) = 160 + 1 from rfl, lexEof_succ,
      show lexStep 44 true 0 = .stuck from rfl, show lexAccept 44 = none from rfl]
  | cons c r =>
    have hc := h c (by simp)
    rw [lexGo_cons, lexStep_44_nondigit hc, show lexAccept 44 = none from rfl]

/-- Getting stuck in state 45 (no accept of its own) falls back to the
accumulated token. -/
theorem lexGo_45_stops {rest : List Nat} (h : ∀ c ∈ rest.take 1, ¬ isHexD c)
    (cur ts sy e : Nat) :
    lexGo rest 45 cur ts (some (sy, e)) = .ok ⟨sy, ts, e⟩ := by
  cases rest with
  | nil =>
    rw [lexGo_nil, show (161 : Nat) = 160 + 1 from rfl, lexEof_succ,
      show lexStep 45 true 0 = .stuck from rfl, show lexAccept 45 = none from rfl]
  | cons c r =>
    have hc := h c (by simp)
    rw [lexGo_cons, lexStep_45_nonhex hc, show lexAccept 45 = none from rfl]

/-- `lexToken` from position 0 is the loop on the whole buffer. -/
theorem lexToken_from_zero (b : List Nat) (m : Nat) :
    lexToken b m 0 = lexGo b m 0 0 none := by
  simp [lexToken]

set_option maxHeartbeats 1000000 in
/-- C7: number lexing in expression position (lex state 2).  `0x` followed by
one or more hex digits yields the hex token 17; bare `0x` with no hex digit
falls back to the integer token `0`; one or more decimal digits yield the
integer token 19, also with a leading `0`; digits followed by `.` and one or
more digits yield the fraction token 18; digits followed by `.` and no digit
fall back to the integer token; a leading `-` is not part of a number (the
lexer is stuck on it in expression position), and `e` does not start an
exponent. -/
theorem c7_number_lexing :
    (∀ d ds rest, isHexD d → (∀ x ∈ ds, isHexD x) → (∀ c ∈ rest.take 1, ¬ isHexD c) →
      lexToken (bytesOf ("0x") ++ d :: ds ++ rest) 2 0 = .ok ⟨17, 0, ds.length + 3⟩) ∧
    (∀ rest, (∀ c ∈ rest.take 1, ¬ isHexD c) →
      lexToken (bytesOf ("0x") ++ rest) 2 0 = .ok ⟨19, 0, 1⟩) ∧
    (∀ d ds rest, 49 ≤ d → d ≤ 57 → (∀ x ∈ ds, isDecD x) →
      (∀ c ∈ rest.take 1, ¬ isDecD c ∧ c ≠ 46) →
      lexToken (d :: ds ++ rest) 2 0 = .ok ⟨19, 0, ds.length + 1⟩) ∧
    (∀ e es rest, isDecD e → (∀ x ∈ es, isDecD x) →
      (∀ c ∈ rest.take 1, ¬ isDecD c ∧ c ≠ 46) →
      lexToken (48 :: e :: es ++ rest) 2 0 = .ok ⟨19, 0, es.length + 2⟩) ∧
    (∀ d ds e es rest, 49 ≤ d → d ≤ 57 → (∀ x ∈ ds, isDecD x) → isDecD e →
      (∀ x ∈ es, isDecD x) → (∀ c ∈ rest.take 1, ¬ isDecD c) →
      lexToken (d :: ds ++ 46 :: e :: es ++ rest) 2 0 =
        .ok ⟨18, 0, ds.length + es.length + 3⟩) ∧
    (∀ d ds rest, 49 ≤ d → d ≤ 57 → (∀ x ∈ ds, isDecD x) →
      (∀ c ∈ rest.take 1, ¬ isDecD c) →
      lexToken (d :: ds ++ 46 :: rest) 2 0 = .ok ⟨19, 0, ds.length + 1⟩) ∧
    lexStep 2 false 45 = .stuck ∧
    lexToken (bytesOf ("-5")) 2 0 = .error 0 ∧
    lexToken (bytesOf ("1e5")) 2 0 = .ok ⟨19, 0, 1⟩ := by
  refine ⟨?_, ?_, ?_, ?_, ?_, ?_, rfl, rfl, rfl⟩
  · intro d ds rest hd hds hre
    rw [show bytesOf ("0x") ++ d :: ds ++ rest = 48 :: 120 :: d :: (ds ++ rest) from rfl,
      lexToken_from_zero, lexGo_cons, show lexStep 2 false 48 = .adv 81 from rfl,
      show lexAccept 2 = none from rfl]
    dsimp only
    rw [lexGo_cons, show lexStep 81 false 120 = .adv 45 from rfl,
      show lexAccept 81 = some 19 from rfl]
    dsimp only
    rw [lexGo_cons, lexStep_45_hex hd, show lexAccept 45 = none from rfl]
    dsimp only
    rw [lexGo_79_hexes hds rest 3 0 (some (19, 1)), lexGo_79_stops hre]
    have : 3 + ds.length = ds.length + 3 := by omega
    rw [this]
  · intro rest hre
    rw [show bytesOf ("0x") ++ rest = 48 :: 120 :: rest from rfl,
      lexToken_from_zero, lexGo_cons, show lexStep 2 false 48 = .adv 81 from rfl,
      show lexAccept 2 = none from rfl]
    dsimp only
    rw [lexGo_cons, show lexStep 81 false 120 = .adv 45 from rfl,
      show lexAccept 81 = some 19 from rfl]
    dsimp only
    rw [lexGo_45_stops hre]
  · intro d ds rest h1 h2 hds hre
    rw [lexToken_from_zero]
    simp only [List.cons_append, List.append_assoc]
    rw [lexGo_cons, lexStep_2_digit h1 h2, show lexAccept 2 = none from rfl]
    dsimp only
    rw [lexGo_82_digits hds, lexGo_82_stops hre]
    have : 1 + ds.length = ds.length + 1 := by omega
    rw [this]
  · intro e es rest he hes hre
    rw [lexToken_from_zero]
    simp only [List.cons_append, List.append_assoc]
    rw [lexGo_cons, show lexStep 2 false 48 = .adv 81 from rfl,
      show lexAccept 2 = none from rfl]
    dsimp only
    rw [lexGo_cons, lexStep_81_digit he, show lexAccept 81 = some 19 from rfl]
    dsimp only
    rw [lexGo_82_digits hes, lexGo_82_stops hre]
    have : 1 + 1 + es.length = es.length + 2 := by omega
    rw [this]
  · intro d ds e es rest h1 h2 hds he hes hre
    rw [lexToken_from_zero]
    simp only [List.cons_append, List.append_assoc]
    rw [lexGo_cons, lexStep_2_digit h1 h2, show lexAccept 2 = none from rfl]
    dsimp only
    rw [lexGo_82_digits hds, lexGo_cons,
      show lexStep 82 false 46 = .adv 44 from rfl, show lexAccept 82 = some 19 from rfl]
    dsimp only
    rw [lexGo_cons, lexStep_44_digit he, show lexAccept 44 = none from rfl]
    dsimp only
    rw [lexGo_80_digits hes, lexGo_80_stops hre]
    have : 1 + ds.length + 1 + 1 + es.length = ds.length + es.length + 3 := by omega
    rw [this]
  · intro d ds rest h1 h2 hds hre
    rw [lexToken_from_zero]
    simp only [List.cons_append, List.append_assoc]
    rw [lexGo_cons, lexStep_2_digit h1 h2, show lexAccept 2 = none from rfl]
    dsimp only
    rw [lexGo_82_digits hds, lexGo_cons,
      show lexStep 82 false 46 = .adv 44 from rfl, show lexAccept 82 = some 19 from rfl]
    dsimp only
    rw [lexGo_44_stops hre]
    have : 1 + ds.length = ds.length + 1 := by omega
    rw [this]

/-- Witness for C7 at concrete inputs. -/
theorem c7_number_lexing_witness :
    lexToken (bytesOf ("0x1f")) 2 0 = .ok ⟨17, 0, 4⟩ ∧
    lexToken (bytesOf ("0xg ")) 2 0 = .ok ⟨19, 0, 1⟩ ∧
    lexToken (bytesOf ("17")) 2 0 = .ok ⟨19, 0, 2⟩ ∧
    lexToken (bytesOf ("0123")) 2 0 = .ok ⟨19, 0, 4⟩ ∧
    lexToken (bytesOf ("12.50")) 2 0 = .ok ⟨18, 0, 5⟩ ∧
    lexToken (bytesOf ("12.x")) 2 0 = .ok ⟨19, 0, 2⟩ := by
  refine ⟨?_, ?_, ?_, ?_, ?_, ?_⟩
  · rw [show bytesOf ("0x1f") = bytesOf ("0x") ++ 49 :: [102] ++ [] from rfl]
    exact c7_number_lexing.1 49 [102] [] (by decide) (by decide) (by decide)
  · rw [show bytesOf ("0xg ") = bytesOf ("0x") ++ [103, 32] from rfl]
    exact c7_number_lexing.2.1 [103, 32] (by decide)
  · rw [show bytesOf ("17") = 49 :: [55] ++ [] from rfl]
    exact c7_number_lexing.2.2.1 49 [55] [] (by decide) (by decide) (by decide) (by decide)
  · rw [show bytesOf ("0123") = 48 :: 49 :: [50, 51] ++ [] from rfl]
    exact c7_number_lexing.2.2.2.1 49 [50, 51] [] (by decide) (by decide) (by decide)
  · rw [show bytesOf ("12.50") = 49 :: [50] ++ 46 :: 53 :: [48] ++ [] from rfl]
    exact c7_number_lexing.2.2.2.2.1 49 [50] 53 [48] [] (by decide) (by decide) (by decide)
      (by decide) (by decide) (by decide)
  · rw [show bytesOf ("12.x") = 49 :: [50] ++ 46 :: [120] from rfl]
    exact c7_number_lexing.2.2.2.2.2.1 49 [50] [120] (by decide) (by decide) (by decide)
      (by decide)

/-- Out-of-range lex states are empty. -/
theorem lexStateOf_big {s : Nat} (h : 160 ≤ s) : lexStateOf s = ⟨none, []⟩ := by
  unfold lexStateOf
  repeat rw [if_neg (by omega)]

/-- Out-of-range parse states have no lex mode. -/
theorem lexModeOf_big {s : Nat} (h : 153 ≤ s) : lexModeOf s = none := by
  unfold lexModeOf
  repeat rw [if_neg (by omega)]

/-- Out-of-range parse states have no terminal actions. -/
theorem tRowOf_big {s : Nat} (h : 153 ≤ s) : tRowOf s = [] := by
  unfold tRowOf
  repeat rw [if_neg (by omega)]

set_option maxRecDepth 100000 in
/-- Table fact: a lex state with a skip transition accepts nothing (skips
happen only while scanning the whitespace padding, before any token). -/
theorem skipStatesNoAccept :
    ∀ s, s < 160 → ∀ a ∈ (lexStateOf s).arms, a.isSkip = true →
      (lexStateOf s).accept = none := by decide

set_option maxRecDepth 100000 in
/-- Table fact: skip transitions match only whitespace bytes. -/
theorem skipArmsWhitespace :
    ∀ s, s < 160 → ∀ a ∈ (lexStateOf s).arms, a.isSkip = true →
      condWS a.cond = true := by decide

set_option maxRecDepth 100000 in
/-- Table fact: a transition that is not the end-of-input transition leads to
a state that does not accept the end token, and an advance (non-skip)
transition leads to a state with no skip transitions. -/
theorem armTargets :
    ∀ s, s < 160 → ∀ a ∈ (lexStateOf s).arms, isEofc a.cond = true ∨
      ((lexStateOf a.target).accept ≠ some 0 ∧
        (a.isSkip = true ∨ noSkipS a.target = true)) := by decide

set_option maxRecDepth 100000 in
/-- Table fact: no lex state entered through `ts_lex_modes` accepts the end
token outright. -/
theorem modeStates :
    ∀ s, s < 153 → (lexStateOf ((lexModeOf s).getD 0)).accept ≠ some 0 := by decide

set_option maxRecDepth 100000 in
/-- Table fact: `ACCEPT_INPUT` appears only in action entries for the end
token. -/
theorem acceptOnlyEnd :
    ∀ s, s < 153 → ∀ p ∈ tRowOf s, p.1 = 0 ∨ PAct.acceptInput ∉ pactions p.2 := by decide

/-- An advance step comes from a non-skip, non-eof transition of the state. -/
theorem lexStep_adv_arm {st c s' : Nat} (h : lexStep st false c = .adv s') :
    ∃ a, a ∈ (lexStateOf st).arms ∧ a.isSkip = false ∧ a.target = s' ∧
      isEofc a.cond = false := by
  unfold lexStep at h
  cases hf : (lexStateOf st).arms.find? (fun a => condHolds a.cond false c) with
  | none => simp only [hf] at h; cases h
  | some a =>
    simp only [hf] at h
    have hmem := List.mem_of_find?_eq_some hf
    have hpred := List.find?_some hf
    by_cases hsk : a.isSkip
    · rw [if_pos hsk] at h; cases h
    · rw [if_neg hsk] at h
      cases h
      refine ⟨a, hmem, by simpa using hsk, rfl, ?_⟩
      cases hc : a.cond with
      | eofc => rw [hc] at hpred; simp [condHolds] at hpred
      | anyIn rs => rfl
      | noneOf cs => rfl

/-- A skip step comes from a skip, non-eof transition of the state. -/
theorem lexStep_skp_arm {st c s' : Nat} (h : lexStep st false c = .skp s') :
    ∃ a, a ∈ (lexStateOf st).arms ∧ a.isSkip = true ∧ a.target = s' ∧
      isEofc a.cond = false := by
  unfold lexStep at h
  cases hf : (lexStateOf st).arms.find? (fun a => condHolds a.cond false c) with
  | none => simp only [hf] at h; cases h
  | some a =>
    simp only [hf] at h
    have hmem := List.mem_of_find?_eq_some hf
    have hpred := List.find?_some hf
    by_cases hsk : a.isSkip
    · rw [if_pos hsk] at h
      cases h
      refine ⟨a, hmem, by simpa using hsk, rfl, ?_⟩
      cases hc : a.cond with
      | eofc => rw [hc] at hpred; simp [condHolds] at hpred
      | anyIn rs => rfl
      | noneOf cs => rfl
    · rw [if_neg hsk] at h; cases h

/-- Invariant of the end-of-input loop: accepted ends never exceed the
cursor, stay past the token start, and the end token ends at the cursor. -/
theorem lexEof_spec : ∀ (f st cur ts : Nat) (acc : Option (Nat × Nat)),
    ts ≤ cur →
    (∀ sy e, acc = some (sy, e) → ts ≤ e ∧ e ≤ cur ∧ (sy = 0 → e = cur)) →
    ∀ sy e, lexEof f st cur acc = some (sy, e) →
      ts ≤ e ∧ e ≤ cur ∧ (sy = 0 → e = cur) := by
  intro f
  induction f with
  | zero => intro st cur ts acc hts hacc sy e h; exact hacc sy e h
  | succ f ih =>
    intro st cur ts acc hts hacc sy e h
    rw [lexEof_succ] at h
    have hacc' : ∀ sy e,
        (match lexAccept st with
          | some sy2 => some (sy2, cur)
          | none => acc) = some (sy, e) →
        ts ≤ e ∧ e ≤ cur ∧ (sy = 0 → e = cur) := by
      intro sy e hh
      cases hA : lexAccept st with
      | some sy2 =>
        rw [hA] at hh
        simp only [Option.some.injEq, Prod.mk.injEq] at hh
        obtain ⟨h1, h2⟩ := hh
        exact ⟨by omega, by omega, fun _ => by omega⟩
      | none => rw [hA] at hh; exact hacc sy e hh
    split at h
    · exact ih _ cur ts _ hts hacc' sy e h
    · exact ih _ cur ts _ hts hacc' sy e h
    · exact hacc' sy e h

/-- Main lexer invariant: a token produced by the scanning loop starts at or
after the origin, has an ordered span inside the buffer, and if it is the end
token it ends at the end of the buffer. -/
theorem lexGo_spec (b : List Nat) :
    ∀ (rest : List Nat) (st cur ts pos0 : Nat) (acc : Option (Nat × Nat)),
      rest = b.drop cur → cur ≤ b.length → pos0 ≤ ts → ts ≤ cur →
      (lexStateOf st).accept ≠ some 0 →
      ((ts = cur ∧ acc = none) ∨
        (noSkipS st = true ∧
          ∀ sy e, acc = some (sy, e) → ts ≤ e ∧ e ≤ cur ∧ (sy = 0 → e = b.length))) →
      ∀ tok, lexGo rest st cur ts acc = .ok tok →
        pos0 ≤ tok.tokStart ∧ tok.tokStart ≤ tok.tokEnd ∧ tok.tokEnd ≤ b.length ∧
        (tok.sym = 0 → tok.tokEnd = b.length) := by
  intro rest
  induction rest with
  | nil =>
    intro st cur ts pos0 acc hdrop hcur hp0 htc hst hph tok h
    have hlen : b.length ≤ cur := by
      have := congrArg List.length hdrop
      simp only [List.length_nil, List.length_drop] at this
      omega
    rw [lexGo_nil] at h
    cases hE : lexEof 161 st cur acc with
    | none => simp only [hE] at h; cases h
    | some p =>
      obtain ⟨sy, e⟩ := p
      simp only [hE] at h
      cases h
      dsimp only
      have hacc : ∀ sy e, acc = some (sy, e) → ts ≤ e ∧ e ≤ cur ∧ (sy = 0 → e = cur) := by
        rcases hph with ⟨h1, h2⟩ | ⟨h1, h2⟩
        · intro sy e hh; rw [h2] at hh; cases hh
        · intro sy e hh
          have h3 := h2 sy e hh
          exact ⟨h3.1, h3.2.1, fun h0 => by have := h3.2.2 h0; omega⟩
      have h4 := lexEof_spec 161 st cur ts acc htc hacc sy e hE
      exact ⟨hp0, h4.1, by omega, fun h0 => by have := (h4.2.2 h0); omega⟩
  | cons c r ih =>
    intro st cur ts pos0 acc hdrop hcur hp0 htc hst hph tok h
    have hcl : cur < b.length := by
      have := congrArg List.length hdrop
      simp only [List.length_cons, List.length_drop] at this
      omega
    have hdrop' : r = b.drop (cur + 1) := by
      have h2 := congrArg (List.drop 1) hdrop
      rw [List.drop_drop] at h2
      have h3 : List.drop 1 (c :: r) = r := rfl
      rw [h3] at h2
      exact h2
    rw [lexGo_cons] at h
    cases hstep : lexStep st false c with
    | adv s' =>
      simp only [hstep] at h
      obtain ⟨a, hmem, hski, htgt, hne⟩ := lexStep_adv_arm hstep
      have hlt : st < 160 := by
        by_contra hge
        rw [lexStateOf_big (by omega)] at hmem
        simp at hmem
      have harm := armTargets st hlt a hmem
      rw [hne] at harm
      rcases harm with hfoo | ⟨hne0, hns⟩
      · cases hfoo
      rw [htgt] at hne0 hns
      rcases hns with hbad | hns
      · rw [hski] at hbad; cases hbad
      refine ih s' (cur + 1) ts pos0 _ hdrop' (by omega) hp0 (by omega) hne0 ?_ tok h
      right
      refine ⟨hns, ?_⟩
      intro sy e hh
      cases hA : lexAccept st with
      | some sy2 =>
        rw [hA] at hh
        simp only [Option.some.injEq, Prod.mk.injEq] at hh
        obtain ⟨h1, h2⟩ := hh
        refine ⟨by omega, by omega, ?_⟩
        intro h0
        exfalso
        apply hst
        rw [show (lexStateOf st).accept = lexAccept st from rfl, hA, h1, h0]
      | none =>
        rw [hA] at hh
        rcases hph with ⟨h1, h2⟩ | ⟨h1, h2⟩
        · rw [h2] at hh; cases hh
        · have h3 := h2 sy e hh
          exact ⟨h3.1, by omega, h3.2.2⟩
    | skp s' =>
      simp only [hstep] at h
      obtain ⟨a, hmem, hski, htgt, hne⟩ := lexStep_skp_arm hstep
      have hlt : st < 160 := by
        by_contra hge
        rw [lexStateOf_big (by omega)] at hmem
        simp at hmem
      rcases hph with ⟨hts', hacn⟩ | ⟨hns, hfacts⟩
      · have hAcc : lexAccept st = none := skipStatesNoAccept st hlt a hmem hski
        simp only [hAcc, hacn] at h
        have harm := armTargets st hlt a hmem
        rw [hne] at harm
        rcases harm with hfoo | ⟨hne0, _⟩
        · cases hfoo
        rw [htgt] at hne0
        exact ih s' (cur + 1) (cur + 1) pos0 none hdrop' (by omega) (by omega) (le_refl _)
          hne0 (Or.inl ⟨rfl, rfl⟩) tok h
      · exfalso
        have h5 := List.all_eq_true.mp hns a hmem
        rw [hski] at h5
        cases h5
    | stuck =>
      simp only [hstep] at h
      cases hA : lexAccept st with
      | some sy2 =>
        simp only [hA] at h
        cases h
        dsimp only
        refine ⟨hp0, htc, by omega, ?_⟩
        intro h0
        exfalso
        apply hst
        rw [show (lexStateOf st).accept = lexAccept st from rfl, hA, h0]
      | none =>
        simp only [hA] at h
        rcases hph with ⟨hts', hacn⟩ | ⟨hns, hfacts⟩
        · simp only [hacn] at h; cases h
        · cases hacc2 : acc with
          | none => simp only [hacc2] at h; cases h
          | some p =>
            obtain ⟨sy, e⟩ := p
            simp only [hacc2] at h
            cases h
            dsimp only
            have h3 := hfacts sy e hacc2
            exact ⟨hp0, h3.1, by omega, h3.2.2⟩

/-- Specification of `lexToken` on success. -/
theorem lexToken_ok_spec {b : List Nat} {m pos : Nat} {tok : Tok}
    (h : lexToken b m pos = .ok tok) (hpos : pos ≤ b.length)
    (hm : (lexStateOf m).accept ≠ some 0) :
    pos ≤ tok.tokStart ∧ tok.tokStart ≤ tok.tokEnd ∧ tok.tokEnd ≤ b.length ∧
    (tok.sym = 0 → tok.tokEnd = b.length) :=
  lexGo_spec b (b.drop pos) m pos pos pos none rfl hpos (le_refl _) (le_refl _) hm
    (Or.inl ⟨rfl, rfl⟩) tok h

/-- A reduction changes only the stack: pieces and cursor are untouched. -/
theorem doReduce_pp {cfg : Cfg} {s n p : Nat} {em : Bool} {cfg' : Cfg}
    (h : doReduce cfg s n p em = some cfg') :
    cfg'.pieces = cfg.pieces ∧ cfg'.pos = cfg.pos := by
  unfold doReduce at h
  split at h
  · cases h
  · split at h
    split at h
    · cases h
    · injection h with h
      subst h
      exact ⟨rfl, rfl⟩

/-- A shift records exactly the lookahead piece and moves the cursor to the
token end, whatever reductions were interleaved before it. -/
theorem procActs_shifted {pad : Nat} {tok : Tok} :
    ∀ (acts : List PAct) (cfg : Cfg) (red : Bool) (cfg' : Cfg),
      procActs pad tok acts cfg red = .shifted cfg' →
      cfg'.pieces = (pad, tok.tokStart, tok.tokEnd) :: cfg.pieces ∧
      cfg'.pos = tok.tokEnd := by
  intro acts
  induction acts with
  | nil =>
    intro cfg red cfg' h
    unfold procActs at h
    split at h <;> cases h
  | cons a rest ih =>
    intro cfg red cfg' h
    cases a with
    | shift st =>
      have e : procActs pad tok (.shift st :: rest) cfg red = .shifted { cfg with
          stack := (st, .leaf tok.sym tok.tokStart tok.tokEnd) :: cfg.stack
          pos := tok.tokEnd
          pieces := (pad, tok.tokStart, tok.tokEnd) :: cfg.pieces } := rfl
      rw [e] at h
      injection h with h
      subst h
      exact ⟨rfl, rfl⟩
    | shiftRep st =>
      have e : procActs pad tok (.shiftRep st :: rest) cfg red =
        procActs pad tok rest cfg red := rfl
      rw [e] at h
      exact ih cfg red cfg' h
    | recover =>
      have e : procActs pad tok (.recover :: rest) cfg red =
        procActs pad tok rest cfg red := rfl
      rw [e] at h
      exact ih cfg red cfg' h
    | acceptInput =>
      have e : procActs pad tok (.acceptInput :: rest) cfg red = .accepted := rfl
      rw [e] at h
      cases h
    | reduce sy n p =>
      have e : procActs pad tok (.reduce sy n p :: rest) cfg red =
        (match doReduce cfg sy n p false with
         | some cfg2 => procActs pad tok rest cfg2 true
         | none => .failed) := rfl
      rw [e] at h
      cases hd : doReduce cfg sy n p false with
      | none => simp only [hd] at h; cases h
      | some cfg2 =>
        simp only [hd] at h
        have h2 := ih cfg2 true cfg' h
        have h3 := doReduce_pp hd
        exact ⟨by rw [h2.1, h3.1], h2.2⟩

/-- A dispatch that ends in pending reductions leaves pieces and cursor
untouched. -/
theorem procActs_reduced {pad : Nat} {tok : Tok} :
    ∀ (acts : List PAct) (cfg : Cfg) (red : Bool) (cfg' : Cfg),
      procActs pad tok acts cfg red = .reduced cfg' →
      cfg'.pieces = cfg.pieces ∧ cfg'.pos = cfg.pos := by
  intro acts
  induction acts with
  | nil =>
    intro cfg red cfg' h
    unfold procActs at h
    split at h
    · injection h with h; subst h; exact ⟨rfl, rfl⟩
    · cases h
  | cons a rest ih =>
    intro cfg red cfg' h
    cases a with
    | shift st =>
      have e : procActs pad tok (.shift st :: rest) cfg red = .shifted { cfg with
          stack := (st, .leaf tok.sym tok.tokStart tok.tokEnd) :: cfg.stack
          pos := tok.tokEnd
          pieces := (pad, tok.tokStart, tok.tokEnd) :: cfg.pieces } := rfl
      rw [e] at h
      cases h
    | shiftRep st =>
      have e : procActs pad tok (.shiftRep st :: rest) cfg red =
        procActs pad tok rest cfg red := rfl
      rw [e] at h
      exact ih cfg red cfg' h
    | recover =>
      have e : procActs pad tok (.recover :: rest) cfg red =
        procActs pad tok rest cfg red := rfl
      rw [e] at h
      exact ih cfg red cfg' h
    | acceptInput =>
      have e : procActs pad tok (.acceptInput :: rest) cfg red = .accepted := rfl
      rw [e] at h
      cases h
    | reduce sy n p =>
      have e : procActs pad tok (.reduce sy n p :: rest) cfg red =
        (match doReduce cfg sy n p false with
         | some cfg2 => procActs pad tok rest cfg2 true
         | none => .failed) := rfl
      rw [e] at h
      cases hd : doReduce cfg sy n p false with
      | none => simp only [hd] at h; cases h
      | some cfg2 =>
        simp only [hd] at h
        have h2 := ih cfg2 true cfg' h
        have h3 := doReduce_pp hd
        exact ⟨by rw [h2.1, h3.1], by rw [h2.2, h3.2]⟩

/-- Acceptance can only come from an `ACCEPT_INPUT` entry in the dispatched
action list. -/
theorem procActs_accept_mem {pad : Nat} {tok : Tok} :
    ∀ (acts : List PAct) (cfg : Cfg) (red : Bool),
      procActs pad tok acts cfg red = .accepted → PAct.acceptInput ∈ acts := by
  intro acts
  induction acts with
  | nil =>
    intro cfg red h
    unfold procActs at h
    split at h <;> cases h
  | cons a rest ih =>
    intro cfg red h
    cases a with
    | shift st =>
      have e : procActs pad tok (.shift st :: rest) cfg red = .shifted { cfg with
          stack := (st, .leaf tok.sym tok.tokStart tok.tokEnd) :: cfg.stack
          pos := tok.tokEnd
          pieces := (pad, tok.tokStart, tok.tokEnd) :: cfg.pieces } := rfl
      rw [e] at h
      cases h
    | shiftRep st =>
      have e : procActs pad tok (.shiftRep st :: rest) cfg red =
        procActs pad tok rest cfg red := rfl
      rw [e] at h
      exact List.mem_cons_of_mem _ (ih cfg red h)
    | recover =>
      have e : procActs pad tok (.recover :: rest) cfg red =
        procActs pad tok rest cfg red := rfl
      rw [e] at h
      exact List.mem_cons_of_mem _ (ih cfg red h)
    | acceptInput => exact List.mem_cons_self _ _
    | reduce sy n p =>
      have e : procActs pad tok (.reduce sy n p :: rest) cfg red =
        (match doReduce cfg sy n p false with
         | some cfg2 => procActs pad tok rest cfg2 true
         | none => .failed) := rfl
      rw [e] at h
      cases hd : doReduce cfg sy n p false with
      | none => simp only [hd] at h; cases h
      | some cfg2 =>
        simp only [hd] at h
        exact List.mem_cons_of_mem _ (ih cfg2 true h)

/-- Only the end token can be accepted: `ACCEPT_INPUT` appears in no action
entry dispatched for another token. -/
theorem acceptInput_sym0 {st t : Nat}
    (h : PAct.acceptInput ∈ pactions (tblTerm st t)) : t = 0 := by
  by_contra ht
  rcases Nat.lt_or_ge st 153 with hlt | hge
  · unfold tblTerm at h
    cases hf : (tRowOf st).find? (fun p => p.1 == t) with
    | none =>
      simp only [hf] at h
      rw [show pactions (((none : Option (Nat × Nat)).map Prod.snd).getD 0) = [] from rfl] at h
      simp at h
    | some pr =>
      simp only [hf] at h
      have hmem := List.mem_of_find?_eq_some hf
      have hpred := List.find?_some hf
      have hq := acceptOnlyEnd st hlt pr hmem
      rcases hq with h0 | hnot
      · apply ht
        have : pr.1 = t := by simpa using hpred
        omega
      · exact hnot h
  · unfold tblTerm at h
    rw [tRowOf_big hge] at h
    simp only [List.find?] at h
    rw [show pactions (((none : Option (Nat × Nat)).map Prod.snd).getD 0) = [] from rfl] at h
    simp at h

/-- The lex state named by a parse state's lex mode never accepts the end
token outright. -/
theorem modeAccept {st m : Nat} (h : lexModeOf st = some m) :
    (lexStateOf m).accept ≠ some 0 := by
  rcases Nat.lt_or_ge st 153 with hlt | hge
  · have h2 := modeStates st hlt
    rw [h] at h2
    simpa using h2
  · rw [lexModeOf_big hge] at h
    cases h

/-- The panic-mode skip loop preserves the piece tiling and keeps the cursor
inside the buffer. -/
theorem recoverSkip_inv (b : List Nat) :
    ∀ (fuel pos : Nat) (pieces : List (Nat × Nat × Nat)) (toks : List Tree)
      (q : Nat × List (Nat × Nat × Nat) × List Tree),
      piecesInv b pieces pos → pos ≤ b.length →
      recoverSkip b fuel pos pieces toks = q →
      piecesInv b q.2.1 q.1 ∧ q.1 ≤ b.length := by
  intro fuel
  induction fuel with
  | zero =>
    intro pos pieces toks q hp hl h
    have e : recoverSkip b 0 pos pieces toks = (pos, pieces, toks) := rfl
    rw [e] at h
    subst h
    exact ⟨hp, hl⟩
  | succ f ih =>
    intro pos pieces toks q hp hl h
    have e : recoverSkip b (f + 1) pos pieces toks =
      (match lexToken b 0 pos with
       | .error _ =>
         if b.length ≤ pos then (pos, pieces, toks)
         else
           recoverSkip b f (pos + 1) ((pos, pos, pos + 1) :: pieces)
             (toks ++ [.leaf 999 pos (pos + 1)])
       | .ok tok =>
         if isSyncTok tok.sym then (pos, pieces, toks)
         else
           recoverSkip b f tok.tokEnd ((pos, tok.tokStart, tok.tokEnd) :: pieces)
             (toks ++ [.leaf tok.sym tok.tokStart tok.tokEnd])) := rfl
    rw [e] at h
    cases hlx : lexToken b 0 pos with
    | error d =>
      simp only [hlx] at h
      by_cases hbp : b.length ≤ pos
      · rw [if_pos hbp] at h
        subst h
        exact ⟨hp, hl⟩
      · rw [if_neg hbp] at h
        exact ih (pos + 1) ((pos, pos, pos + 1) :: pieces) (toks ++ [.leaf 999 pos (pos + 1)])
          q ⟨rfl, le_refl _, by omega, by omega, hp⟩ (by omega) h
    | ok tok =>
      simp only [hlx] at h
      by_cases hsy : isSyncTok tok.sym = true
      · rw [if_pos hsy] at h
        subst h
        exact ⟨hp, hl⟩
      · rw [if_neg hsy] at h
        obtain ⟨h1, h2, h3, _⟩ := lexToken_ok_spec hlx hl (by decide)
        exact ih tok.tokEnd ((pos, tok.tokStart, tok.tokEnd) :: pieces)
          (toks ++ [.leaf tok.sym tok.tokStart tok.tokEnd]) q ⟨rfl, h1, h2, h3, hp⟩ h3 h

/-- Glue a prefix and an adjacent slice. -/
theorem take_slice {b : List Nat} {pf e : Nat} (h1 : pf ≤ e) :
    b.take pf ++ slice b pf e = b.take e := by
  unfold slice
  rw [show b.take pf = (b.take e).take pf from by rw [List.take_take, Nat.min_eq_left h1],
    List.take_append_drop]

/-- Glue two adjacent slices. -/
theorem slice_glue {b : List Nat} {pf s e : Nat} (h1 : pf ≤ s) (h2 : s ≤ e)
    (h3 : e ≤ b.length) : slice b pf s ++ slice b s e = slice b pf e := by
  unfold slice
  rw [show b.take s = (b.take e).take s from by rw [List.take_take, Nat.min_eq_left h2]]
  rw [show (b.take e).drop pf = ((b.take e).take s ++ (b.take e).drop s).drop pf from by
    rw [List.take_append_drop]]
  rw [List.drop_append_of_le_length (by simp [List.length_take]; omega)]

/-- A well-formed piece list flattens to the consumed prefix of the buffer. -/
theorem piecesInv_flatten (b : List Nat) :
    ∀ (ps : List (Nat × Nat × Nat)) (p : Nat), piecesInv b ps p →
      (ps.reverse.map (pieceBytes b)).flatten = b.take p := by
  intro ps
  induction ps with
  | nil =>
    intro p hp
    have h0 : p = 0 := hp
    rw [h0]
    rfl
  | cons x rest ih =>
    obtain ⟨pf, s, e⟩ := x
    intro p hp
    obtain ⟨he, h1, h2, h3, hrest⟩ := hp
    rw [List.reverse_cons, List.map_append, List.flatten_append, ih pf hrest]
    simp only [List.map_cons, List.map_nil, List.flatten_cons, List.flatten_nil,
      List.append_nil]
    rw [← he]
    show b.take pf ++ (slice b pf s ++ slice b s e) = b.take e
    rw [slice_glue h1 h2 h3, take_slice (by omega)]

/-- Main driver invariant: a parse outcome's pieces flatten to the whole
buffer and its final cursor is the end of the buffer. -/
theorem runP_inv (b : List Nat) :
    ∀ (fuel : Nat) (cfg : Cfg) (la : Option (Nat × Tok)) (o : Outcome),
      piecesInv b cfg.pieces cfg.pos → cfg.pos ≤ b.length → laInv b cfg.pos la →
      runP b fuel cfg la = some o →
      (o.pieces.map (pieceBytes b)).flatten = b ∧ o.finalPos = b.length := by
  intro fuel
  induction fuel with
  | zero =>
    intro cfg la o _ _ _ h
    have e : runP b 0 cfg la = none := rfl
    rw [e] at h
    cases h
  | succ f ih =>
    intro cfg la o hp hl hla h
    rw [runP] at h
    cases hmode : lexModeOf (topState cfg.stack) with
    | none =>
      simp only [hmode] at h
      cases hpa : pactions (tblTerm (topState cfg.stack) 0) with
      | nil => simp only [hpa] at h; cases h
      | cons a rest =>
        cases a with
        | reduce s n p =>
          simp only [hpa] at h
          cases hd : doReduce cfg s n p true with
          | none => simp only [hd] at h; cases h
          | some cfg' =>
            simp only [hd] at h
            obtain ⟨hq1, hq2⟩ := doReduce_pp hd
            exact ih cfg' la o (by rw [hq1, hq2]; exact hp) (by rw [hq2]; exact hl)
              (by rw [hq2]; exact hla) h
        | shift s => simp only [hpa] at h; cases h
        | shiftRep s => simp only [hpa] at h; cases h
        | acceptInput => simp only [hpa] at h; cases h
        | recover => simp only [hpa] at h; cases h
    | some m =>
      simp only [hmode] at h
      cases la with
      | none =>
        cases hlx : lexToken b m cfg.pos with
        | ok tok =>
          simp only [hlx] at h
          obtain ⟨h1, h2, h3, h4⟩ := lexToken_ok_spec hlx hl (modeAccept hmode)
          exact ih cfg (some (cfg.pos, tok)) o hp hl ⟨rfl, h1, h2, h3, h4⟩ h
        | error dpos =>
          simp only [hlx] at h
          by_cases hbe : b.length ≤ cfg.pos
          · rw [if_pos hbe] at h
            injection h with h
            subst h
            dsimp only
            have hpe : cfg.pos = b.length := by omega
            constructor
            · rw [piecesInv_flatten b cfg.pieces cfg.pos hp, hpe, List.take_length]
            · exact hpe
          · rw [if_neg hbe] at h
            set rq := recoverSkip b (b.length + 2 - cfg.pos) (cfg.pos + 1)
              ((cfg.pos, cfg.pos, cfg.pos + 1) :: cfg.pieces)
              [Tree.leaf 999 cfg.pos (cfg.pos + 1)] with hq
            obtain ⟨pos2, pieces2, toks2⟩ := rq
            obtain ⟨hpi, hpl⟩ := recoverSkip_inv b (b.length + 2 - cfg.pos) (cfg.pos + 1)
              ((cfg.pos, cfg.pos, cfg.pos + 1) :: cfg.pieces)
              [Tree.leaf 999 cfg.pos (cfg.pos + 1)] (pos2, pieces2, toks2)
              ⟨rfl, le_refl _, by omega, by omega, hp⟩ (by omega) hq.symm
            exact ih ⟨(topState cfg.stack, Tree.errs toks2) :: cfg.stack, pos2, pieces2,
              dpos :: cfg.diags⟩ none o hpi hpl trivial h
      | some pr =>
        obtain ⟨pad, tok⟩ := pr
        obtain ⟨hpad, hps, hse, hel, h0⟩ := hla
        cases hpa : procActs pad tok (pactions (tblTerm (topState cfg.stack) tok.sym))
            cfg false with
        | shifted cfg' =>
          simp only [hpa] at h
          obtain ⟨hq1, hq2⟩ := procActs_shifted _ _ _ cfg' hpa
          refine ih cfg' none o ?_ ?_ trivial h
          · rw [hq1, hq2]
            exact ⟨rfl, hps, hse, hel, by rw [hpad]; exact hp⟩
          · rw [hq2]; exact hel
        | reduced cfg' =>
          simp only [hpa] at h
          obtain ⟨hq1, hq2⟩ := procActs_reduced _ _ _ cfg' hpa
          exact ih cfg' (some (pad, tok)) o (by rw [hq1, hq2]; exact hp)
            (by rw [hq2]; exact hl) (by rw [hq2]; exact ⟨hpad, hps, hse, hel, h0⟩) h
        | accepted =>
          simp only [hpa] at h
          injection h with h
          subst h
          dsimp only
          have ht0 : tok.sym = 0 := acceptInput_sym0 (procActs_accept_mem _ _ _ hpa)
          have hend : tok.tokEnd = b.length := h0 ht0
          constructor
          · rw [piecesInv_flatten b ((pad, tok.tokStart, tok.tokEnd) :: cfg.pieces)
              tok.tokEnd ⟨rfl, hps, hse, hel, by rw [hpad]; exact hp⟩,
              hend, List.take_length]
          · exact hend
        | failed => simp only [hpa] at h; cases h
        | nothing =>
          simp only [hpa] at h
          by_cases ht0 : tok.sym = 0
          · rw [if_pos ht0] at h
            injection h with h
            subst h
            dsimp only
            have hend := h0 ht0
            constructor
            · rw [piecesInv_flatten b ((pad, tok.tokStart, tok.tokEnd) :: cfg.pieces)
                tok.tokEnd ⟨rfl, hps, hse, hel, by rw [hpad]; exact hp⟩,
                hend, List.take_length]
            · exact hend
          · rw [if_neg ht0] at h
            set rq := recoverSkip b (b.length + 2 - tok.tokEnd) tok.tokEnd
              ((pad, tok.tokStart, tok.tokEnd) :: cfg.pieces)
              [Tree.leaf tok.sym tok.tokStart tok.tokEnd] with hq
            obtain ⟨pos2, pieces2, toks2⟩ := rq
            obtain ⟨hpi, hpl⟩ := recoverSkip_inv b (b.length + 2 - tok.tokEnd) tok.tokEnd
              ((pad, tok.tokStart, tok.tokEnd) :: cfg.pieces)
              [Tree.leaf tok.sym tok.tokStart tok.tokEnd] (pos2, pieces2, toks2)
              ⟨rfl, hps, hse, hel, by rw [hpad]; exact hp⟩ hel hq.symm
            exact ih ⟨(topState cfg.stack, Tree.errs toks2) :: cfg.stack, pos2, pieces2,
              tok.tokStart :: cfg.diags⟩ none o hpi hpl trivial h

/-- C9: round-trip fidelity.  For any input buffer, including malformed
input, a parse outcome's pieces — each piece being the whitespace padding
followed by the token span that the driver consumed, with trivia skipped by
the lexer's `SKIP` transitions covered by the paddings — concatenate, in
source order, to the original buffer byte for byte, and the final cursor is
the end of the buffer; moreover, the only bytes the transcribed tables ever
skip (the trivia with no token of its own) are the whitespace bytes tab,
newline, carriage return, and space. -/
theorem c9_round_trip {b : List Nat} {o : Outcome} (h : parseBytes b = some o) :
    (o.pieces.map (pieceBytes b)).flatten = b ∧ o.finalPos = b.length ∧
    (∀ s, s < 160 → ∀ a ∈ (lexStateOf s).arms, a.isSkip = true →
      condWS a.cond = true) := by
  have h2 := runP_inv b (8 * (b.length + 16)) initCfg none o rfl (Nat.zero_le _) trivial h
  exact ⟨h2.1, h2.2, skipArmsWhitespace⟩

set_option maxRecDepth 100000 in
/-- Witness for C9 at a concrete malformed input (an `@` byte that no token
can start with, followed by an output block): its pieces flatten back to the
input. -/
theorem c9_round_trip_witness :
    ((parseBytes c9mal).map fun o => (o.pieces.map (pieceBytes c9mal)).flatten) =
      some c9mal := by
  cases hh : parseBytes c9mal with
  | none =>
    exfalso
    have hs : (parseBytes c9mal).isSome = true := by rfl
    rw [hh] at hs
    simp at hs
  | some o =>
    exact congrArg some ((c9_round_trip hh).1)

end Txtx
